import Mathlib

/- Verification development for the CDF constraint-projection engine of the
   numeric_cdf_constraints module: a bounded-simplex projector driven by
   bisection on the Lagrange multiplier, an anti-flatten post-pass that blends
   a Gaussian kernel into too-uniform increments, and the public orchestrator
   enforce_cdf_constraints.  The numeric functions are embedded over an
   arbitrary linear ordered field (instantiated at ℚ and ℝ); the pieces that
   use transcendental functions (the Gaussian kernel and the standard
   deviation) are embedded over ℝ. -/

namespace CdfProj

section Defs

variable {K : Type*} [LinearOrderedField K]

/-- Embedding of numpy's clip: np.clip(x, lo, hi) = minimum(hi, maximum(x, lo)). -/
def clip (lo hi x : K) : K := min hi (max lo x)

/-- Maximum of a list (np.max); only used on nonempty lists. -/
def listMax : List K → K
  | [] => 0
  | x :: xs => xs.foldl max x

/-- Minimum of a list (np.min); only used on nonempty lists. -/
def listMin : List K → K
  | [] => 0
  | x :: xs => xs.foldl min x

/-- Embedding of np.diff: adjacent differences, length one less than the input. -/
def diffs : List K → List K
  | [] => []
  | [_] => []
  | x :: y :: t => (y - x) :: diffs (y :: t)

/-- Helper for the running maximum, carrying the accumulated maximum. -/
def runMaxAux : K → List K → List K
  | _, [] => []
  | acc, x :: xs => max acc x :: runMaxAux (max acc x) xs

/-- Embedding of np.maximum.accumulate: running maximum of a list. -/
def runningMax : List K → List K
  | [] => []
  | x :: xs => x :: runMaxAux x xs

/-- Running partial sums shifted by a base value: cumsum acc d lists
    acc + d0, acc + d0 + d1, ...; this is lower + np.cumsum(d). -/
def cumsum : K → List K → List K
  | _, [] => []
  | acc, x :: xs => (acc + x) :: cumsum (acc + x) xs

/-- Replace the last element of a list by its minimum with u; this is the
    statement cdf_out[-1] = min(cdf_out[-1], upper). -/
def clampLast (u : K) : List K → List K
  | [] => []
  | [x] => [min x u]
  | x :: y :: t => x :: clampLast u (y :: t)

/-- Reconstruction step shared by the orchestrator and the anti-flatten pass:
    cdf_out[0] = lower; cdf_out[1:] = lower + cumsum(d); then the final entry
    is clamped to not exceed upper. -/
def reconstruct (lower upper : K) (d : List K) : List K :=
  clampLast upper (lower :: cumsum lower d)

/-- The quantity S(lam) = sum(clip(d_raw + lam, L, U)) whose root in lam the
    bisection of _project_bounded_simplex searches. -/
def clipSum (d : List K) (L U lam : K) : K :=
  (d.map (fun x => clip L U (x + lam))).sum

/-- The bisection loop of _project_bounded_simplex.  Each iteration evaluates
    S at the midpoint of the bracket, returns the clipped vector when S is
    within tol of the target, and otherwise halves the bracket; when the fuel
    (max_iter) runs out the clipped vector at the final midpoint is returned. -/
def bisect (d : List K) (total L U tol : K) : ℕ → K → K → List K
  | 0, lo, hi => d.map (fun x => clip L U (x + (lo + hi) / 2))
  | fuel + 1, lo, hi =>
    let mid := (lo + hi) / 2
    let s := clipSum d L U mid
    if |s - total| ≤ tol then d.map (fun x => clip L U (x + mid))
    else if total < s then bisect d total L U tol fuel lo mid
    else bisect d total L U tol fuel mid hi

/-- Scalar form of the bisection loop for an input vector whose n entries all
    equal c, in which case S(lam) = n * clip(c + lam, L, U); it returns the
    final Lagrange multiplier lam. -/
def sbis (n : ℕ) (c total L U tol : K) : ℕ → K → K → K
  | 0, lo, hi => (lo + hi) / 2
  | fuel + 1, lo, hi =>
    if |(n : K) * clip L U (c + (lo + hi) / 2) - total| ≤ tol then (lo + hi) / 2
    else if total < (n : K) * clip L U (c + (lo + hi) / 2) then
      sbis n c total L U tol fuel lo ((lo + hi) / 2)
    else sbis n c total L U tol fuel ((lo + hi) / 2) hi

/-- Embedding of _project_bounded_simplex.  The empty vector is returned
    unchanged; otherwise the target sum is clamped into [n*L, n*U], the
    initial bracket is lo = min(L - d_raw) - 1 = L - max(d_raw) - 1 and
    hi = max(U - d_raw) + 1 = U - min(d_raw) + 1, and the bisection runs. -/
def project (dRaw : List K) (total L U tol : K) (maxIter : ℕ) : List K :=
  if dRaw.isEmpty then dRaw
  else
    let n : K := dRaw.length
    let t := clip (n * L) (n * U) total
    let lo := L - listMax dRaw - 1
    let hi := U - listMin dRaw + 1
    bisect dRaw t L U tol maxIter lo hi

/-- The effective lower step bound: min_step, shrunk to max(total/m - 1e-12, 0)
    whenever m * min_step exceeds the available mass. -/
def effL (total : K) (m : ℕ) (minStep : K) : K :=
  if total < (m : K) * minStep then max (total / (m : K) - 1 / 10 ^ 12) 0 else minStep

/-- Arithmetic mean of a list (np.mean). -/
def mean (l : List K) : K := l.sum / (l.length : K)

/-- Population variance of a list, i.e. the square of np.std. -/
def variance (l : List K) : K :=
  ((l.map (fun x => (x - mean l) ^ 2)).sum) / (l.length : K)

/-- Bound on the distance between the sum of the projected vector and the
    clamped target: the tolerance, or the width of the initial bisection
    bracket shrunk by the iteration budget, scaled by the dimension. -/
def projErr (d : List K) (L U tol : K) (fuel : ℕ) : K :=
  max tol ((d.length : K) * ((U - listMin d + 1) - (L - listMax d - 1)) / 2 ^ fuel)

/-- The target sum actually used by the projector: total clamped into
    [n*L, n*U]. -/
def clampTotal (d : List K) (L U total : K) : K :=
  clip ((d.length : K) * L) ((d.length : K) * U) total

end Defs

/-- Lower boundary value determined by the open_lower flag:
    0.001 when the lower tail is open, 0.0 when it is closed. -/
def lowerLimit {K : Type*} [LinearOrderedField K] (openLower : Bool) : K :=
  if openLower then 1 / 1000 else 0

/-- Upper boundary value determined by the open_upper flag:
    0.999 when the upper tail is open, 1.0 when it is closed. -/
def upperLimit {K : Type*} [LinearOrderedField K] (openUpper : Bool) : K :=
  if openUpper then 999 / 1000 else 1

/-- Population standard deviation (np.std). -/
noncomputable def std (l : List ℝ) : ℝ := Real.sqrt (variance l)

/-- Coefficient of variation as computed by the module:
    std(d) / (abs(mean(d)) + 1e-12). -/
noncomputable def cv (l : List ℝ) : ℝ := std l / (|mean l| + 1 / 10 ^ 12)

/-- Unnormalized Gaussian kernel over m increment positions with
    center (m-1)/2 and sigma = max(m/4, 1). -/
noncomputable def gaussKer (m : ℕ) : List ℝ :=
  (List.range m).map
    (fun i : ℕ => Real.exp (-(((i : ℝ) - ((m : ℝ) - 1) / 2) / max ((m : ℝ) / 4) 1) ^ 2 / 2))

/-- Blended increment vector of the anti-flatten pass:
    d_tilt = (1 - blend) * d + blend * (w * sum(d)) where w is the Gaussian
    kernel over len(d) positions normalized to sum to one. -/
noncomputable def tiltVec (d : List ℝ) (blend : ℝ) : List ℝ :=
  List.zipWith (fun di wi => (1 - blend) * di + blend * (wi * d.sum)) d
    ((gaussKer d.length).map (fun x => x / (gaussKer d.length).sum))

/-- Embedding of _anti_flatten_postpass: return the input unchanged when the
    increments are empty, when their mean is nonpositive, or when their
    coefficient of variation reaches cv_thresh; otherwise blend the normalized
    Gaussian kernel (scaled by the total mass) into the increments with
    weight blend, recompute the bounds from the open flags, re-project with
    a feasibility-shrunk lower step bound, and reconstruct. -/
noncomputable def antiFlatten (cdfIn : List ℝ) (openLower openUpper : Bool)
    (minStep maxStep cvThresh blend : ℝ) : List ℝ :=
  let d := diffs cdfIn
  if d.isEmpty then cdfIn
  else if mean d ≤ 0 then cdfIn
  else if cvThresh ≤ cv d then cdfIn
  else
    let lower : ℝ := lowerLimit openLower
    let upper : ℝ := upperLimit openUpper
    let total := upper - lower
    let L := effL total d.length minStep
    reconstruct lower upper (project (tiltVec d blend) total L maxStep (1 / 10 ^ 12) 60)

/-- Embedding of enforce_cdf_constraints: on inputs with at least two points,
    clamp to [0,1], force monotonicity by a running maximum, take nonnegative
    increments, shrink the lower step bound if needed, project onto the
    bounded simplex, reconstruct anchored at lower_limit with the final point
    clamped to upper_limit, and run the anti-flatten post-pass with the same
    effective lower bound, cv threshold 0.10 and blend 0.20. -/
noncomputable def enforce (cdfRaw : List ℝ) (openLower openUpper : Bool)
    (minStep maxStep : ℝ) : List ℝ :=
  if cdfRaw.length < 2 then cdfRaw
  else
    let lower : ℝ := lowerLimit openLower
    let upper : ℝ := upperLimit openUpper
    let c := runningMax (cdfRaw.map (clip 0 1))
    let dRaw := (diffs c).map (fun x => max x 0)
    let total := upper - lower
    let L := effL total (cdfRaw.length - 1) minStep
    let dProj := project dRaw total L maxStep (1 / 10 ^ 12) 60
    antiFlatten (reconstruct lower upper dProj) openLower openUpper L maxStep
      (1 / 10) (1 / 5)

/-- Default minimum step of the module (5e-05). -/
noncomputable def minStepD : ℝ := 1 / 20000

/-- Default maximum step of the module (0.59 - 1e-6). -/
noncomputable def maxStepD : ℝ := 589999 / 1000000

section ClipLemmas

variable {K : Type*} [LinearOrderedField K]

theorem clip_le_hi (lo hi x : K) : clip lo hi x ≤ hi := min_le_left _ _

theorem lo_le_clip {lo hi : K} (h : lo ≤ hi) (x : K) : lo ≤ clip lo hi x :=
  le_min h (le_max_left _ _)

theorem clip_mono (lo hi : K) {x y : K} (h : x ≤ y) : clip lo hi x ≤ clip lo hi y :=
  min_le_min le_rfl (max_le_max le_rfl h)

theorem clip_lipschitz (lo hi x y : K) : |clip lo hi x - clip lo hi y| ≤ |x - y| := by
  have h1 : |clip lo hi x - clip lo hi y| ≤ max |hi - hi| |max lo x - max lo y| :=
    abs_min_sub_min_le_max hi (max lo x) hi (max lo y)
  have h2 : |max lo x - max lo y| ≤ |x - y| := by
    have := abs_max_sub_max_le_abs x y lo
    simpa [max_comm lo x, max_comm lo y] using this
  have h3 : |hi - hi| = 0 := by simp
  calc |clip lo hi x - clip lo hi y| ≤ max |hi - hi| |max lo x - max lo y| := h1
    _ ≤ |x - y| := by rw [h3]; exact max_le (abs_nonneg _) h2

theorem clip_of_le {lo hi x : K} (hlh : lo ≤ hi) (h : x ≤ lo) : clip lo hi x = lo := by
  unfold clip
  rw [max_eq_left h, min_eq_right hlh]

theorem clip_of_ge {lo hi x : K} (hlh : lo ≤ hi) (h : hi ≤ x) : clip lo hi x = hi := by
  unfold clip
  rw [max_eq_right (hlh.trans h), min_eq_left h]

theorem clip_of_mem {lo hi x : K} (h1 : lo ≤ x) (h2 : x ≤ hi) : clip lo hi x = x := by
  unfold clip
  rw [max_eq_right h1, min_eq_right h2]

theorem min_le_clip (lo hi x : K) : min hi x ≤ clip lo hi x :=
  min_le_min le_rfl (le_max_right _ _)

theorem clip_le_max (lo hi x : K) : clip lo hi x ≤ max lo x := min_le_right _ _

end ClipLemmas

section ListMinMax

variable {K : Type*} [LinearOrderedField K]

theorem le_foldl_max (b : K) (l : List K) :
    b ≤ l.foldl max b ∧ ∀ x ∈ l, x ≤ l.foldl max b := by
  induction l generalizing b with
  | nil => exact ⟨le_rfl, by simp⟩
  | cons y t ih =>
    refine ⟨?_, ?_⟩
    · exact le_trans (le_max_left b y) (ih (max b y)).1
    · intro x hx
      rcases List.mem_cons.mp hx with h | h
      · subst h
        exact le_trans (le_max_right b x) (ih (max b x)).1
      · exact (ih (max b y)).2 x h

theorem foldl_min_le (b : K) (l : List K) :
    l.foldl min b ≤ b ∧ ∀ x ∈ l, l.foldl min b ≤ x := by
  induction l generalizing b with
  | nil => exact ⟨le_rfl, by simp⟩
  | cons y t ih =>
    refine ⟨?_, ?_⟩
    · exact le_trans (ih (min b y)).1 (min_le_left b y)
    · intro x hx
      rcases List.mem_cons.mp hx with h | h
      · subst h
        exact le_trans (ih (min b x)).1 (min_le_right b x)
      · exact (ih (min b y)).2 x h

theorem le_listMax {l : List K} : ∀ x ∈ l, x ≤ listMax l := by
  cases l with
  | nil => simp
  | cons y t =>
    intro x hx
    rcases List.mem_cons.mp hx with h | h
    · subst h; exact (le_foldl_max x t).1
    · exact (le_foldl_max y t).2 x h

theorem listMin_le {l : List K} : ∀ x ∈ l, listMin l ≤ x := by
  cases l with
  | nil => simp
  | cons y t =>
    intro x hx
    rcases List.mem_cons.mp hx with h | h
    · subst h; exact (foldl_min_le x t).1
    · exact (foldl_min_le y t).2 x h

theorem listMin_le_listMax {l : List K} (h : l ≠ []) : listMin l ≤ listMax l := by
  cases l with
  | nil => exact absurd rfl h
  | cons y t => exact le_trans (listMin_le y (by simp)) (le_listMax y (by simp))

theorem foldl_max_replicate_self (k : ℕ) (c : K) :
    (List.replicate k c).foldl max c = c := by
  induction k with
  | zero => rfl
  | succ n ih =>
    rw [List.replicate_succ]
    show (List.replicate n c).foldl max (max c c) = c
    rw [max_self]; exact ih

theorem foldl_min_replicate_self (k : ℕ) (c : K) :
    (List.replicate k c).foldl min c = c := by
  induction k with
  | zero => rfl
  | succ n ih =>
    rw [List.replicate_succ]
    show (List.replicate n c).foldl min (min c c) = c
    rw [min_self]; exact ih

theorem listMax_replicate (n : ℕ) (c : K) (h : n ≠ 0) :
    listMax (List.replicate n c) = c := by
  cases n with
  | zero => exact absurd rfl h
  | succ m =>
    rw [List.replicate_succ]
    exact foldl_max_replicate_self m c

theorem listMin_replicate (n : ℕ) (c : K) (h : n ≠ 0) :
    listMin (List.replicate n c) = c := by
  cases n with
  | zero => exact absurd rfl h
  | succ m =>
    rw [List.replicate_succ]
    exact foldl_min_replicate_self m c

end ListMinMax

section ClipSumLemmas

variable {K : Type*} [LinearOrderedField K]

theorem clipSum_mono (d : List K) (L U : K) {lam₁ lam₂ : K} (h : lam₁ ≤ lam₂) :
    clipSum d L U lam₁ ≤ clipSum d L U lam₂ :=
  List.sum_le_sum fun x _ => clip_mono L U (by linarith)

theorem clipSum_lipschitz (d : List K) (L U : K) {lam₁ lam₂ : K} (h : lam₁ ≤ lam₂) :
    clipSum d L U lam₂ - clipSum d L U lam₁ ≤ (d.length : K) * (lam₂ - lam₁) := by
  induction d with
  | nil => simp [clipSum]
  | cons x t ih =>
    have hx : clip L U (x + lam₂) - clip L U (x + lam₁) ≤ lam₂ - lam₁ := by
      have h1 := clip_lipschitz L U (x + lam₂) (x + lam₁)
      have h2 : |x + lam₂ - (x + lam₁)| = lam₂ - lam₁ := by
        rw [show x + lam₂ - (x + lam₁) = lam₂ - lam₁ by ring, abs_of_nonneg (by linarith)]
      calc clip L U (x + lam₂) - clip L U (x + lam₁)
          ≤ |clip L U (x + lam₂) - clip L U (x + lam₁)| := le_abs_self _
        _ ≤ lam₂ - lam₁ := by rw [← h2]; exact h1
    simp only [clipSum, List.map_cons, List.sum_cons, List.length_cons] at *
    push_cast
    nlinarith [ih]

theorem clipSum_const_lo (d : List K) {L U lam : K} (hLU : L ≤ U)
    (h : ∀ x ∈ d, x + lam ≤ L) : clipSum d L U lam = (d.length : K) * L := by
  induction d with
  | nil => simp [clipSum]
  | cons x t ih =>
    simp only [clipSum, List.map_cons, List.sum_cons, List.length_cons] at *
    rw [clip_of_le hLU (h x (by simp)), ih fun y hy => h y (by simp [hy])]
    push_cast; ring

theorem clipSum_const_hi (d : List K) {L U lam : K} (hLU : L ≤ U)
    (h : ∀ x ∈ d, U ≤ x + lam) : clipSum d L U lam = (d.length : K) * U := by
  induction d with
  | nil => simp [clipSum]
  | cons x t ih =>
    simp only [clipSum, List.map_cons, List.sum_cons, List.length_cons] at *
    rw [clip_of_ge hLU (h x (by simp)), ih fun y hy => h y (by simp [hy])]
    push_cast; ring

theorem clipSum_replicate (n : ℕ) (c L U lam : K) :
    clipSum (List.replicate n c) L U lam = (n : K) * clip L U (c + lam) := by
  unfold clipSum
  rw [List.map_replicate, List.sum_replicate, nsmul_eq_mul]

end ClipSumLemmas

section BisectLemmas

variable {K : Type*} [LinearOrderedField K]

theorem bisect_eq_map (d : List K) (t L U tol : K) (fuel : ℕ) (lo hi : K) :
    ∃ lam, bisect d t L U tol fuel lo hi = d.map (fun x => clip L U (x + lam)) := by
  induction fuel generalizing lo hi with
  | zero => exact ⟨(lo + hi) / 2, rfl⟩
  | succ n ih =>
    simp only [bisect]
    split_ifs with h1 h2
    · exact ⟨(lo + hi) / 2, rfl⟩
    · exact ih lo ((lo + hi) / 2)
    · exact ih ((lo + hi) / 2) hi

theorem bisect_length (d : List K) (t L U tol : K) (fuel : ℕ) (lo hi : K) :
    (bisect d t L U tol fuel lo hi).length = d.length := by
  obtain ⟨lam, h⟩ := bisect_eq_map d t L U tol fuel lo hi
  rw [h, List.length_map]

theorem bisect_sum (d : List K) (t L U tol : K) (htol : 0 ≤ tol) :
    ∀ (fuel : ℕ) (lo hi : K), lo ≤ hi → clipSum d L U lo ≤ t → t ≤ clipSum d L U hi →
      |(bisect d t L U tol fuel lo hi).sum - t| ≤
        max tol ((d.length : K) * (hi - lo) / 2 ^ fuel) := by
  intro fuel
  induction fuel with
  | zero =>
    intro lo hi hlh hlo hhi
    have hmid₁ : lo ≤ (lo + hi) / 2 := by linarith
    have hmid₂ : (lo + hi) / 2 ≤ hi := by linarith
    have h1 : clipSum d L U lo ≤ clipSum d L U ((lo + hi) / 2) := clipSum_mono d L U hmid₁
    have h2 : clipSum d L U ((lo + hi) / 2) ≤ clipSum d L U hi := clipSum_mono d L U hmid₂
    have hlip : clipSum d L U hi - clipSum d L U lo ≤ (d.length : K) * (hi - lo) :=
      clipSum_lipschitz d L U hlh
    have hsum : (bisect d t L U tol 0 lo hi).sum = clipSum d L U ((lo + hi) / 2) := rfl
    rw [hsum]
    refine le_max_of_le_right ?_
    rw [pow_zero, div_one, abs_le]
    constructor <;> linarith
  | succ n ih =>
    intro lo hi hlh hlo hhi
    simp only [bisect]
    split_ifs with h1 h2
    · have hsum : (d.map (fun x => clip L U (x + (lo + hi) / 2))).sum =
        clipSum d L U ((lo + hi) / 2) := rfl
      rw [hsum]
      exact le_max_of_le_left h1
    · have hrec := ih lo ((lo + hi) / 2) (by linarith) hlo (le_of_lt h2)
      refine hrec.trans (max_le_max le_rfl (le_of_eq ?_))
      rw [show (lo + hi) / 2 - lo = (hi - lo) / 2 by ring]
      rw [pow_succ]
      ring
    · push_neg at h2
      have hrec := ih ((lo + hi) / 2) hi (by linarith) h2 hhi
      refine hrec.trans (max_le_max le_rfl (le_of_eq ?_))
      rw [show hi - (lo + hi) / 2 = (hi - lo) / 2 by ring]
      rw [pow_succ]
      ring

theorem bisect_replicate (n : ℕ) (c t L U tol : K) :
    ∀ (fuel : ℕ) (lo hi : K),
      bisect (List.replicate n c) t L U tol fuel lo hi =
        List.replicate n (clip L U (c + sbis n c t L U tol fuel lo hi)) := by
  intro fuel
  induction fuel with
  | zero =>
    intro lo hi
    show (List.replicate n c).map _ = _
    rw [List.map_replicate, sbis]
  | succ j ih =>
    intro lo hi
    simp only [bisect, sbis, clipSum_replicate]
    split_ifs with h1 h2
    · rw [List.map_replicate]
    · exact ih lo _
    · exact ih _ hi

end BisectLemmas

section ProjectLemmas

variable {K : Type*} [LinearOrderedField K]

theorem clip_zero_zero (t : K) : clip 0 0 t = 0 := by
  unfold clip
  rcases le_total t 0 with h | h
  · rw [max_eq_left h, min_self]
  · rw [max_eq_right h, min_eq_left h]

theorem tol_le_projErr (d : List K) (L U tol : K) (fuel : ℕ) :
    tol ≤ projErr d L U tol fuel := le_max_left _ _

theorem project_spec (d : List K) (total L U tol : K) (hLU : L ≤ U) (htol : 0 ≤ tol)
    (fuel : ℕ) :
    ∃ lam, project d total L U tol fuel = d.map (fun x => clip L U (x + lam)) ∧
      |(project d total L U tol fuel).sum - clampTotal d L U total| ≤
        projErr d L U tol fuel := by
  by_cases hd : d = []
  · subst hd
    refine ⟨0, by simp [project], ?_⟩
    have h0 : clampTotal ([] : List K) L U total = 0 := by
      simp [clampTotal, clip_zero_zero]
    have hp : project ([] : List K) total L U tol fuel = [] := by simp [project]
    rw [hp, h0]
    show |([] : List K).sum - 0| ≤ projErr [] L U tol fuel
    simp only [List.sum_nil, sub_zero, abs_zero]
    exact le_max_of_le_left htol
  · have hne : d.isEmpty = false := by
      cases d with
      | nil => exact absurd rfl hd
      | cons x t => rfl
    have hproj : project d total L U tol fuel =
        bisect d (clip ((d.length : K) * L) ((d.length : K) * U) total) L U tol fuel
          (L - listMax d - 1) (U - listMin d + 1) := by
      unfold project
      rw [hne]
      simp only [Bool.false_eq_true, if_false]
    set t := clip ((d.length : K) * L) ((d.length : K) * U) total with ht
    set lo := L - listMax d - 1 with hlo
    set hi := U - listMin d + 1 with hhi
    obtain ⟨lam, hmap⟩ := bisect_eq_map d t L U tol fuel lo hi
    refine ⟨lam, by rw [hproj, hmap], ?_⟩
    have hnL_le_nU : (d.length : K) * L ≤ (d.length : K) * U :=
      mul_le_mul_of_nonneg_left hLU (by positivity)
    have hSlo : clipSum d L U lo = (d.length : K) * L := by
      refine clipSum_const_lo d hLU fun x hx => ?_
      have := le_listMax x hx
      rw [hlo]; linarith
    have hShi : clipSum d L U hi = (d.length : K) * U := by
      refine clipSum_const_hi d hLU fun x hx => ?_
      have := listMin_le x hx
      rw [hhi]; linarith
    have hlolehi : lo ≤ hi := by
      have := listMin_le_listMax hd
      rw [hlo, hhi]; linarith
    have htlo : clipSum d L U lo ≤ t := by
      rw [hSlo, ht]
      exact le_min hnL_le_nU (le_max_left _ _)
    have hthi : t ≤ clipSum d L U hi := by
      rw [hShi, ht]
      exact min_le_left _ _
    have := bisect_sum d t L U tol htol fuel lo hi hlolehi htlo hthi
    rw [hproj]
    refine this.trans (le_of_eq ?_)
    unfold projErr
    congr 1

theorem project_length (d : List K) (total L U tol : K) (fuel : ℕ) :
    (project d total L U tol fuel).length = d.length := by
  by_cases hd : d = []
  · subst hd; simp [project]
  · have hne : d.isEmpty = false := by
      cases d with
      | nil => exact absurd rfl hd
      | cons x t => rfl
    unfold project
    rw [hne]
    simp only [Bool.false_eq_true, if_false]
    exact bisect_length _ _ _ _ _ _ _ _

theorem project_mem (d : List K) (total L U tol : K) {fuel : ℕ} (hLU : L ≤ U) :
    ∀ x ∈ project d total L U tol fuel, L ≤ x ∧ x ≤ U := by
  by_cases hd : d = []
  · subst hd; simp [project]
  · have hne : d.isEmpty = false := by
      cases d with
      | nil => exact absurd rfl hd
      | cons x t => rfl
    unfold project
    rw [hne]
    simp only [Bool.false_eq_true, if_false]
    obtain ⟨lam, hmap⟩ := bisect_eq_map d
      (clip ((d.length : K) * L) ((d.length : K) * U) total) L U tol fuel
      (L - listMax d - 1) (U - listMin d + 1)
    rw [hmap]
    intro x hx
    obtain ⟨y, _, rfl⟩ := List.mem_map.mp hx
    exact ⟨lo_le_clip hLU _, clip_le_hi _ _ _⟩

end ProjectLemmas

section ReconstructLemmas

variable {K : Type*} [LinearOrderedField K]

theorem reconstruct_nil (l u : K) : reconstruct l u [] = [min l u] := rfl

theorem reconstruct_cons (l u x : K) (d : List K) :
    reconstruct l u (x :: d) = l :: reconstruct (l + x) u d := by
  cases d with
  | nil => rfl
  | cons y t => rfl

theorem reconstruct_length (l u : K) (d : List K) :
    (reconstruct l u d).length = d.length + 1 := by
  induction d generalizing l with
  | nil => rfl
  | cons x t ih =>
    rw [reconstruct_cons, List.length_cons, ih, List.length_cons]

theorem reconstruct_ne_nil (l u : K) (d : List K) : reconstruct l u d ≠ [] := by
  intro h
  have := reconstruct_length l u d
  rw [h] at this
  simp at this

theorem reconstruct_head (l u : K) (d : List K) (hd : d ≠ []) :
    (reconstruct l u d).head? = some l := by
  cases d with
  | nil => exact absurd rfl hd
  | cons x t => rw [reconstruct_cons]; rfl

theorem getLast?_cons_of_ne_nil (a : K) {l : List K} (hl : l ≠ []) :
    (a :: l).getLast? = l.getLast? := by
  cases l with
  | nil => exact absurd rfl hl
  | cons y t => exact List.getLast?_cons_cons

theorem reconstruct_getLast (l u : K) (d : List K) :
    (reconstruct l u d).getLast? = some (min (l + d.sum) u) := by
  induction d generalizing l with
  | nil => simp [reconstruct_nil]
  | cons x t ih =>
    rw [reconstruct_cons,
      getLast?_cons_of_ne_nil l (reconstruct_ne_nil (l + x) u t), ih (l + x)]
    simp only [List.sum_cons]
    congr 2
    ring

theorem diffs_cons_cons (a b : K) (t : List K) :
    diffs (a :: b :: t) = (b - a) :: diffs (b :: t) := rfl

theorem reconstruct_cons_decomp (l u : K) (d : List K) (hd : d ≠ []) :
    ∃ rest : List K, reconstruct l u d = l :: rest ∧
      (rest = [] → False) ∧ reconstruct l u d ≠ [] := by
  cases d with
  | nil => exact absurd rfl hd
  | cons x t =>
    refine ⟨reconstruct (l + x) u t, reconstruct_cons l u x t, ?_, by
      rw [reconstruct_cons]; simp⟩
    intro h
    exact reconstruct_ne_nil (l + x) u t h

theorem diffs_reconstruct (u : K) :
    ∀ (front : List K) (x l : K),
      diffs (reconstruct l u (front ++ [x])) =
        front ++ [min x (u - l - front.sum)] := by
  intro front
  induction front with
  | nil =>
    intro x l
    rw [List.nil_append, reconstruct_cons, reconstruct_nil]
    show [min (l + x) u - l] = [min x (u - l - 0)]
    congr 1
    rcases le_total (l + x) u with h | h
    · rw [min_eq_left h, min_eq_left (by linarith)]
      ring
    · rw [min_eq_right h, min_eq_right (by linarith)]
      ring
  | cons y t ih =>
    intro x l
    rw [List.cons_append, reconstruct_cons]
    have htne : t ++ [x] ≠ [] := by simp
    obtain ⟨z, zs, hzzs⟩ : ∃ z zs, t ++ [x] = z :: zs := by
      cases t with
      | nil => exact ⟨x, [], rfl⟩
      | cons a b => exact ⟨a, b ++ [x], rfl⟩
    rw [hzzs, reconstruct_cons, diffs_cons_cons, ← reconstruct_cons, ← hzzs]
    rw [ih x (l + y)]
    rw [List.cons_append]
    congr 2
    · ring
    · congr 2
      rw [List.sum_cons]
      ring

theorem chain'_le_iff_diffs_nonneg (l : List K) :
    List.Chain' (· ≤ ·) l ↔ ∀ x ∈ diffs l, 0 ≤ x := by
  induction l with
  | nil => simp [diffs]
  | cons a t ih =>
    cases t with
    | nil => simp [diffs]
    | cons b s =>
      rw [List.chain'_cons]
      constructor
      · rintro ⟨hab, hchain⟩ x hx
        rw [show diffs (a :: b :: s) = (b - a) :: diffs (b :: s) from rfl] at hx
        rcases List.mem_cons.mp hx with h | h
        · subst h; linarith
        · exact (ih.mp hchain) x h
      · intro h
        refine ⟨?_, ih.mpr ?_⟩
        · have := h (b - a) (by rw [show diffs (a :: b :: s) = (b - a) :: diffs (b :: s) from rfl]; simp)
          linarith
        · intro x hx
          exact h x (by rw [show diffs (a :: b :: s) = (b - a) :: diffs (b :: s) from rfl]; simp [hx])

theorem reconstruct_close (u E : K) :
    ∀ (d₁ d₂ : List K) (l₁ l₂ : K), d₁.length = d₂.length →
      (∀ k : ℕ, |(l₁ + (d₁.take k).sum) - (l₂ + (d₂.take k).sum)| ≤ E) →
      List.Forall₂ (fun a b => |a - b| ≤ E) (reconstruct l₁ u d₁) (reconstruct l₂ u d₂) := by
  intro d₁
  induction d₁ with
  | nil =>
    intro d₂ l₁ l₂ hlen hpre
    have hd₂ : d₂ = [] := by
      cases d₂ with
      | nil => rfl
      | cons y t => simp at hlen
    subst hd₂
    rw [reconstruct_nil, reconstruct_nil]
    refine List.Forall₂.cons ?_ List.Forall₂.nil
    have h0 := hpre 0
    simp only [List.take_zero, List.sum_nil, add_zero] at h0
    calc |min l₁ u - min l₂ u| ≤ max |l₁ - l₂| |u - u| := abs_min_sub_min_le_max _ _ _ _
      _ ≤ E := by
        rw [show u - u = 0 by ring, abs_zero]
        exact max_le h0 ((abs_nonneg _).trans h0)
  | cons x₁ t₁ ih =>
    intro d₂ l₁ l₂ hlen hpre
    cases d₂ with
    | nil => simp at hlen
    | cons x₂ t₂ =>
      rw [reconstruct_cons, reconstruct_cons]
      refine List.Forall₂.cons ?_ ?_
      · have h0 := hpre 0
        simpa using h0
      · refine ih t₂ (l₁ + x₁) (l₂ + x₂) (by simpa using hlen) ?_
        intro k
        have hk := hpre (k + 1)
        simp only [List.take_succ_cons, List.sum_cons] at hk
        convert hk using 2
        ring_nf

end ReconstructLemmas

section StatLemmas

variable {K : Type*} [LinearOrderedField K]

theorem variance_nonneg (l : List K) : 0 ≤ variance l := by
  unfold variance
  refine div_nonneg (List.sum_nonneg ?_) (by positivity)
  intro x hx
  obtain ⟨y, _, rfl⟩ := List.mem_map.mp hx
  positivity

theorem mean_replicate {n : ℕ} (hn : n ≠ 0) (c : K) :
    mean (List.replicate n c) = c := by
  unfold mean
  rw [List.sum_replicate, nsmul_eq_mul, List.length_replicate]
  field_simp

theorem variance_replicate {n : ℕ} (hn : n ≠ 0) (c : K) :
    variance (List.replicate n c) = 0 := by
  unfold variance
  rw [mean_replicate hn, List.map_replicate]
  simp

theorem single_le_sum_of_nonneg {l : List K} (h : ∀ x ∈ l, 0 ≤ x) :
    ∀ a ∈ l, a ≤ l.sum := by
  induction l with
  | nil => simp
  | cons x t ih =>
    intro a ha
    rw [List.sum_cons]
    rcases List.mem_cons.mp ha with rfl | hmem
    · have : 0 ≤ t.sum := List.sum_nonneg fun y hy => h y (by simp [hy])
      linarith
    · have hx : 0 ≤ x := h x (by simp)
      have := ih (fun y hy => h y (by simp [hy])) a hmem
      linarith

theorem variance_pos_of_mem_ne {l : List K} {a b : K} (ha : a ∈ l) (hb : b ∈ l)
    (hab : a ≠ b) : 0 < variance l := by
  have hlen : 0 < l.length := List.length_pos.mpr (by rintro rfl; simp at ha)
  have key : ∃ c ∈ l, c ≠ mean l := by
    by_contra h
    push_neg at h
    exact hab ((h a ha).trans (h b hb).symm)
  obtain ⟨c, hc, hcne⟩ := key
  unfold variance
  refine div_pos ?_ (by exact_mod_cast hlen)
  have hmem : (c - mean l) ^ 2 ∈ l.map (fun x => (x - mean l) ^ 2) :=
    List.mem_map.mpr ⟨c, hc, rfl⟩
  have hpos : 0 < (c - mean l) ^ 2 := by
    have : c - mean l ≠ 0 := sub_ne_zero.mpr hcne
    positivity
  have hle := single_le_sum_of_nonneg
    (l := l.map (fun x => (x - mean l) ^ 2))
    (fun x hx => by obtain ⟨y, _, rfl⟩ := List.mem_map.mp hx; positivity)
    _ hmem
  linarith

theorem cvDen_pos (l : List ℝ) : 0 < |mean l| + 1 / 10 ^ 12 := by
  have := abs_nonneg (mean l)
  positivity

theorem cv_nonneg (l : List ℝ) : 0 ≤ cv l :=
  div_nonneg (Real.sqrt_nonneg _) (cvDen_pos l).le

theorem cv_ge_iff (l : List ℝ) {t : ℝ} (ht : 0 ≤ t) :
    t ≤ cv l ↔ (t * (|mean l| + 1 / 10 ^ 12)) ^ 2 ≤ variance l := by
  unfold cv std
  rw [le_div_iff (cvDen_pos l)]
  exact Real.le_sqrt (by positivity) (variance_nonneg l)

theorem cv_lt_iff (l : List ℝ) {t : ℝ} (ht : 0 < t) :
    cv l < t ↔ variance l < (t * (|mean l| + 1 / 10 ^ 12)) ^ 2 := by
  unfold cv std
  rw [div_lt_iff (cvDen_pos l)]
  exact Real.sqrt_lt' (by positivity)

theorem cv_eq_zero_of_variance_eq_zero {l : List ℝ} (h : variance l = 0) : cv l = 0 := by
  unfold cv std
  rw [h, Real.sqrt_zero, zero_div]

theorem cv_pos_of_variance_pos {l : List ℝ} (h : 0 < variance l) : 0 < cv l :=
  div_pos (Real.sqrt_pos.mpr h) (cvDen_pos l)

end StatLemmas

section CleanLemmas

variable {K : Type*} [LinearOrderedField K]

theorem map_clip01_id {l : List K} (h : ∀ x ∈ l, 0 ≤ x ∧ x ≤ 1) :
    l.map (clip 0 1) = l := by
  induction l with
  | nil => rfl
  | cons x t ih =>
    rw [List.map_cons, clip_of_mem (h x (by simp)).1 (h x (by simp)).2,
      ih fun y hy => h y (by simp [hy])]

theorem runMaxAux_id {acc : K} {l : List K} (hchain : List.Chain' (· ≤ ·) (acc :: l)) :
    runMaxAux acc l = l := by
  induction l generalizing acc with
  | nil => rfl
  | cons x t ih =>
    rw [List.chain'_cons] at hchain
    unfold runMaxAux
    rw [max_eq_right hchain.1, ih hchain.2]

theorem runningMax_id {l : List K} (hchain : List.Chain' (· ≤ ·) l) :
    runningMax l = l := by
  cases l with
  | nil => rfl
  | cons x t =>
    show x :: runMaxAux x t = x :: t
    rw [runMaxAux_id hchain]

theorem diffs_replicate (n : ℕ) (c : K) :
    diffs (List.replicate (n + 1) c) = List.replicate n 0 := by
  induction n with
  | zero => rfl
  | succ k ih =>
    rw [show List.replicate (k + 1 + 1) c = c :: c :: List.replicate k c by
      rw [List.replicate_succ, List.replicate_succ]]
    rw [diffs_cons_cons, sub_self,
      show c :: List.replicate k c = List.replicate (k + 1) c from
        (List.replicate_succ c k).symm, ih, List.replicate_succ]

theorem chain'_replicate_le (n : ℕ) (c : K) :
    List.Chain' (· ≤ ·) (List.replicate n c) := by
  cases n with
  | zero => simp
  | succ k =>
    rw [chain'_le_iff_diffs_nonneg, diffs_replicate]
    intro x hx
    rw [List.eq_of_mem_replicate hx]

theorem map_max_zero_id {l : List K} (h : ∀ x ∈ l, 0 ≤ x) :
    l.map (fun x => max x 0) = l := by
  induction l with
  | nil => rfl
  | cons x t ih =>
    rw [List.map_cons, max_eq_left (h x (by simp)), ih fun y hy => h y (by simp [hy])]

theorem cumsum_diffs (a : K) (l : List K) : cumsum a (diffs (a :: l)) = l := by
  induction l generalizing a with
  | nil => rfl
  | cons b t ih =>
    rw [diffs_cons_cons]
    show (a + (b - a)) :: cumsum (a + (b - a)) (diffs (b :: t)) = b :: t
    rw [show a + (b - a) = b by ring, ih b]

theorem clampLast_id {u : K} {l : List K} (h : ∀ v, l.getLast? = some v → v ≤ u) :
    clampLast u l = l := by
  induction l with
  | nil => rfl
  | cons x t ih =>
    cases t with
    | nil =>
      show [min x u] = [x]
      rw [min_eq_left (h x rfl)]
    | cons y s =>
      show x :: clampLast u (y :: s) = x :: y :: s
      rw [ih fun v hv => h v (by rw [List.getLast?_cons_cons]; exact hv)]

theorem reconstruct_diffs_self {lower u : K} {l : List K} (t : List K)
    (hform : l = lower :: t)
    (hlast : ∀ v, l.getLast? = some v → v ≤ u) :
    reconstruct lower u (diffs l) = l := by
  subst hform
  unfold reconstruct
  rw [cumsum_diffs lower t]
  exact clampLast_id hlast

end CleanLemmas

section BranchLemmas

theorem antiFlatten_noop (cdf : List ℝ) (oL oU : Bool) (ms Ms ct bl : ℝ)
    (h : diffs cdf = [] ∨ mean (diffs cdf) ≤ 0 ∨ ct ≤ cv (diffs cdf)) :
    antiFlatten cdf oL oU ms Ms ct bl = cdf := by
  unfold antiFlatten
  rcases h with h | h | h
  · rw [if_pos (List.isEmpty_iff.mpr h)]
  · by_cases he : (diffs cdf).isEmpty
    · rw [if_pos he]
    · rw [if_neg he, if_pos h]
  · by_cases he : (diffs cdf).isEmpty
    · rw [if_pos he]
    · by_cases hm : mean (diffs cdf) ≤ 0
      · rw [if_neg he, if_pos hm]
      · rw [if_neg he, if_neg hm, if_pos h]

theorem antiFlatten_corr (cdf : List ℝ) (oL oU : Bool) (ms Ms ct bl : ℝ)
    (h1 : diffs cdf ≠ []) (h2 : ¬ mean (diffs cdf) ≤ 0) (h3 : ¬ ct ≤ cv (diffs cdf)) :
    antiFlatten cdf oL oU ms Ms ct bl =
      reconstruct (lowerLimit oL) (upperLimit oU)
        (project (tiltVec (diffs cdf) bl) (upperLimit oU - lowerLimit oL)
          (effL (upperLimit oU - lowerLimit oL) (diffs cdf).length ms) Ms
          (1 / 10 ^ 12) 60) := by
  unfold antiFlatten
  rw [if_neg (by rwa [Ne, ← List.isEmpty_iff] at h1 <;> simp_all), if_neg h2, if_neg h3]

theorem diffs_length {K : Type*} [LinearOrderedField K] (l : List K) :
    (diffs l).length = l.length - 1 := by
  induction l with
  | nil => rfl
  | cons x t ih =>
    cases t with
    | nil => rfl
    | cons y s =>
      rw [diffs_cons_cons, List.length_cons]
      rw [show (diffs (y :: s)).length = (y :: s).length - 1 from ih]
      simp

theorem runMaxAux_length {K : Type*} [LinearOrderedField K] (acc : K) (l : List K) :
    (runMaxAux acc l).length = l.length := by
  induction l generalizing acc with
  | nil => rfl
  | cons x t ih =>
    unfold runMaxAux
    rw [List.length_cons, List.length_cons, ih]

theorem runningMax_length {K : Type*} [LinearOrderedField K] (l : List K) :
    (runningMax l).length = l.length := by
  cases l with
  | nil => rfl
  | cons x t =>
    show (x :: runMaxAux x t).length = (x :: t).length
    rw [List.length_cons, List.length_cons, runMaxAux_length]

theorem gaussKer_length (m : ℕ) : (gaussKer m).length = m := by
  rw [gaussKer, List.length_map, List.length_range]

theorem tiltVec_length (d : List ℝ) (bl : ℝ) : (tiltVec d bl).length = d.length := by
  rw [tiltVec, List.length_zipWith, List.length_map, gaussKer_length, min_self]

theorem antiFlatten_length (cdf : List ℝ) (oL oU : Bool) (ms Ms ct bl : ℝ) :
    (antiFlatten cdf oL oU ms Ms ct bl).length = cdf.length := by
  by_cases h1 : diffs cdf = []
  · rw [antiFlatten_noop cdf oL oU ms Ms ct bl (Or.inl h1)]
  by_cases h2 : mean (diffs cdf) ≤ 0
  · rw [antiFlatten_noop cdf oL oU ms Ms ct bl (Or.inr (Or.inl h2))]
  by_cases h3 : ct ≤ cv (diffs cdf)
  · rw [antiFlatten_noop cdf oL oU ms Ms ct bl (Or.inr (Or.inr h3))]
  rw [antiFlatten_corr cdf oL oU ms Ms ct bl h1 h2 h3]
  rw [reconstruct_length, project_length, tiltVec_length, diffs_length]
  have hlen : 1 ≤ cdf.length - 1 := by
    by_contra hc
    push_neg at hc
    interval_cases h : cdf.length - 1
    · apply h1
      apply List.eq_nil_of_length_eq_zero
      rw [diffs_length, h]
  omega

theorem enforce_eq (cdf : List ℝ) (oL oU : Bool) (ms Ms : ℝ) (h : ¬ cdf.length < 2) :
    enforce cdf oL oU ms Ms =
      antiFlatten
        (reconstruct (lowerLimit oL) (upperLimit oU)
          (project ((diffs (runningMax (cdf.map (clip 0 1)))).map (fun x => max x 0))
            (upperLimit oU - lowerLimit oL)
            (effL (upperLimit oU - lowerLimit oL) (cdf.length - 1) ms) Ms
            (1 / 10 ^ 12) 60))
        oL oU (effL (upperLimit oU - lowerLimit oL) (cdf.length - 1) ms) Ms
        (1 / 10) (1 / 5) := by
  unfold enforce
  rw [if_neg h]

theorem ne_nil_of_length_pos {α : Type*} {l : List α} (h : 0 < l.length) : l ≠ [] := by
  intro hnil
  rw [hnil] at h
  simp at h

theorem antiFlatten_head_last (cdf : List ℝ) (oL oU : Bool) (ms Ms ct bl : ℝ)
    (hhead : cdf.head? = some (lowerLimit oL))
    (hlast : ∀ v, cdf.getLast? = some v → v ≤ upperLimit oU) :
    (antiFlatten cdf oL oU ms Ms ct bl).head? = some (lowerLimit oL) ∧
      ∀ v, (antiFlatten cdf oL oU ms Ms ct bl).getLast? = some v → v ≤ upperLimit oU := by
  by_cases h1 : diffs cdf = []
  · rw [antiFlatten_noop _ _ _ _ _ _ _ (Or.inl h1)]; exact ⟨hhead, hlast⟩
  by_cases h2 : mean (diffs cdf) ≤ 0
  · rw [antiFlatten_noop _ _ _ _ _ _ _ (Or.inr (Or.inl h2))]; exact ⟨hhead, hlast⟩
  by_cases h3 : ct ≤ cv (diffs cdf)
  · rw [antiFlatten_noop _ _ _ _ _ _ _ (Or.inr (Or.inr h3))]; exact ⟨hhead, hlast⟩
  rw [antiFlatten_corr _ _ _ _ _ _ _ h1 h2 h3]
  have hdpne : project (tiltVec (diffs cdf) bl) (upperLimit oU - lowerLimit oL)
      (effL (upperLimit oU - lowerLimit oL) (diffs cdf).length ms) Ms
      (1 / 10 ^ 12) 60 ≠ [] := by
    refine ne_nil_of_length_pos ?_
    rw [project_length, tiltVec_length]
    exact List.length_pos.mpr h1
  refine ⟨reconstruct_head _ _ _ hdpne, fun v hv => ?_⟩
  rw [reconstruct_getLast] at hv
  rw [show v = min ((lowerLimit oL : ℝ) + (project (tiltVec (diffs cdf) bl)
    (upperLimit oU - lowerLimit oL)
    (effL (upperLimit oU - lowerLimit oL) (diffs cdf).length ms) Ms
    (1 / 10 ^ 12) 60).sum) (upperLimit oU) from (Option.some_inj.mp hv).symm]
  exact min_le_right _ _

theorem enforce_length (cdf : List ℝ) (oL oU : Bool) (ms Ms : ℝ) :
    (enforce cdf oL oU ms Ms).length = cdf.length := by
  by_cases h : cdf.length < 2
  · unfold enforce; rw [if_pos h]
  · rw [enforce_eq _ _ _ _ _ h, antiFlatten_length, reconstruct_length, project_length,
      List.length_map, diffs_length, runningMax_length, List.length_map]
    omega

end BranchLemmas

section PerturbLemmas

variable {K : Type*} [LinearOrderedField K]

theorem head_le_mem {l : List K} {a : K} (hc : List.Chain' (· ≤ ·) l)
    (ha : l.head? = some a) : ∀ x ∈ l, a ≤ x := by
  induction l generalizing a with
  | nil => simp
  | cons y t ih =>
    have hy : y = a := by
      rw [List.head?_cons] at ha
      exact Option.some_inj.mp ha
    subst hy
    intro x hx
    rcases List.mem_cons.mp hx with rfl | hmem
    · exact le_rfl
    · cases t with
      | nil => simp at hmem
      | cons z s =>
        rw [List.chain'_cons] at hc
        exact hc.1.trans (ih hc.2 rfl x hmem)

theorem mem_le_getLast {l : List K} {b : K} (hc : List.Chain' (· ≤ ·) l)
    (hb : l.getLast? = some b) : ∀ x ∈ l, x ≤ b := by
  induction l with
  | nil => simp
  | cons y t ih =>
    intro x hx
    cases t with
    | nil =>
      rcases List.mem_cons.mp hx with rfl | hmem
      · exact le_of_eq (Option.some_inj.mp hb)
      · simp at hmem
    | cons z s =>
      rw [List.getLast?_cons_cons] at hb
      rw [List.chain'_cons] at hc
      rcases List.mem_cons.mp hx with rfl | hmem
      · exact hc.1.trans (ih hc.2 hb z (by simp))
      · exact ih hc.2 hb x hmem

theorem diffs_sum_getLastD (a : K) :
    ∀ (l : List K), (diffs (a :: l)).sum = l.getLastD a - a := by
  intro l
  induction l generalizing a with
  | nil => simp [diffs]
  | cons b t ih =>
    rw [diffs_cons_cons, List.sum_cons, ih b]
    rw [List.getLastD_cons]
    ring

theorem sum_diffs_eq {l : List K} {a b : K} (ha : l.head? = some a)
    (hb : l.getLast? = some b) : (diffs l).sum = b - a := by
  cases l with
  | nil => simp at ha
  | cons y t =>
    have hy : y = a := Option.some_inj.mp (by rw [← List.head?_cons (a := y) (l := t)]; exact ha)
    subst hy
    rw [diffs_sum_getLastD]
    have : t.getLastD y = b := by
      rw [List.getLastD_eq_getLast?]
      cases t with
      | nil =>
        simp only [List.getLast?_nil, Option.getD_none]
        exact Option.some_inj.mp hb
      | cons z s =>
        rw [List.getLast?_cons_cons] at hb
        rw [hb]
        rfl
    rw [this]

theorem effL_nonneg (total : K) (m : ℕ) {ms : K} (hms : 0 ≤ ms) :
    0 ≤ effL total m ms := by
  unfold effL
  split_ifs
  · exact le_max_right _ _
  · exact hms

theorem effL_mul_le (total : K) (m : ℕ) (ms : K) (h0 : 0 ≤ total) (hm : 0 < m) :
    (m : K) * effL total m ms ≤ total := by
  unfold effL
  have hmK : (0 : K) < (m : K) := by exact_mod_cast hm
  split_ifs with h
  · rcases le_total (total / (m : K) - 1 / 10 ^ 12) 0 with hc | hc
    · rw [max_eq_right hc, mul_zero]
      exact h0
    · rw [max_eq_left hc]
      have h1 : (m : K) * (total / (m : K) - 1 / 10 ^ 12) =
          total - (m : K) * (1 / 10 ^ 12) := by
        field_simp
        ring
      rw [h1]
      have : (0 : K) ≤ (m : K) * (1 / 10 ^ 12) := by positivity
      linarith
  · push_neg at h
    linarith

theorem effL_le_max (total : K) {m : ℕ} (hm : 0 < m) (ms : K) :
    effL total m ms ≤ max ms 0 := by
  unfold effL
  have hmK : (0 : K) < (m : K) := by exact_mod_cast hm
  split_ifs with h
  · refine max_le ?_ (le_max_right _ _)
    have hdiv : total / (m : K) < ms := by
      rw [div_lt_iff hmK]
      calc total < (m : K) * ms := h
        _ = ms * (m : K) := by ring
    have : total / (m : K) - 1 / 10 ^ 12 < ms := by
      have : (0 : K) < 1 / 10 ^ 12 := by norm_num
      linarith
    exact le_max_of_le_left this.le
  · exact le_max_left _ _

theorem sum_le_length_mul {l : List K} {c : K} (h : ∀ x ∈ l, x ≤ c) :
    l.sum ≤ (l.length : K) * c := by
  induction l with
  | nil => simp
  | cons x t ih =>
    rw [List.sum_cons, List.length_cons]
    push_cast
    have h1 := h x (by simp)
    have h2 := ih fun y hy => h y (by simp [hy])
    linarith

theorem length_mul_le_sum {l : List K} {c : K} (h : ∀ x ∈ l, c ≤ x) :
    (l.length : K) * c ≤ l.sum := by
  induction l with
  | nil => simp
  | cons x t ih =>
    rw [List.sum_cons, List.length_cons]
    push_cast
    have h1 := h x (by simp)
    have h2 := ih fun y hy => h y (by simp [hy])
    linarith

theorem take_sum_map_ge (f : K → K) :
    ∀ (d : List K), (∀ x ∈ d, x ≤ f x) → ∀ k : ℕ,
      (d.take k).sum ≤ ((d.map f).take k).sum ∧
        ((d.map f).take k).sum - (d.take k).sum ≤ (d.map f).sum - d.sum := by
  intro d
  induction d with
  | nil => intro _ k; simp
  | cons x t ih =>
    intro h k
    have hx := h x (by simp)
    have hsub : ∀ y ∈ t, y ≤ f y := fun y hy => h y (by simp [hy])
    have htot := ih hsub t.length
    rw [List.take_length] at htot
    rw [List.take_all_of_le (by rw [List.length_map])] at htot
    cases k with
    | zero =>
      simp only [List.take_zero, List.sum_nil, sub_zero, le_refl, true_and]
      rw [List.map_cons, List.sum_cons, List.sum_cons]
      have := htot.1
      · linarith
    | succ j =>
      simp only [List.map_cons, List.take_succ_cons, List.sum_cons]
      have hj := ih hsub j
      constructor
      · linarith [hj.1]
      · linarith [hj.2]

theorem take_sum_map_le (f : K → K) :
    ∀ (d : List K), (∀ x ∈ d, f x ≤ x) → ∀ k : ℕ,
      ((d.map f).take k).sum ≤ (d.take k).sum ∧
        (d.take k).sum - ((d.map f).take k).sum ≤ d.sum - (d.map f).sum := by
  intro d
  induction d with
  | nil => intro _ k; simp
  | cons x t ih =>
    intro h k
    have hx := h x (by simp)
    have hsub : ∀ y ∈ t, f y ≤ y := fun y hy => h y (by simp [hy])
    have htot := ih hsub t.length
    rw [List.take_length] at htot
    rw [List.take_all_of_le (by rw [List.length_map])] at htot
    cases k with
    | zero =>
      simp only [List.take_zero, List.sum_nil, sub_zero, le_refl, true_and]
      rw [List.map_cons, List.sum_cons, List.sum_cons]
      linarith [htot.1]
    | succ j =>
      simp only [List.map_cons, List.take_succ_cons, List.sum_cons]
      have hj := ih hsub j
      constructor
      · linarith [hj.1]
      · linarith [hj.2]

theorem prefix_dev_bound (d : List K) (L U lam : K)
    (hmem : ∀ x ∈ d, L ≤ x ∧ x ≤ U) (k : ℕ) :
    |((d.map (fun x => clip L U (x + lam))).take k).sum - (d.take k).sum| ≤
      |(d.map (fun x => clip L U (x + lam))).sum - d.sum| := by
  rcases le_total 0 lam with hlam | hlam
  · have hpt : ∀ x ∈ d, x ≤ clip L U (x + lam) := by
      intro x hx
      calc x = clip L U x := (clip_of_mem (hmem x hx).1 (hmem x hx).2).symm
        _ ≤ clip L U (x + lam) := clip_mono L U (by linarith)
    have h1 := take_sum_map_ge _ d hpt k
    have h2 := take_sum_map_ge _ d hpt d.length
    rw [List.take_length] at h2
    rw [List.take_all_of_le (by rw [List.length_map])] at h2
    rw [abs_of_nonneg (by linarith [h1.1]), abs_of_nonneg (by linarith [h2.1])]
    exact h1.2
  · have hpt : ∀ x ∈ d, clip L U (x + lam) ≤ x := by
      intro x hx
      calc clip L U (x + lam) ≤ clip L U x := clip_mono L U (by linarith)
        _ = x := clip_of_mem (hmem x hx).1 (hmem x hx).2
    have h1 := take_sum_map_le _ d hpt k
    have h2 := take_sum_map_le _ d hpt d.length
    rw [List.take_length] at h2
    rw [List.take_all_of_le (by rw [List.length_map])] at h2
    rw [abs_of_nonpos (by linarith [h1.1]), abs_of_nonpos (by linarith [h2.1])]
    linarith [h1.2]

theorem sum_map_sub (f : K → K) (d : List K) :
    (d.map f).sum - d.sum = (d.map (fun y => f y - y)).sum := by
  induction d with
  | nil => simp
  | cons x t ih =>
    simp only [List.map_cons, List.sum_cons]
    linarith

theorem sum_map_sub_rev (f : K → K) (d : List K) :
    d.sum - (d.map f).sum = (d.map (fun y => y - f y)).sum := by
  induction d with
  | nil => simp
  | cons x t ih =>
    simp only [List.map_cons, List.sum_cons]
    linarith

theorem clip_dev_forall2 (d : List K) (L U lam : K)
    (hmem : ∀ x ∈ d, L ≤ x ∧ x ≤ U) :
    List.Forall₂
      (fun a b => |b - a| ≤ |(d.map (fun x => clip L U (x + lam))).sum - d.sum|) d
      (d.map (fun x => clip L U (x + lam))) := by
  rw [List.forall₂_map_right_iff, List.forall₂_same]
  intro x hx
  rcases le_total 0 lam with hlam | hlam
  · have hpt : ∀ y ∈ d, y ≤ clip L U (y + lam) := by
      intro y hy
      calc y = clip L U y := (clip_of_mem (hmem y hy).1 (hmem y hy).2).symm
        _ ≤ clip L U (y + lam) := clip_mono L U (by linarith)
    have hdevsum : (d.map (fun x => clip L U (x + lam))).sum - d.sum =
        (d.map (fun y => clip L U (y + lam) - y)).sum := sum_map_sub _ d
    have hnn : ∀ z ∈ d.map (fun y => clip L U (y + lam) - y), 0 ≤ z := by
      intro z hz
      obtain ⟨y, hy, rfl⟩ := List.mem_map.mp hz
      linarith [hpt y hy]
    have hsingle := single_le_sum_of_nonneg hnn (clip L U (x + lam) - x)
      (List.mem_map.mpr ⟨x, hx, rfl⟩)
    rw [abs_of_nonneg (by linarith [hpt x hx]), hdevsum,
      abs_of_nonneg (List.sum_nonneg hnn)]
    exact hsingle
  · have hpt : ∀ y ∈ d, clip L U (y + lam) ≤ y := by
      intro y hy
      calc clip L U (y + lam) ≤ clip L U y := clip_mono L U (by linarith)
        _ = y := clip_of_mem (hmem y hy).1 (hmem y hy).2
    have hdevsum : d.sum - (d.map (fun x => clip L U (x + lam))).sum =
        (d.map (fun y => y - clip L U (y + lam))).sum :=
      sum_map_sub_rev _ d
    have hnn : ∀ z ∈ d.map (fun y => y - clip L U (y + lam)), 0 ≤ z := by
      intro z hz
      obtain ⟨y, hy, rfl⟩ := List.mem_map.mp hz
      linarith [hpt y hy]
    have hsingle := single_le_sum_of_nonneg hnn (x - clip L U (x + lam))
      (List.mem_map.mpr ⟨x, hx, rfl⟩)
    rw [abs_of_nonpos (by linarith [hpt x hx]), abs_of_nonpos (by
      have := List.sum_nonneg hnn
      linarith)]
    rw [neg_sub]
    rw [show -((d.map (fun x => clip L U (x + lam))).sum - d.sum) =
      d.sum - (d.map (fun x => clip L U (x + lam))).sum by ring, hdevsum]
    exact hsingle

theorem forall2_sum_bound {ε : K} :
    ∀ {l l' : List K}, List.Forall₂ (fun a b => |a - b| ≤ ε) l l' →
      |l.sum - l'.sum| ≤ (l.length : K) * ε := by
  intro l l' h
  induction h with
  | nil => simp
  | @cons a b t t' hab _ ih =>
    simp only [List.sum_cons, List.length_cons]
    push_cast
    have htri : |a + t.sum - (b + t'.sum)| ≤ |a - b| + |t.sum - t'.sum| := by
      have := abs_add (a - b) (t.sum - t'.sum)
      calc |a + t.sum - (b + t'.sum)| = |(a - b) + (t.sum - t'.sum)| := by ring_nf
        _ ≤ |a - b| + |t.sum - t'.sum| := this
    calc |a + t.sum - (b + t'.sum)| ≤ |a - b| + |t.sum - t'.sum| := htri
      _ ≤ ε + (t.length : K) * ε := add_le_add hab ih
      _ = ((t.length : K) + 1) * ε := by ring

theorem forall2_mean_bound {ε : K} {l l' : List K}
    (h : List.Forall₂ (fun a b => |a - b| ≤ ε) l l') (hne : l ≠ []) :
    |mean l - mean l'| ≤ ε := by
  have hlen := List.Forall₂.length_eq h
  have hsum := forall2_sum_bound h
  have hn : (0 : K) < (l.length : K) := by
    have := List.length_pos.mpr hne
    exact_mod_cast this
  unfold mean
  rw [← hlen]
  rw [div_sub_div_same, abs_div, abs_of_nonneg hn.le, div_le_iff hn]
  calc |l.sum - l'.sum| ≤ (l.length : K) * ε := hsum
    _ = ε * (l.length : K) := by ring

theorem forall2_dropLast {R : K → K → Prop} :
    ∀ {l l' : List K}, List.Forall₂ R l l' →
      List.Forall₂ R l.dropLast l'.dropLast := by
  intro l l' h
  induction h with
  | nil => simp
  | @cons a b t t' hab ht ih =>
    cases t with
    | nil =>
      cases ht
      simp
    | cons c s =>
      cases t' with
      | nil => cases ht
      | cons c' s' =>
        show List.Forall₂ R (a :: (c :: s).dropLast) (b :: (c' :: s').dropLast)
        exact List.Forall₂.cons hab ih

theorem forall2_getLast {R : K → K → Prop} :
    ∀ {l l' : List K}, List.Forall₂ R l l' → ∀ {a b : K},
      l.getLast? = some a → l'.getLast? = some b → R a b := by
  intro l l' h
  induction h with
  | nil => intro a b ha _; simp at ha
  | @cons x y t t' hxy ht ih =>
    intro a b ha hb
    cases t with
    | nil =>
      cases ht
      simp only [List.getLast?_singleton] at ha hb
      rw [← Option.some_inj.mp ha, ← Option.some_inj.mp hb]
      exact hxy
    | cons c s =>
      cases t' with
      | nil => cases ht
      | cons c' s' =>
        rw [List.getLast?_cons_cons] at ha hb
        exact ih ha hb

theorem abs_sum_le_length_mul {B : K} (hB : 0 ≤ B) {l : List K}
    (h : ∀ x ∈ l, |x| ≤ B) : |l.sum| ≤ (l.length : K) * B := by
  induction l with
  | nil => simp
  | cons x t ih =>
    rw [List.sum_cons, List.length_cons]
    push_cast
    have h1 := h x (by simp)
    have h2 := ih fun y hy => h y (by simp [hy])
    calc |x + t.sum| ≤ |x| + |t.sum| := abs_add x t.sum
      _ ≤ B + (t.length : K) * B := by gcongr
      _ = ((t.length : K) + 1) * B := by ring

theorem abs_mean_le {B : K} (hB : 0 ≤ B) {l : List K} (h : ∀ x ∈ l, |x| ≤ B) :
    |mean l| ≤ B := by
  cases l with
  | nil =>
    unfold mean
    simp [hB]
  | cons x t =>
    have hn : (0 : K) < ((x :: t).length : K) := by
      have : 0 < (x :: t).length := by simp
      exact_mod_cast this
    unfold mean
    rw [abs_div, abs_of_nonneg hn.le, div_le_iff hn]
    calc |(x :: t).sum| ≤ ((x :: t).length : K) * B := abs_sum_le_length_mul hB h
      _ = B * ((x :: t).length : K) := by ring

theorem sum_sqdev_bound (mu mu' e B : K) (hdmu : |mu' - mu| ≤ e) (hmu : |mu| ≤ B)
    (hmu' : |mu'| ≤ B) (he : 0 ≤ e) (hB : 0 ≤ B) :
    ∀ {l l' : List K}, List.Forall₂ (fun a b => |a - b| ≤ e) l l' →
      (∀ x ∈ l, |x| ≤ B) → (∀ x ∈ l', |x| ≤ B) →
      |(l'.map (fun x => (x - mu') ^ 2)).sum - (l.map (fun x => (x - mu) ^ 2)).sum| ≤
        (l.length : K) * (8 * B * e) := by
  intro l l' h
  induction h with
  | nil => intro _ _; simp
  | @cons a b t t' hab ht ih =>
    intro hl hl'
    have ha := hl a (by simp)
    have hb' := hl' b (by simp)
    have helem : |(b - mu') ^ 2 - (a - mu) ^ 2| ≤ 8 * B * e := by
      have hfac : (b - mu') ^ 2 - (a - mu) ^ 2 =
          ((b - mu') - (a - mu)) * ((b - mu') + (a - mu)) := by ring
      rw [hfac, abs_mul]
      have hba : |b - a| ≤ e := by rw [abs_sub_comm]; exact hab
      have h1 : |(b - mu') - (a - mu)| ≤ 2 * e := by
        have heq : (b - mu') - (a - mu) = (b - a) - (mu' - mu) := by ring
        rw [heq]
        have htri : |(b - a) - (mu' - mu)| ≤ |b - a| + |mu' - mu| := by
          have := abs_add (b - a) (-(mu' - mu))
          rw [abs_neg] at this
          calc |(b - a) - (mu' - mu)| = |(b - a) + -(mu' - mu)| := by ring_nf
            _ ≤ |b - a| + |mu' - mu| := this
        linarith
      have h2 : |(b - mu') + (a - mu)| ≤ 4 * B := by
        have t1 : |b - mu'| ≤ |b| + |mu'| := by
          have := abs_add b (-mu')
          rw [abs_neg] at this
          calc |b - mu'| = |b + -mu'| := by ring_nf
            _ ≤ |b| + |mu'| := this
        have t2 : |a - mu| ≤ |a| + |mu| := by
          have := abs_add a (-mu)
          rw [abs_neg] at this
          calc |a - mu| = |a + -mu| := by ring_nf
            _ ≤ |a| + |mu| := this
        have t3 := abs_add (b - mu') (a - mu)
        linarith
      calc |(b - mu') - (a - mu)| * |(b - mu') + (a - mu)| ≤ (2 * e) * (4 * B) :=
          mul_le_mul h1 h2 (abs_nonneg _) (by positivity)
        _ = 8 * B * e := by ring
    have hrec := ih (fun y hy => hl y (by simp [hy])) (fun y hy => hl' y (by simp [hy]))
    simp only [List.map_cons, List.sum_cons, List.length_cons]
    push_cast
    have heq : (b - mu') ^ 2 + (t'.map (fun x => (x - mu') ^ 2)).sum -
        ((a - mu) ^ 2 + (t.map (fun x => (x - mu) ^ 2)).sum) =
        ((b - mu') ^ 2 - (a - mu) ^ 2) +
          ((t'.map (fun x => (x - mu') ^ 2)).sum -
            (t.map (fun x => (x - mu) ^ 2)).sum) := by ring
    rw [heq]
    calc |((b - mu') ^ 2 - (a - mu) ^ 2) +
          ((t'.map (fun x => (x - mu') ^ 2)).sum -
            (t.map (fun x => (x - mu) ^ 2)).sum)| ≤
        |(b - mu') ^ 2 - (a - mu) ^ 2| +
          |(t'.map (fun x => (x - mu') ^ 2)).sum -
            (t.map (fun x => (x - mu) ^ 2)).sum| := abs_add _ _
      _ ≤ 8 * B * e + (t.length : K) * (8 * B * e) := add_le_add helem hrec
      _ = ((t.length : K) + 1) * (8 * B * e) := by ring

theorem variance_dev_bound {l l' : List K} {e B : K} (he : 0 ≤ e) (hB : 0 ≤ B)
    (h2 : List.Forall₂ (fun a b => |a - b| ≤ e) l l')
    (hlB : ∀ x ∈ l, |x| ≤ B) (hl'B : ∀ x ∈ l', |x| ≤ B) (hne : l ≠ []) :
    |variance l' - variance l| ≤ 8 * B * e := by
  have hlen := List.Forall₂.length_eq h2
  have hmu := abs_mean_le hB hlB
  have hmu' := abs_mean_le hB hl'B
  have hdmu : |mean l' - mean l| ≤ e := by
    rw [abs_sub_comm]
    exact forall2_mean_bound h2 hne
  have key := sum_sqdev_bound (mean l) (mean l') e B hdmu hmu hmu' he hB h2 hlB hl'B
  have hn : (0 : K) < (l.length : K) := by
    have := List.length_pos.mpr hne
    exact_mod_cast this
  unfold variance
  rw [← hlen]
  rw [div_sub_div_same, abs_div, abs_of_nonneg hn.le, div_le_iff hn]
  calc |(l'.map (fun x => (x - mean l') ^ 2)).sum -
        (l.map (fun x => (x - mean l) ^ 2)).sum| ≤
      (l.length : K) * (8 * B * e) := key
    _ = 8 * B * e * (l.length : K) := by ring

theorem variance_le_one {l : List K} (h : ∀ x ∈ l, 0 ≤ x ∧ x ≤ 1) :
    variance l ≤ 1 := by
  cases l with
  | nil =>
    unfold variance
    simp
  | cons y t =>
    have hn : (0 : K) < ((y :: t).length : K) := by
      have : 0 < (y :: t).length := by simp
      exact_mod_cast this
    have hmu0 : 0 ≤ mean (y :: t) := by
      unfold mean
      exact div_nonneg (List.sum_nonneg fun x hx => (h x hx).1) hn.le
    have hmu : |mean (y :: t)| ≤ 1 := by
      refine abs_mean_le zero_le_one ?_
      intro x hx
      rw [abs_le]
      constructor <;> linarith [(h x hx).1, (h x hx).2]
    have hmu1 : mean (y :: t) ≤ 1 := by
      have := abs_le.mp hmu
      linarith [this.2]
    unfold variance
    rw [div_le_iff hn, one_mul]
    have hterm : ∀ z ∈ (y :: t).map (fun x => (x - mean (y :: t)) ^ 2), z ≤ 1 := by
      intro z hz
      obtain ⟨x, hx, rfl⟩ := List.mem_map.mp hz
      have h1 := (h x hx).1
      have h2 := (h x hx).2
      nlinarith
    calc ((y :: t).map (fun x => (x - mean (y :: t)) ^ 2)).sum ≤
        ((((y :: t).map (fun x => (x - mean (y :: t)) ^ 2)).length : K)) * 1 :=
          sum_le_length_mul hterm
      _ = ((y :: t).length : K) := by rw [List.length_map, mul_one]

theorem sum_sq_dev_eq (c : K) (l : List K) :
    (l.map (fun x => (x - c) ^ 2)).sum =
      (l.map (fun x => x ^ 2)).sum - 2 * c * l.sum + (l.length : K) * c ^ 2 := by
  induction l with
  | nil => simp
  | cons x t ih =>
    simp only [List.map_cons, List.sum_cons, List.length_cons]
    push_cast
    nlinarith [ih]

theorem variance_le_mean {l : List K} (h : ∀ x ∈ l, 0 ≤ x ∧ x ≤ 1) :
    variance l ≤ mean l := by
  cases l with
  | nil =>
    unfold variance mean
    simp
  | cons y t =>
    have hn : (0 : K) < ((y :: t).length : K) := by
      have : 0 < (y :: t).length := by simp
      exact_mod_cast this
    have hsq : ((y :: t).map (fun x => x ^ 2)).sum ≤ (y :: t).sum := by
      have : ∀ x ∈ (y :: t), x ^ 2 ≤ x := by
        intro x hx
        nlinarith [(h x hx).1, (h x hx).2]
      calc ((y :: t).map (fun x => x ^ 2)).sum ≤ ((y :: t).map (fun x => x)).sum :=
          List.sum_le_sum this
        _ = (y :: t).sum := by rw [List.map_id']
    unfold variance
    rw [sum_sq_dev_eq]
    have hmean : mean (y :: t) = (y :: t).sum / ((y :: t).length : K) := rfl
    rw [div_le_iff hn]
    have hsummean : (y :: t).sum = ((y :: t).length : K) * mean (y :: t) := by
      rw [hmean]
      field_simp
    have hcross : mean (y :: t) * (y :: t).sum =
        ((y :: t).length : K) * mean (y :: t) ^ 2 := by
      rw [hsummean]
      ring
    linarith [hsq, hcross, mul_nonneg hn.le (sq_nonneg (mean (y :: t))), hsummean]

theorem lowerLimit_mem (oL : Bool) :
    (0 : K) ≤ lowerLimit oL ∧ lowerLimit oL ≤ (1 / 1000 : K) := by
  cases oL <;> norm_num [lowerLimit]

theorem upperLimit_mem (oU : Bool) :
    (999 / 1000 : K) ≤ upperLimit oU ∧ upperLimit oU ≤ (1 : K) := by
  cases oU <;> norm_num [upperLimit]

end PerturbLemmas

section ClaimTheorems

/-- C3: for every raw CDF of length at least 2, every pair of boundary flags
and in fact any step parameters, the first element of the CDF returned by
enforce_cdf_constraints is exactly lower_limit (0.001 if open_lower else 0.0)
and its last element is at most upper_limit (0.999 if open_upper else 1.0). -/
theorem C3_boundary_exactness (cdf : List ℝ) (oL oU : Bool) (ms Ms : ℝ)
    (h : 2 ≤ cdf.length) :
    (enforce cdf oL oU ms Ms).head? = some (lowerLimit oL) ∧
      ∀ v, (enforce cdf oL oU ms Ms).getLast? = some v → v ≤ upperLimit oU := by
  rw [enforce_eq _ _ _ _ _ (not_lt.mpr h)]
  have hdpne : project ((diffs (runningMax (cdf.map (clip 0 1)))).map (fun x => max x 0))
      (upperLimit oU - lowerLimit oL)
      (effL (upperLimit oU - lowerLimit oL) (cdf.length - 1) ms) Ms
      (1 / 10 ^ 12) 60 ≠ [] := by
    refine ne_nil_of_length_pos ?_
    rw [project_length, List.length_map, diffs_length, runningMax_length, List.length_map]
    omega
  refine antiFlatten_head_last _ _ _ _ _ _ _ (reconstruct_head _ _ _ hdpne)
    (fun v hv => ?_)
  rw [reconstruct_getLast] at hv
  rw [show v = min ((lowerLimit oL : ℝ) +
    (project ((diffs (runningMax (cdf.map (clip 0 1)))).map (fun x => max x 0))
      (upperLimit oU - lowerLimit oL)
      (effL (upperLimit oU - lowerLimit oL) (cdf.length - 1) ms) Ms
      (1 / 10 ^ 12) 60).sum) (upperLimit oU) from (Option.some_inj.mp hv).symm]
  exact min_le_right _ _

/-- Witness for C3 at the concrete raw CDF [0, 1/2, 1] with an open lower
bound and a closed upper bound. -/
theorem C3_witness :
    2 ≤ ([0, 1/2, 1] : List ℝ).length ∧
      ((enforce [0, 1/2, 1] true false minStepD maxStepD).head? =
          some (lowerLimit true) ∧
        ∀ v, (enforce [0, 1/2, 1] true false minStepD maxStepD).getLast? = some v →
          v ≤ upperLimit false) :=
  ⟨by norm_num, C3_boundary_exactness [0, 1/2, 1] true false minStepD maxStepD (by norm_num)⟩

/-- C5: the embeddings of _project_bounded_simplex, _anti_flatten_postpass and
enforce_cdf_constraints are total: on every input, including empty and
one-point vectors and degenerate parameter values, each returns a list of the
same length as its input. -/
theorem C5_totality :
    ∀ (d cdf cdfR : List ℝ) (t L U tol ms Ms ct bl : ℝ) (it : ℕ) (oL oU : Bool),
      (project d t L U tol it).length = d.length ∧
      (antiFlatten cdf oL oU ms Ms ct bl).length = cdf.length ∧
      (enforce cdfR oL oU ms Ms).length = cdfR.length :=
  fun d cdf cdfR t L U tol ms Ms ct bl it oL oU =>
    ⟨project_length d t L U tol it, antiFlatten_length cdf oL oU ms Ms ct bl,
      enforce_length cdfR oL oU ms Ms⟩

/-- C7: _anti_flatten_postpass returns its input unchanged whenever the
increment vector diff(cdf) is empty, the mean increment is nonpositive, or
the coefficient of variation std(d)/(|mean(d)| + 1e-12) is at least the
cv threshold. -/
theorem C7_noop_branches (cdf : List ℝ) (oL oU : Bool) (ms Ms ct bl : ℝ)
    (h : diffs cdf = [] ∨ mean (diffs cdf) ≤ 0 ∨ ct ≤ cv (diffs cdf)) :
    antiFlatten cdf oL oU ms Ms ct bl = cdf :=
  antiFlatten_noop cdf oL oU ms Ms ct bl h

/-- Witness for C7 at the concrete CDF [0, 1/5, 3/5], whose increments have a
coefficient of variation of 1/3 which reaches the 0.10 threshold. -/
theorem C7_witness :
    ((1 : ℝ)/10 ≤ cv (diffs ([0, 1/5, 3/5] : List ℝ))) ∧
      antiFlatten [0, 1/5, 3/5] false false (1/20000) (589999/1000000) (1/10) (1/5) =
        [0, 1/5, 3/5] := by
  have hd : diffs ([0, 1/5, 3/5] : List ℝ) = [1/5, 2/5] := by norm_num [diffs]
  have hcv : (1 : ℝ)/10 ≤ cv (diffs ([0, 1/5, 3/5] : List ℝ)) := by
    rw [hd, cv_ge_iff _ (by norm_num)]
    have hm : mean ([1/5, 2/5] : List ℝ) = 3/10 := by
      norm_num [mean, List.sum_cons, List.sum_nil]
    have hv : variance ([1/5, 2/5] : List ℝ) = 1/100 := by
      unfold variance
      rw [hm]
      norm_num [List.sum_cons, List.sum_nil]
    rw [hm, hv]
    rw [abs_of_nonneg (by norm_num : (0:ℝ) ≤ 3/10)]
    norm_num
  exact ⟨hcv, C7_noop_branches [0, 1/5, 3/5] false false (1/20000) (589999/1000000)
    (1/10) (1/5) (Or.inr (Or.inr hcv))⟩

/-- C10: whenever the correction branch of _anti_flatten_postpass triggers
(nonempty increments, positive mean increment, cv below the threshold), the
first element of the returned CDF is the recomputed lower bound (0.001 if
open_lower else 0.0), regardless of the first element of the input CDF. -/
theorem C10_corr_overwrites_head (cdf : List ℝ) (oL oU : Bool) (ms Ms ct bl : ℝ)
    (h1 : diffs cdf ≠ []) (h2 : 0 < mean (diffs cdf)) (h3 : cv (diffs cdf) < ct) :
    (antiFlatten cdf oL oU ms Ms ct bl).head? = some (lowerLimit oL) := by
  rw [antiFlatten_corr cdf oL oU ms Ms ct bl h1 (not_le.mpr h2) (not_le.mpr h3)]
  refine reconstruct_head _ _ _ (ne_nil_of_length_pos ?_)
  rw [project_length, tiltVec_length]
  exact List.length_pos.mpr h1

/-- Witness for C10 at the CDF [1/2, 3/5, 7/10], not anchored at any valid
lower bound: the correction branch triggers (uniform increments give cv = 0)
and the first element is overwritten with 0.001 (open lower bound). -/
theorem C10_witness :
    diffs ([1/2, 3/5, 7/10] : List ℝ) ≠ [] ∧
      0 < mean (diffs ([1/2, 3/5, 7/10] : List ℝ)) ∧
      cv (diffs ([1/2, 3/5, 7/10] : List ℝ)) < 1/10 ∧
      (antiFlatten [1/2, 3/5, 7/10] true false (1/20000) (589999/1000000)
          (1/10) (1/5)).head? = some (1/1000) := by
  have hd : diffs ([1/2, 3/5, 7/10] : List ℝ) = [1/10, 1/10] := by norm_num [diffs]
  have h1 : diffs ([1/2, 3/5, 7/10] : List ℝ) ≠ [] := by rw [hd]; simp
  have h2 : 0 < mean (diffs ([1/2, 3/5, 7/10] : List ℝ)) := by
    rw [hd]
    norm_num [mean, List.sum_cons, List.sum_nil]
  have h3 : cv (diffs ([1/2, 3/5, 7/10] : List ℝ)) < 1/10 := by
    rw [hd, show ([1/10, 1/10] : List ℝ) = List.replicate 2 (1/10) from rfl,
      cv_eq_zero_of_variance_eq_zero (variance_replicate (by norm_num) _)]
    norm_num
  refine ⟨h1, h2, h3, ?_⟩
  rw [C10_corr_overwrites_head [1/2, 3/5, 7/10] true false (1/20000) (589999/1000000)
    (1/10) (1/5) h1 h2 h3]
  rfl

/-- Trajectory of the bisection for the one-dimensional input [0] with target
1/3, bounds [0, 2^62] and tolerance 1e-12: every iteration finds the midpoint
above the target and halves the bracket from above, so after 60 iterations the
fallback midpoint 1 + 2^(-60) is still far from the root. -/
theorem c4_trajectory :
    ∀ (j exp : ℕ), exp + j = 60 →
      bisect ([0] : List ℝ) (1/3) 0 (2^62) (1/10^12) j (-1) ((2^62 + 2)/2^exp - 1) =
        [1 + 1/2^60] := by
  intro j
  induction j with
  | zero =>
    intro exp hexp
    have hexp60 : exp = 60 := by omega
    subst hexp60
    show [clip 0 (2^62) (0 + (-1 + ((2^62 + 2)/2^60 - 1))/2)] = [1 + 1/2^60]
    have hval : (0 : ℝ) + (-1 + ((2^62 + 2)/2^60 - 1))/2 = 1 + 1/2^60 := by
      norm_num
    rw [hval, clip_of_mem (by positivity) (by norm_num)]
  | succ j ih =>
    intro exp hexp
    have hmid : ((-1 : ℝ) + ((2^62 + 2)/2^exp - 1))/2 = (2^62 + 2)/2^(exp + 1) - 1 := by
      rw [pow_succ]
      field_simp
      ring
    have hexpbound : (2 : ℝ)^(exp + 1) ≤ 2^60 := by
      refine pow_le_pow_right (by norm_num) (by omega)
    have hmid_ge : (3 : ℝ) ≤ (2^62 + 2)/2^(exp + 1) - 1 := by
      have h4 : (4 : ℝ) ≤ (2^62 + 2)/2^(exp + 1) := by
        rw [le_div_iff (by positivity)]
        calc (4 : ℝ) * 2^(exp+1) ≤ 4 * 2^60 := by nlinarith
          _ ≤ 2^62 + 2 := by norm_num
      linarith
    have hmid_le : (2^62 + 2 : ℝ)/2^(exp + 1) - 1 ≤ 2^62 := by
      have : (2^62 + 2 : ℝ)/2^(exp + 1) ≤ (2^62 + 2)/2 := by
        refine div_le_div_of_nonneg_left (by positivity) (by norm_num) ?_
        calc (2 : ℝ) = 2^1 := by norm_num
          _ ≤ 2^(exp+1) := pow_le_pow_right (by norm_num) (by omega)
      calc (2^62 + 2 : ℝ)/2^(exp + 1) - 1 ≤ (2^62 + 2)/2 - 1 := by linarith
        _ ≤ 2^62 := by norm_num
    simp only [bisect]
    have hcs : clipSum ([0] : List ℝ) 0 (2^62)
        ((-1 + ((2^62 + 2)/2^exp - 1))/2) = (2^62 + 2)/2^(exp + 1) - 1 := by
      show clip 0 (2^62) (0 + (-1 + ((2^62 + 2)/2^exp - 1))/2) + 0 =
        (2^62 + 2)/2^(exp + 1) - 1
      rw [zero_add, hmid, add_zero]
      exact clip_of_mem (by linarith) hmid_le
    rw [hcs]
    rw [if_neg (by
      rw [abs_of_nonneg (by linarith)]
      intro hcon
      have : (2^62 + 2 : ℝ)/2^(exp + 1) - 1 - 1/3 ≥ 3 - 1/3 := by linarith
      norm_num at hcon ⊢
      linarith)]
    rw [if_pos (by linarith)]
    rw [hmid]
    exact ih (exp + 1) (by omega)

section ClaimFour

/-- C4 (amended): for every finite input vector, bounds L ≤ U and nonnegative
tolerance, the sum of the output of _project_bounded_simplex differs from the
target total (clamped into [n*L, n*U]) by at most
max(tol, n*(hi0 - lo0)/2^60), the residual of 60 bracket halvings; the
original 1e-9 bound follows only when that quantity is below 1e-9. -/
theorem C4_amended_mass_bound (d : List ℝ) (total L U tol : ℝ)
    (hLU : L ≤ U) (htol : 0 ≤ tol) :
    |(project d total L U tol 60).sum - clampTotal d L U total| ≤
      projErr d L U tol 60 := by
  obtain ⟨lam, _, hsum⟩ := project_spec d total L U tol hLU htol 60
  exact hsum

/-- Witness for the amended C4 at the concrete vector [1/2, 1/4] with
target 1, bounds [0, 1] and tolerance 1e-12. -/
theorem C4_witness :
    ((0 : ℝ) ≤ 1) ∧ ((0 : ℝ) ≤ 1/10^12) ∧
      |(project ([1/2, 1/4] : List ℝ) 1 0 1 (1/10^12) 60).sum -
          clampTotal ([1/2, 1/4] : List ℝ) 0 1 1| ≤
        projErr ([1/2, 1/4] : List ℝ) 0 1 (1/10^12) 60 :=
  ⟨by norm_num, by norm_num,
    C4_amended_mass_bound [1/2, 1/4] 1 0 1 (1/10^12) (by norm_num) (by norm_num)⟩

/-- C4 counterexample: for the one-element vector [0] with target 1/3, bounds
L = 0 ≤ U = 2^62 and the module's tolerance and iteration cap, the sum of the
projection misses the clamped target (which is 1/3 itself) by 2/3 + 2^(-60),
far more than 1e-9: the universally quantified mass-preservation claim is
false as stated. -/
theorem C4_counterexample :
    ((0 : ℝ) ≤ 2^62) ∧
      clampTotal ([0] : List ℝ) 0 (2^62) (1/3) = 1/3 ∧
      1/10^9 < |(project ([0] : List ℝ) (1/3) 0 (2^62) (1/10^12) 60).sum - 1/3| := by
  have hclamp : clampTotal ([0] : List ℝ) 0 (2^62) (1/3) = 1/3 := by
    unfold clampTotal
    rw [show (([0] : List ℝ).length : ℝ) = 1 by norm_num]
    rw [one_mul, one_mul]
    exact clip_of_mem (by norm_num) (by norm_num)
  refine ⟨by positivity, hclamp, ?_⟩
  have hproj : project ([0] : List ℝ) (1/3) 0 (2^62) (1/10^12) 60 =
      [1 + 1/2^60] := by
    have hne : ([0] : List ℝ).isEmpty = false := rfl
    unfold project
    rw [hne]
    simp only [Bool.false_eq_true, if_false]
    have hMax : listMax ([0] : List ℝ) = 0 := rfl
    have hMin : listMin ([0] : List ℝ) = 0 := rfl
    rw [hMax, hMin]
    rw [show (([0] : List ℝ).length : ℝ) = 1 by norm_num]
    rw [one_mul, one_mul]
    rw [show clip (0 : ℝ) (2^62) (1/3) = 1/3 from clip_of_mem (by norm_num) (by norm_num)]
    rw [show ((0 : ℝ) - 0 - 1) = -1 by norm_num]
    rw [show ((2^62 : ℝ) - 0 + 1) = (2^62 + 2)/2^0 - 1 by norm_num]
    exact c4_trajectory 60 0 (by omega)
  rw [hproj]
  show 1/10^9 < |([(1 : ℝ) + 1/2^60]).sum - 1/3|
  rw [List.sum_cons, List.sum_nil, add_zero]
  rw [abs_of_nonneg (by norm_num)]
  norm_num

end ClaimFour

theorem c12_sbis_value :
    sbis 952187499831 (0:ℝ) 1 ((47812500169 : ℝ)/952187499831000000000000) ((589999 : ℝ)/1000000) ((1 : ℝ)/1000000000000) 60 (((47812500169 : ℝ)/952187499831000000000000) - 1) (((589999 : ℝ)/1000000) + 1) = ((2305844560529414080995949063103 : ℝ)/2195594889945976741362885722112000000000000) := by
  rw [show (((47812500169 : ℝ)/952187499831000000000000) - 1 : ℝ) = ((-952187499830952187499831 : ℝ)/952187499831000000000000) by norm_num]
  rw [show (((589999 : ℝ)/1000000) + 1 : ℝ) = ((1589999 : ℝ)/1000000) by norm_num]
  rw [show (60:ℕ) = 59 + 1 from rfl]
  rw [sbis]
  rw [show ((((-952187499830952187499831 : ℝ)/952187499831000000000000) : ℝ) + ((1589999 : ℝ)/1000000))/2 = ((561789672712837981500169 : ℝ)/1904374999662000000000000) by norm_num]
  rw [if_neg (by
    rw [show clip ((47812500169 : ℝ)/952187499831000000000000) ((589999 : ℝ)/1000000) ((0:ℝ) + ((561789672712837981500169 : ℝ)/1904374999662000000000000)) = ((561789672712837981500169 : ℝ)/1904374999662000000000000) by
      unfold clip
      rw [show ((0:ℝ) + ((561789672712837981500169 : ℝ)/1904374999662000000000000)) = ((561789672712837981500169 : ℝ)/1904374999662000000000000) by norm_num]
      rw [max_eq_right (by norm_num), min_eq_right (by norm_num)]]
    rw [abs_of_nonneg (by norm_num)]
    norm_num)]
  rw [if_pos (by
    rw [show clip ((47812500169 : ℝ)/952187499831000000000000) ((589999 : ℝ)/1000000) ((0:ℝ) + ((561789672712837981500169 : ℝ)/1904374999662000000000000)) = ((561789672712837981500169 : ℝ)/1904374999662000000000000) by
      unfold clip
      rw [show ((0:ℝ) + ((561789672712837981500169 : ℝ)/1904374999662000000000000)) = ((561789672712837981500169 : ℝ)/1904374999662000000000000) by norm_num]
      rw [max_eq_right (by norm_num), min_eq_right (by norm_num)]]
    norm_num)]
  rw [show (59:ℕ) = 58 + 1 from rfl]
  rw [sbis]
  rw [show ((((-952187499830952187499831 : ℝ)/952187499831000000000000) : ℝ) + ((561789672712837981500169 : ℝ)/1904374999662000000000000))/2 = ((-447528442316355464499831 : ℝ)/1269583333108000000000000) by norm_num]
  rw [if_neg (by
    rw [show clip ((47812500169 : ℝ)/952187499831000000000000) ((589999 : ℝ)/1000000) ((0:ℝ) + ((-447528442316355464499831 : ℝ)/1269583333108000000000000)) = ((47812500169 : ℝ)/952187499831000000000000) by
      unfold clip
      rw [show ((0:ℝ) + ((-447528442316355464499831 : ℝ)/1269583333108000000000000)) = ((-447528442316355464499831 : ℝ)/1269583333108000000000000) by norm_num]
      rw [max_eq_left (by norm_num), min_eq_right (by norm_num)]]
    rw [abs_of_nonpos (by norm_num)]
    norm_num)]
  rw [if_neg (by
    rw [show clip ((47812500169 : ℝ)/952187499831000000000000) ((589999 : ℝ)/1000000) ((0:ℝ) + ((-447528442316355464499831 : ℝ)/1269583333108000000000000)) = ((47812500169 : ℝ)/952187499831000000000000) by
      unfold clip
      rw [show ((0:ℝ) + ((-447528442316355464499831 : ℝ)/1269583333108000000000000)) = ((-447528442316355464499831 : ℝ)/1269583333108000000000000) by norm_num]
      rw [max_eq_left (by norm_num), min_eq_right (by norm_num)]]
    push_neg
    norm_num)]
  rw [show (58:ℕ) = 57 + 1 from rfl]
  rw [sbis]
  rw [show ((((-447528442316355464499831 : ℝ)/1269583333108000000000000) : ℝ) + ((561789672712837981500169 : ℝ)/1904374999662000000000000))/2 = ((-43801196304678086099831 : ℝ)/1523499999729600000000000) by norm_num]
  rw [if_neg (by
    rw [show clip ((47812500169 : ℝ)/952187499831000000000000) ((589999 : ℝ)/1000000) ((0:ℝ) + ((-43801196304678086099831 : ℝ)/1523499999729600000000000)) = ((47812500169 : ℝ)/952187499831000000000000) by
      unfold clip
      rw [show ((0:ℝ) + ((-43801196304678086099831 : ℝ)/1523499999729600000000000)) = ((-43801196304678086099831 : ℝ)/1523499999729600000000000) by norm_num]
      rw [max_eq_left (by norm_num), min_eq_right (by norm_num)]]
    rw [abs_of_nonpos (by norm_num)]
    norm_num)]
  rw [if_neg (by
    rw [show clip ((47812500169 : ℝ)/952187499831000000000000) ((589999 : ℝ)/1000000) ((0:ℝ) + ((-43801196304678086099831 : ℝ)/1523499999729600000000000)) = ((47812500169 : ℝ)/952187499831000000000000) by
      unfold clip
      rw [show ((0:ℝ) + ((-43801196304678086099831 : ℝ)/1523499999729600000000000)) = ((-43801196304678086099831 : ℝ)/1523499999729600000000000) by norm_num]
      rw [max_eq_left (by norm_num), min_eq_right (by norm_num)]]
    push_neg
    norm_num)]
  rw [show (57:ℕ) = 56 + 1 from rfl]
  rw [sbis]
  rw [show ((((-43801196304678086099831 : ℝ)/1523499999729600000000000) : ℝ) + ((561789672712837981500169 : ℝ)/1904374999662000000000000))/2 = ((676050903109320498500507 : ℝ)/5078333332432000000000000) by norm_num]
  rw [if_neg (by
    rw [show clip ((47812500169 : ℝ)/952187499831000000000000) ((589999 : ℝ)/1000000) ((0:ℝ) + ((676050903109320498500507 : ℝ)/5078333332432000000000000)) = ((676050903109320498500507 : ℝ)/5078333332432000000000000) by
      unfold clip
      rw [show ((0:ℝ) + ((676050903109320498500507 : ℝ)/5078333332432000000000000)) = ((676050903109320498500507 : ℝ)/5078333332432000000000000) by norm_num]
      rw [max_eq_right (by norm_num), min_eq_right (by norm_num)]]
    rw [abs_of_nonneg (by norm_num)]
    norm_num)]
  rw [if_pos (by
    rw [show clip ((47812500169 : ℝ)/952187499831000000000000) ((589999 : ℝ)/1000000) ((0:ℝ) + ((676050903109320498500507 : ℝ)/5078333332432000000000000)) = ((676050903109320498500507 : ℝ)/5078333332432000000000000) by
      unfold clip
      rw [show ((0:ℝ) + ((676050903109320498500507 : ℝ)/5078333332432000000000000)) = ((676050903109320498500507 : ℝ)/5078333332432000000000000) by norm_num]
      rw [max_eq_right (by norm_num), min_eq_right (by norm_num)]]
    norm_num)]
  rw [show (56:ℕ) = 55 + 1 from rfl]
  rw [sbis]
  rw [show ((((-43801196304678086099831 : ℝ)/1523499999729600000000000) : ℝ) + ((676050903109320498500507 : ℝ)/5078333332432000000000000))/2 = ((1590140746281180634503211 : ℝ)/30469999994592000000000000) by norm_num]
  rw [if_neg (by
    rw [show clip ((47812500169 : ℝ)/952187499831000000000000) ((589999 : ℝ)/1000000) ((0:ℝ) + ((1590140746281180634503211 : ℝ)/30469999994592000000000000)) = ((1590140746281180634503211 : ℝ)/30469999994592000000000000) by
      unfold clip
      rw [show ((0:ℝ) + ((1590140746281180634503211 : ℝ)/30469999994592000000000000)) = ((1590140746281180634503211 : ℝ)/30469999994592000000000000) by norm_num]
      rw [max_eq_right (by norm_num), min_eq_right (by norm_num)]]
    rw [abs_of_nonneg (by norm_num)]
    norm_num)]
  rw [if_pos (by
    rw [show clip ((47812500169 : ℝ)/952187499831000000000000) ((589999 : ℝ)/1000000) ((0:ℝ) + ((1590140746281180634503211 : ℝ)/30469999994592000000000000)) = ((1590140746281180634503211 : ℝ)/30469999994592000000000000) by
      unfold clip
      rw [show ((0:ℝ) + ((1590140746281180634503211 : ℝ)/30469999994592000000000000)) = ((1590140746281180634503211 : ℝ)/30469999994592000000000000) by norm_num]
      rw [max_eq_right (by norm_num), min_eq_right (by norm_num)]]
    norm_num)]
  rw [show (55:ℕ) = 54 + 1 from rfl]
  rw [sbis]
  rw [show ((((-43801196304678086099831 : ℝ)/1523499999729600000000000) : ℝ) + ((1590140746281180634503211 : ℝ)/30469999994592000000000000))/2 = ((238038940062539637502197 : ℝ)/20313333329728000000000000) by norm_num]
  rw [if_neg (by
    rw [show clip ((47812500169 : ℝ)/952187499831000000000000) ((589999 : ℝ)/1000000) ((0:ℝ) + ((238038940062539637502197 : ℝ)/20313333329728000000000000)) = ((238038940062539637502197 : ℝ)/20313333329728000000000000) by
      unfold clip
      rw [show ((0:ℝ) + ((238038940062539637502197 : ℝ)/20313333329728000000000000)) = ((238038940062539637502197 : ℝ)/20313333329728000000000000) by norm_num]
      rw [max_eq_right (by norm_num), min_eq_right (by norm_num)]]
    rw [abs_of_nonneg (by norm_num)]
    norm_num)]
  rw [if_pos (by
    rw [show clip ((47812500169 : ℝ)/952187499831000000000000) ((589999 : ℝ)/1000000) ((0:ℝ) + ((238038940062539637502197 : ℝ)/20313333329728000000000000)) = ((238038940062539637502197 : ℝ)/20313333329728000000000000) by
      unfold clip
      rw [show ((0:ℝ) + ((238038940062539637502197 : ℝ)/20313333329728000000000000)) = ((238038940062539637502197 : ℝ)/20313333329728000000000000) by norm_num]
      rw [max_eq_right (by norm_num), min_eq_right (by norm_num)]]
    norm_num)]
  rw [show (54:ℕ) = 53 + 1 from rfl]
  rw [sbis]
  rw [show ((((-43801196304678086099831 : ℝ)/1523499999729600000000000) : ℝ) + ((238038940062539637502197 : ℝ)/20313333329728000000000000))/2 = ((-1037931031999504531486649 : ℝ)/121879999978368000000000000) by norm_num]
  rw [if_neg (by
    rw [show clip ((47812500169 : ℝ)/952187499831000000000000) ((589999 : ℝ)/1000000) ((0:ℝ) + ((-1037931031999504531486649 : ℝ)/121879999978368000000000000)) = ((47812500169 : ℝ)/952187499831000000000000) by
      unfold clip
      rw [show ((0:ℝ) + ((-1037931031999504531486649 : ℝ)/121879999978368000000000000)) = ((-1037931031999504531486649 : ℝ)/121879999978368000000000000) by norm_num]
      rw [max_eq_left (by norm_num), min_eq_right (by norm_num)]]
    rw [abs_of_nonpos (by norm_num)]
    norm_num)]
  rw [if_neg (by
    rw [show clip ((47812500169 : ℝ)/952187499831000000000000) ((589999 : ℝ)/1000000) ((0:ℝ) + ((-1037931031999504531486649 : ℝ)/121879999978368000000000000)) = ((47812500169 : ℝ)/952187499831000000000000) by
      unfold clip
      rw [show ((0:ℝ) + ((-1037931031999504531486649 : ℝ)/121879999978368000000000000)) = ((-1037931031999504531486649 : ℝ)/121879999978368000000000000) by norm_num]
      rw [max_eq_left (by norm_num), min_eq_right (by norm_num)]]
    push_neg
    norm_num)]
  rw [show (53:ℕ) = 52 + 1 from rfl]
  rw [sbis]
  rw [show ((((-1037931031999504531486649 : ℝ)/121879999978368000000000000) : ℝ) + ((238038940062539637502197 : ℝ)/20313333329728000000000000))/2 = ((390302608375733293526533 : ℝ)/243759999956736000000000000) by norm_num]
  rw [if_neg (by
    rw [show clip ((47812500169 : ℝ)/952187499831000000000000) ((589999 : ℝ)/1000000) ((0:ℝ) + ((390302608375733293526533 : ℝ)/243759999956736000000000000)) = ((390302608375733293526533 : ℝ)/243759999956736000000000000) by
      unfold clip
      rw [show ((0:ℝ) + ((390302608375733293526533 : ℝ)/243759999956736000000000000)) = ((390302608375733293526533 : ℝ)/243759999956736000000000000) by norm_num]
      rw [max_eq_right (by norm_num), min_eq_right (by norm_num)]]
    rw [abs_of_nonneg (by norm_num)]
    norm_num)]
  rw [if_pos (by
    rw [show clip ((47812500169 : ℝ)/952187499831000000000000) ((589999 : ℝ)/1000000) ((0:ℝ) + ((390302608375733293526533 : ℝ)/243759999956736000000000000)) = ((390302608375733293526533 : ℝ)/243759999956736000000000000) by
      unfold clip
      rw [show ((0:ℝ) + ((390302608375733293526533 : ℝ)/243759999956736000000000000)) = ((390302608375733293526533 : ℝ)/243759999956736000000000000) by norm_num]
      rw [max_eq_right (by norm_num), min_eq_right (by norm_num)]]
    norm_num)]
  rw [show (52:ℕ) = 51 + 1 from rfl]
  rw [sbis]
  rw [show ((((-1037931031999504531486649 : ℝ)/121879999978368000000000000) : ℝ) + ((390302608375733293526533 : ℝ)/243759999956736000000000000))/2 = ((-112370630374885051296451 : ℝ)/32501333327564800000000000) by norm_num]
  rw [if_neg (by
    rw [show clip ((47812500169 : ℝ)/952187499831000000000000) ((589999 : ℝ)/1000000) ((0:ℝ) + ((-112370630374885051296451 : ℝ)/32501333327564800000000000)) = ((47812500169 : ℝ)/952187499831000000000000) by
      unfold clip
      rw [show ((0:ℝ) + ((-112370630374885051296451 : ℝ)/32501333327564800000000000)) = ((-112370630374885051296451 : ℝ)/32501333327564800000000000) by norm_num]
      rw [max_eq_left (by norm_num), min_eq_right (by norm_num)]]
    rw [abs_of_nonpos (by norm_num)]
    norm_num)]
  rw [if_neg (by
    rw [show clip ((47812500169 : ℝ)/952187499831000000000000) ((589999 : ℝ)/1000000) ((0:ℝ) + ((-112370630374885051296451 : ℝ)/32501333327564800000000000)) = ((47812500169 : ℝ)/952187499831000000000000) by
      unfold clip
      rw [show ((0:ℝ) + ((-112370630374885051296451 : ℝ)/32501333327564800000000000)) = ((-112370630374885051296451 : ℝ)/32501333327564800000000000) by norm_num]
      rw [max_eq_left (by norm_num), min_eq_right (by norm_num)]]
    push_neg
    norm_num)]
  rw [show (51:ℕ) = 50 + 1 from rfl]
  rw [sbis]
  rw [show ((((-112370630374885051296451 : ℝ)/32501333327564800000000000) : ℝ) + ((390302608375733293526533 : ℝ)/243759999956736000000000000))/2 = ((-904954238871809182393699 : ℝ)/975039999826944000000000000) by norm_num]
  rw [if_neg (by
    rw [show clip ((47812500169 : ℝ)/952187499831000000000000) ((589999 : ℝ)/1000000) ((0:ℝ) + ((-904954238871809182393699 : ℝ)/975039999826944000000000000)) = ((47812500169 : ℝ)/952187499831000000000000) by
      unfold clip
      rw [show ((0:ℝ) + ((-904954238871809182393699 : ℝ)/975039999826944000000000000)) = ((-904954238871809182393699 : ℝ)/975039999826944000000000000) by norm_num]
      rw [max_eq_left (by norm_num), min_eq_right (by norm_num)]]
    rw [abs_of_nonpos (by norm_num)]
    norm_num)]
  rw [if_neg (by
    rw [show clip ((47812500169 : ℝ)/952187499831000000000000) ((589999 : ℝ)/1000000) ((0:ℝ) + ((-904954238871809182393699 : ℝ)/975039999826944000000000000)) = ((47812500169 : ℝ)/952187499831000000000000) by
      unfold clip
      rw [show ((0:ℝ) + ((-904954238871809182393699 : ℝ)/975039999826944000000000000)) = ((-904954238871809182393699 : ℝ)/975039999826944000000000000) by norm_num]
      rw [max_eq_left (by norm_num), min_eq_right (by norm_num)]]
    push_neg
    norm_num)]
  rw [show (50:ℕ) = 49 + 1 from rfl]
  rw [sbis]
  rw [show ((((-904954238871809182393699 : ℝ)/975039999826944000000000000) : ℝ) + ((390302608375733293526533 : ℝ)/243759999956736000000000000))/2 = ((218752064877041330570811 : ℝ)/650026666551296000000000000) by norm_num]
  rw [if_neg (by
    rw [show clip ((47812500169 : ℝ)/952187499831000000000000) ((589999 : ℝ)/1000000) ((0:ℝ) + ((218752064877041330570811 : ℝ)/650026666551296000000000000)) = ((218752064877041330570811 : ℝ)/650026666551296000000000000) by
      unfold clip
      rw [show ((0:ℝ) + ((218752064877041330570811 : ℝ)/650026666551296000000000000)) = ((218752064877041330570811 : ℝ)/650026666551296000000000000) by norm_num]
      rw [max_eq_right (by norm_num), min_eq_right (by norm_num)]]
    rw [abs_of_nonneg (by norm_num)]
    norm_num)]
  rw [if_pos (by
    rw [show clip ((47812500169 : ℝ)/952187499831000000000000) ((589999 : ℝ)/1000000) ((0:ℝ) + ((218752064877041330570811 : ℝ)/650026666551296000000000000)) = ((218752064877041330570811 : ℝ)/650026666551296000000000000) by
      unfold clip
      rw [show ((0:ℝ) + ((218752064877041330570811 : ℝ)/650026666551296000000000000)) = ((218752064877041330570811 : ℝ)/650026666551296000000000000) by norm_num]
      rw [max_eq_right (by norm_num), min_eq_right (by norm_num)]]
    norm_num)]
  rw [show (49:ℕ) = 48 + 1 from rfl]
  rw [sbis]
  rw [show ((((-904954238871809182393699 : ℝ)/975039999826944000000000000) : ℝ) + ((218752064877041330570811 : ℝ)/650026666551296000000000000))/2 = ((-230730456622498874614993 : ℝ)/780031999861555200000000000) by norm_num]
  rw [if_neg (by
    rw [show clip ((47812500169 : ℝ)/952187499831000000000000) ((589999 : ℝ)/1000000) ((0:ℝ) + ((-230730456622498874614993 : ℝ)/780031999861555200000000000)) = ((47812500169 : ℝ)/952187499831000000000000) by
      unfold clip
      rw [show ((0:ℝ) + ((-230730456622498874614993 : ℝ)/780031999861555200000000000)) = ((-230730456622498874614993 : ℝ)/780031999861555200000000000) by norm_num]
      rw [max_eq_left (by norm_num), min_eq_right (by norm_num)]]
    rw [abs_of_nonpos (by norm_num)]
    norm_num)]
  rw [if_neg (by
    rw [show clip ((47812500169 : ℝ)/952187499831000000000000) ((589999 : ℝ)/1000000) ((0:ℝ) + ((-230730456622498874614993 : ℝ)/780031999861555200000000000)) = ((47812500169 : ℝ)/952187499831000000000000) by
      unfold clip
      rw [show ((0:ℝ) + ((-230730456622498874614993 : ℝ)/780031999861555200000000000)) = ((-230730456622498874614993 : ℝ)/780031999861555200000000000) by norm_num]
      rw [max_eq_left (by norm_num), min_eq_right (by norm_num)]]
    push_neg
    norm_num)]
  rw [show (48:ℕ) = 47 + 1 from rfl]
  rw [sbis]
  rw [show ((((-230730456622498874614993 : ℝ)/780031999861555200000000000) : ℝ) + ((218752064877041330570811 : ℝ)/650026666551296000000000000))/2 = ((158860106149753610349901 : ℝ)/7800319998615552000000000000) by norm_num]
  rw [if_neg (by
    rw [show clip ((47812500169 : ℝ)/952187499831000000000000) ((589999 : ℝ)/1000000) ((0:ℝ) + ((158860106149753610349901 : ℝ)/7800319998615552000000000000)) = ((158860106149753610349901 : ℝ)/7800319998615552000000000000) by
      unfold clip
      rw [show ((0:ℝ) + ((158860106149753610349901 : ℝ)/7800319998615552000000000000)) = ((158860106149753610349901 : ℝ)/7800319998615552000000000000) by norm_num]
      rw [max_eq_right (by norm_num), min_eq_right (by norm_num)]]
    rw [abs_of_nonneg (by norm_num)]
    norm_num)]
  rw [if_pos (by
    rw [show clip ((47812500169 : ℝ)/952187499831000000000000) ((589999 : ℝ)/1000000) ((0:ℝ) + ((158860106149753610349901 : ℝ)/7800319998615552000000000000)) = ((158860106149753610349901 : ℝ)/7800319998615552000000000000) by
      unfold clip
      rw [show ((0:ℝ) + ((158860106149753610349901 : ℝ)/7800319998615552000000000000)) = ((158860106149753610349901 : ℝ)/7800319998615552000000000000) by norm_num]
      rw [max_eq_right (by norm_num), min_eq_right (by norm_num)]]
    norm_num)]
  rw [show (47:ℕ) = 46 + 1 from rfl]
  rw [sbis]
  rw [show ((((-230730456622498874614993 : ℝ)/780031999861555200000000000) : ℝ) + ((158860106149753610349901 : ℝ)/7800319998615552000000000000))/2 = ((-716148153358411711933343 : ℝ)/5200213332410368000000000000) by norm_num]
  rw [if_neg (by
    rw [show clip ((47812500169 : ℝ)/952187499831000000000000) ((589999 : ℝ)/1000000) ((0:ℝ) + ((-716148153358411711933343 : ℝ)/5200213332410368000000000000)) = ((47812500169 : ℝ)/952187499831000000000000) by
      unfold clip
      rw [show ((0:ℝ) + ((-716148153358411711933343 : ℝ)/5200213332410368000000000000)) = ((-716148153358411711933343 : ℝ)/5200213332410368000000000000) by norm_num]
      rw [max_eq_left (by norm_num), min_eq_right (by norm_num)]]
    rw [abs_of_nonpos (by norm_num)]
    norm_num)]
  rw [if_neg (by
    rw [show clip ((47812500169 : ℝ)/952187499831000000000000) ((589999 : ℝ)/1000000) ((0:ℝ) + ((-716148153358411711933343 : ℝ)/5200213332410368000000000000)) = ((47812500169 : ℝ)/952187499831000000000000) by
      unfold clip
      rw [show ((0:ℝ) + ((-716148153358411711933343 : ℝ)/5200213332410368000000000000)) = ((-716148153358411711933343 : ℝ)/5200213332410368000000000000) by norm_num]
      rw [max_eq_left (by norm_num), min_eq_right (by norm_num)]]
    push_neg
    norm_num)]
  rw [show (46:ℕ) = 45 + 1 from rfl]
  rw [sbis]
  rw [show ((((-716148153358411711933343 : ℝ)/5200213332410368000000000000) : ℝ) + ((158860106149753610349901 : ℝ)/7800319998615552000000000000))/2 = ((-1830724247775727915100227 : ℝ)/31201279994462208000000000000) by norm_num]
  rw [if_neg (by
    rw [show clip ((47812500169 : ℝ)/952187499831000000000000) ((589999 : ℝ)/1000000) ((0:ℝ) + ((-1830724247775727915100227 : ℝ)/31201279994462208000000000000)) = ((47812500169 : ℝ)/952187499831000000000000) by
      unfold clip
      rw [show ((0:ℝ) + ((-1830724247775727915100227 : ℝ)/31201279994462208000000000000)) = ((-1830724247775727915100227 : ℝ)/31201279994462208000000000000) by norm_num]
      rw [max_eq_left (by norm_num), min_eq_right (by norm_num)]]
    rw [abs_of_nonpos (by norm_num)]
    norm_num)]
  rw [if_neg (by
    rw [show clip ((47812500169 : ℝ)/952187499831000000000000) ((589999 : ℝ)/1000000) ((0:ℝ) + ((-1830724247775727915100227 : ℝ)/31201279994462208000000000000)) = ((47812500169 : ℝ)/952187499831000000000000) by
      unfold clip
      rw [show ((0:ℝ) + ((-1830724247775727915100227 : ℝ)/31201279994462208000000000000)) = ((-1830724247775727915100227 : ℝ)/31201279994462208000000000000) by norm_num]
      rw [max_eq_left (by norm_num), min_eq_right (by norm_num)]]
    push_neg
    norm_num)]
  rw [show (45:ℕ) = 44 + 1 from rfl]
  rw [sbis]
  rw [show ((((-1830724247775727915100227 : ℝ)/31201279994462208000000000000) : ℝ) + ((158860106149753610349901 : ℝ)/7800319998615552000000000000))/2 = ((-398427941058904491233541 : ℝ)/20800853329641472000000000000) by norm_num]
  rw [if_neg (by
    rw [show clip ((47812500169 : ℝ)/952187499831000000000000) ((589999 : ℝ)/1000000) ((0:ℝ) + ((-398427941058904491233541 : ℝ)/20800853329641472000000000000)) = ((47812500169 : ℝ)/952187499831000000000000) by
      unfold clip
      rw [show ((0:ℝ) + ((-398427941058904491233541 : ℝ)/20800853329641472000000000000)) = ((-398427941058904491233541 : ℝ)/20800853329641472000000000000) by norm_num]
      rw [max_eq_left (by norm_num), min_eq_right (by norm_num)]]
    rw [abs_of_nonpos (by norm_num)]
    norm_num)]
  rw [if_neg (by
    rw [show clip ((47812500169 : ℝ)/952187499831000000000000) ((589999 : ℝ)/1000000) ((0:ℝ) + ((-398427941058904491233541 : ℝ)/20800853329641472000000000000)) = ((47812500169 : ℝ)/952187499831000000000000) by
      unfold clip
      rw [show ((0:ℝ) + ((-398427941058904491233541 : ℝ)/20800853329641472000000000000)) = ((-398427941058904491233541 : ℝ)/20800853329641472000000000000) by norm_num]
      rw [max_eq_left (by norm_num), min_eq_right (by norm_num)]]
    push_neg
    norm_num)]
  rw [show (44:ℕ) = 43 + 1 from rfl]
  rw [sbis]
  rw [show ((((-398427941058904491233541 : ℝ)/20800853329641472000000000000) : ℝ) + ((158860106149753610349901 : ℝ)/7800319998615552000000000000))/2 = ((15119405204263081819717 : ℝ)/24961023995569766400000000000) by norm_num]
  rw [if_neg (by
    rw [show clip ((47812500169 : ℝ)/952187499831000000000000) ((589999 : ℝ)/1000000) ((0:ℝ) + ((15119405204263081819717 : ℝ)/24961023995569766400000000000)) = ((15119405204263081819717 : ℝ)/24961023995569766400000000000) by
      unfold clip
      rw [show ((0:ℝ) + ((15119405204263081819717 : ℝ)/24961023995569766400000000000)) = ((15119405204263081819717 : ℝ)/24961023995569766400000000000) by norm_num]
      rw [max_eq_right (by norm_num), min_eq_right (by norm_num)]]
    rw [abs_of_nonneg (by norm_num)]
    norm_num)]
  rw [if_pos (by
    rw [show clip ((47812500169 : ℝ)/952187499831000000000000) ((589999 : ℝ)/1000000) ((0:ℝ) + ((15119405204263081819717 : ℝ)/24961023995569766400000000000)) = ((15119405204263081819717 : ℝ)/24961023995569766400000000000) by
      unfold clip
      rw [show ((0:ℝ) + ((15119405204263081819717 : ℝ)/24961023995569766400000000000)) = ((15119405204263081819717 : ℝ)/24961023995569766400000000000) by norm_num]
      rw [max_eq_right (by norm_num), min_eq_right (by norm_num)]]
    norm_num)]
  rw [show (43:ℕ) = 42 + 1 from rfl]
  rw [sbis]
  rw [show ((((-398427941058904491233541 : ℝ)/20800853329641472000000000000) : ℝ) + ((15119405204263081819717 : ℝ)/24961023995569766400000000000))/2 = ((-2314970620332111538302661 : ℝ)/249610239955697664000000000000) by norm_num]
  rw [if_neg (by
    rw [show clip ((47812500169 : ℝ)/952187499831000000000000) ((589999 : ℝ)/1000000) ((0:ℝ) + ((-2314970620332111538302661 : ℝ)/249610239955697664000000000000)) = ((47812500169 : ℝ)/952187499831000000000000) by
      unfold clip
      rw [show ((0:ℝ) + ((-2314970620332111538302661 : ℝ)/249610239955697664000000000000)) = ((-2314970620332111538302661 : ℝ)/249610239955697664000000000000) by norm_num]
      rw [max_eq_left (by norm_num), min_eq_right (by norm_num)]]
    rw [abs_of_nonpos (by norm_num)]
    norm_num)]
  rw [if_neg (by
    rw [show clip ((47812500169 : ℝ)/952187499831000000000000) ((589999 : ℝ)/1000000) ((0:ℝ) + ((-2314970620332111538302661 : ℝ)/249610239955697664000000000000)) = ((47812500169 : ℝ)/952187499831000000000000) by
      unfold clip
      rw [show ((0:ℝ) + ((-2314970620332111538302661 : ℝ)/249610239955697664000000000000)) = ((-2314970620332111538302661 : ℝ)/249610239955697664000000000000) by norm_num]
      rw [max_eq_left (by norm_num), min_eq_right (by norm_num)]]
    push_neg
    norm_num)]
  rw [show (42:ℕ) = 41 + 1 from rfl]
  rw [sbis]
  rw [show ((((-2314970620332111538302661 : ℝ)/249610239955697664000000000000) : ℝ) + ((15119405204263081819717 : ℝ)/24961023995569766400000000000))/2 = ((-721258856096493573368497 : ℝ)/166406826637131776000000000000) by norm_num]
  rw [if_neg (by
    rw [show clip ((47812500169 : ℝ)/952187499831000000000000) ((589999 : ℝ)/1000000) ((0:ℝ) + ((-721258856096493573368497 : ℝ)/166406826637131776000000000000)) = ((47812500169 : ℝ)/952187499831000000000000) by
      unfold clip
      rw [show ((0:ℝ) + ((-721258856096493573368497 : ℝ)/166406826637131776000000000000)) = ((-721258856096493573368497 : ℝ)/166406826637131776000000000000) by norm_num]
      rw [max_eq_left (by norm_num), min_eq_right (by norm_num)]]
    rw [abs_of_nonpos (by norm_num)]
    norm_num)]
  rw [if_neg (by
    rw [show clip ((47812500169 : ℝ)/952187499831000000000000) ((589999 : ℝ)/1000000) ((0:ℝ) + ((-721258856096493573368497 : ℝ)/166406826637131776000000000000)) = ((47812500169 : ℝ)/952187499831000000000000) by
      unfold clip
      rw [show ((0:ℝ) + ((-721258856096493573368497 : ℝ)/166406826637131776000000000000)) = ((-721258856096493573368497 : ℝ)/166406826637131776000000000000) by norm_num]
      rw [max_eq_left (by norm_num), min_eq_right (by norm_num)]]
    push_neg
    norm_num)]
  rw [show (41:ℕ) = 40 + 1 from rfl]
  rw [sbis]
  rw [show ((((-721258856096493573368497 : ℝ)/166406826637131776000000000000) : ℝ) + ((15119405204263081819717 : ℝ)/24961023995569766400000000000))/2 = ((-1861388464204219083711151 : ℝ)/998440959822790656000000000000) by norm_num]
  rw [if_neg (by
    rw [show clip ((47812500169 : ℝ)/952187499831000000000000) ((589999 : ℝ)/1000000) ((0:ℝ) + ((-1861388464204219083711151 : ℝ)/998440959822790656000000000000)) = ((47812500169 : ℝ)/952187499831000000000000) by
      unfold clip
      rw [show ((0:ℝ) + ((-1861388464204219083711151 : ℝ)/998440959822790656000000000000)) = ((-1861388464204219083711151 : ℝ)/998440959822790656000000000000) by norm_num]
      rw [max_eq_left (by norm_num), min_eq_right (by norm_num)]]
    rw [abs_of_nonpos (by norm_num)]
    norm_num)]
  rw [if_neg (by
    rw [show clip ((47812500169 : ℝ)/952187499831000000000000) ((589999 : ℝ)/1000000) ((0:ℝ) + ((-1861388464204219083711151 : ℝ)/998440959822790656000000000000)) = ((47812500169 : ℝ)/952187499831000000000000) by
      unfold clip
      rw [show ((0:ℝ) + ((-1861388464204219083711151 : ℝ)/998440959822790656000000000000)) = ((-1861388464204219083711151 : ℝ)/998440959822790656000000000000) by norm_num]
      rw [max_eq_left (by norm_num), min_eq_right (by norm_num)]]
    push_neg
    norm_num)]
  rw [show (40:ℕ) = 39 + 1 from rfl]
  rw [sbis]
  rw [show ((((-1861388464204219083711151 : ℝ)/998440959822790656000000000000) : ℝ) + ((15119405204263081819717 : ℝ)/24961023995569766400000000000))/2 = ((-418870752011231936974157 : ℝ)/665627306548527104000000000000) by norm_num]
  rw [if_neg (by
    rw [show clip ((47812500169 : ℝ)/952187499831000000000000) ((589999 : ℝ)/1000000) ((0:ℝ) + ((-418870752011231936974157 : ℝ)/665627306548527104000000000000)) = ((47812500169 : ℝ)/952187499831000000000000) by
      unfold clip
      rw [show ((0:ℝ) + ((-418870752011231936974157 : ℝ)/665627306548527104000000000000)) = ((-418870752011231936974157 : ℝ)/665627306548527104000000000000) by norm_num]
      rw [max_eq_left (by norm_num), min_eq_right (by norm_num)]]
    rw [abs_of_nonpos (by norm_num)]
    norm_num)]
  rw [if_neg (by
    rw [show clip ((47812500169 : ℝ)/952187499831000000000000) ((589999 : ℝ)/1000000) ((0:ℝ) + ((-418870752011231936974157 : ℝ)/665627306548527104000000000000)) = ((47812500169 : ℝ)/952187499831000000000000) by
      unfold clip
      rw [show ((0:ℝ) + ((-418870752011231936974157 : ℝ)/665627306548527104000000000000)) = ((-418870752011231936974157 : ℝ)/665627306548527104000000000000) by norm_num]
      rw [max_eq_left (by norm_num), min_eq_right (by norm_num)]]
    push_neg
    norm_num)]
  rw [show (39:ℕ) = 38 + 1 from rfl]
  rw [sbis]
  rw [show ((((-418870752011231936974157 : ℝ)/665627306548527104000000000000) : ℝ) + ((15119405204263081819717 : ℝ)/24961023995569766400000000000))/2 = ((-47059839692649265345111 : ℝ)/3993763839291162624000000000000) by norm_num]
  rw [if_neg (by
    rw [show clip ((47812500169 : ℝ)/952187499831000000000000) ((589999 : ℝ)/1000000) ((0:ℝ) + ((-47059839692649265345111 : ℝ)/3993763839291162624000000000000)) = ((47812500169 : ℝ)/952187499831000000000000) by
      unfold clip
      rw [show ((0:ℝ) + ((-47059839692649265345111 : ℝ)/3993763839291162624000000000000)) = ((-47059839692649265345111 : ℝ)/3993763839291162624000000000000) by norm_num]
      rw [max_eq_left (by norm_num), min_eq_right (by norm_num)]]
    rw [abs_of_nonpos (by norm_num)]
    norm_num)]
  rw [if_neg (by
    rw [show clip ((47812500169 : ℝ)/952187499831000000000000) ((589999 : ℝ)/1000000) ((0:ℝ) + ((-47059839692649265345111 : ℝ)/3993763839291162624000000000000)) = ((47812500169 : ℝ)/952187499831000000000000) by
      unfold clip
      rw [show ((0:ℝ) + ((-47059839692649265345111 : ℝ)/3993763839291162624000000000000)) = ((-47059839692649265345111 : ℝ)/3993763839291162624000000000000) by norm_num]
      rw [max_eq_left (by norm_num), min_eq_right (by norm_num)]]
    push_neg
    norm_num)]
  rw [show (38:ℕ) = 37 + 1 from rfl]
  rw [sbis]
  rw [show ((((-47059839692649265345111 : ℝ)/3993763839291162624000000000000) : ℝ) + ((15119405204263081819717 : ℝ)/24961023995569766400000000000))/2 = ((790681664329814608603203 : ℝ)/2662509226194108416000000000000) by norm_num]
  rw [if_neg (by
    rw [show clip ((47812500169 : ℝ)/952187499831000000000000) ((589999 : ℝ)/1000000) ((0:ℝ) + ((790681664329814608603203 : ℝ)/2662509226194108416000000000000)) = ((790681664329814608603203 : ℝ)/2662509226194108416000000000000) by
      unfold clip
      rw [show ((0:ℝ) + ((790681664329814608603203 : ℝ)/2662509226194108416000000000000)) = ((790681664329814608603203 : ℝ)/2662509226194108416000000000000) by norm_num]
      rw [max_eq_right (by norm_num), min_eq_right (by norm_num)]]
    rw [abs_of_nonneg (by norm_num)]
    norm_num)]
  rw [if_pos (by
    rw [show clip ((47812500169 : ℝ)/952187499831000000000000) ((589999 : ℝ)/1000000) ((0:ℝ) + ((790681664329814608603203 : ℝ)/2662509226194108416000000000000)) = ((790681664329814608603203 : ℝ)/2662509226194108416000000000000) by
      unfold clip
      rw [show ((0:ℝ) + ((790681664329814608603203 : ℝ)/2662509226194108416000000000000)) = ((790681664329814608603203 : ℝ)/2662509226194108416000000000000) by norm_num]
      rw [max_eq_right (by norm_num), min_eq_right (by norm_num)]]
    norm_num)]
  rw [show (37:ℕ) = 36 + 1 from rfl]
  rw [sbis]
  rw [show ((((-47059839692649265345111 : ℝ)/3993763839291162624000000000000) : ℝ) + ((790681664329814608603203 : ℝ)/2662509226194108416000000000000))/2 = ((2277925313604145295119387 : ℝ)/15975055357164650496000000000000) by norm_num]
  rw [if_neg (by
    rw [show clip ((47812500169 : ℝ)/952187499831000000000000) ((589999 : ℝ)/1000000) ((0:ℝ) + ((2277925313604145295119387 : ℝ)/15975055357164650496000000000000)) = ((2277925313604145295119387 : ℝ)/15975055357164650496000000000000) by
      unfold clip
      rw [show ((0:ℝ) + ((2277925313604145295119387 : ℝ)/15975055357164650496000000000000)) = ((2277925313604145295119387 : ℝ)/15975055357164650496000000000000) by norm_num]
      rw [max_eq_right (by norm_num), min_eq_right (by norm_num)]]
    rw [abs_of_nonneg (by norm_num)]
    norm_num)]
  rw [if_pos (by
    rw [show clip ((47812500169 : ℝ)/952187499831000000000000) ((589999 : ℝ)/1000000) ((0:ℝ) + ((2277925313604145295119387 : ℝ)/15975055357164650496000000000000)) = ((2277925313604145295119387 : ℝ)/15975055357164650496000000000000) by
      unfold clip
      rw [show ((0:ℝ) + ((2277925313604145295119387 : ℝ)/15975055357164650496000000000000)) = ((2277925313604145295119387 : ℝ)/15975055357164650496000000000000) by norm_num]
      rw [max_eq_right (by norm_num), min_eq_right (by norm_num)]]
    norm_num)]
  rw [show (36:ℕ) = 35 + 1 from rfl]
  rw [sbis]
  rw [show ((((-47059839692649265345111 : ℝ)/3993763839291162624000000000000) : ℝ) + ((2277925313604145295119387 : ℝ)/15975055357164650496000000000000))/2 = ((696561984944516077912981 : ℝ)/10650036904776433664000000000000) by norm_num]
  rw [if_neg (by
    rw [show clip ((47812500169 : ℝ)/952187499831000000000000) ((589999 : ℝ)/1000000) ((0:ℝ) + ((696561984944516077912981 : ℝ)/10650036904776433664000000000000)) = ((696561984944516077912981 : ℝ)/10650036904776433664000000000000) by
      unfold clip
      rw [show ((0:ℝ) + ((696561984944516077912981 : ℝ)/10650036904776433664000000000000)) = ((696561984944516077912981 : ℝ)/10650036904776433664000000000000) by norm_num]
      rw [max_eq_right (by norm_num), min_eq_right (by norm_num)]]
    rw [abs_of_nonneg (by norm_num)]
    norm_num)]
  rw [if_pos (by
    rw [show clip ((47812500169 : ℝ)/952187499831000000000000) ((589999 : ℝ)/1000000) ((0:ℝ) + ((696561984944516077912981 : ℝ)/10650036904776433664000000000000)) = ((696561984944516077912981 : ℝ)/10650036904776433664000000000000) by
      unfold clip
      rw [show ((0:ℝ) + ((696561984944516077912981 : ℝ)/10650036904776433664000000000000)) = ((696561984944516077912981 : ℝ)/10650036904776433664000000000000) by norm_num]
      rw [max_eq_right (by norm_num), min_eq_right (by norm_num)]]
    norm_num)]
  rw [show (35:ℕ) = 34 + 1 from rfl]
  rw [sbis]
  rw [show ((((-47059839692649265345111 : ℝ)/3993763839291162624000000000000) : ℝ) + ((696561984944516077912981 : ℝ)/10650036904776433664000000000000))/2 = ((342641447458470822195611 : ℝ)/12780044285731720396800000000000) by norm_num]
  rw [if_neg (by
    rw [show clip ((47812500169 : ℝ)/952187499831000000000000) ((589999 : ℝ)/1000000) ((0:ℝ) + ((342641447458470822195611 : ℝ)/12780044285731720396800000000000)) = ((342641447458470822195611 : ℝ)/12780044285731720396800000000000) by
      unfold clip
      rw [show ((0:ℝ) + ((342641447458470822195611 : ℝ)/12780044285731720396800000000000)) = ((342641447458470822195611 : ℝ)/12780044285731720396800000000000) by norm_num]
      rw [max_eq_right (by norm_num), min_eq_right (by norm_num)]]
    rw [abs_of_nonneg (by norm_num)]
    norm_num)]
  rw [if_pos (by
    rw [show clip ((47812500169 : ℝ)/952187499831000000000000) ((589999 : ℝ)/1000000) ((0:ℝ) + ((342641447458470822195611 : ℝ)/12780044285731720396800000000000)) = ((342641447458470822195611 : ℝ)/12780044285731720396800000000000) by
      unfold clip
      rw [show ((0:ℝ) + ((342641447458470822195611 : ℝ)/12780044285731720396800000000000)) = ((342641447458470822195611 : ℝ)/12780044285731720396800000000000) by norm_num]
      rw [max_eq_right (by norm_num), min_eq_right (by norm_num)]]
    norm_num)]
  rw [show (34:ℕ) = 33 + 1 from rfl]
  rw [sbis]
  rw [show ((((-47059839692649265345111 : ℝ)/3993763839291162624000000000000) : ℝ) + ((342641447458470822195611 : ℝ)/12780044285731720396800000000000))/2 = ((320083267403321955152093 : ℝ)/42600147619105734656000000000000) by norm_num]
  rw [if_neg (by
    rw [show clip ((47812500169 : ℝ)/952187499831000000000000) ((589999 : ℝ)/1000000) ((0:ℝ) + ((320083267403321955152093 : ℝ)/42600147619105734656000000000000)) = ((320083267403321955152093 : ℝ)/42600147619105734656000000000000) by
      unfold clip
      rw [show ((0:ℝ) + ((320083267403321955152093 : ℝ)/42600147619105734656000000000000)) = ((320083267403321955152093 : ℝ)/42600147619105734656000000000000) by norm_num]
      rw [max_eq_right (by norm_num), min_eq_right (by norm_num)]]
    rw [abs_of_nonneg (by norm_num)]
    norm_num)]
  rw [if_pos (by
    rw [show clip ((47812500169 : ℝ)/952187499831000000000000) ((589999 : ℝ)/1000000) ((0:ℝ) + ((320083267403321955152093 : ℝ)/42600147619105734656000000000000)) = ((320083267403321955152093 : ℝ)/42600147619105734656000000000000) by
      unfold clip
      rw [show ((0:ℝ) + ((320083267403321955152093 : ℝ)/42600147619105734656000000000000)) = ((320083267403321955152093 : ℝ)/42600147619105734656000000000000) by norm_num]
      rw [max_eq_right (by norm_num), min_eq_right (by norm_num)]]
    norm_num)]
  rw [show (33:ℕ) = 32 + 1 from rfl]
  rw [sbis]
  rw [show ((((-47059839692649265345111 : ℝ)/3993763839291162624000000000000) : ℝ) + ((320083267403321955152093 : ℝ)/42600147619105734656000000000000))/2 = ((-545665067954810625587273 : ℝ)/255600885714634407936000000000000) by norm_num]
  rw [if_neg (by
    rw [show clip ((47812500169 : ℝ)/952187499831000000000000) ((589999 : ℝ)/1000000) ((0:ℝ) + ((-545665067954810625587273 : ℝ)/255600885714634407936000000000000)) = ((47812500169 : ℝ)/952187499831000000000000) by
      unfold clip
      rw [show ((0:ℝ) + ((-545665067954810625587273 : ℝ)/255600885714634407936000000000000)) = ((-545665067954810625587273 : ℝ)/255600885714634407936000000000000) by norm_num]
      rw [max_eq_left (by norm_num), min_eq_right (by norm_num)]]
    rw [abs_of_nonpos (by norm_num)]
    norm_num)]
  rw [if_neg (by
    rw [show clip ((47812500169 : ℝ)/952187499831000000000000) ((589999 : ℝ)/1000000) ((0:ℝ) + ((-545665067954810625587273 : ℝ)/255600885714634407936000000000000)) = ((47812500169 : ℝ)/952187499831000000000000) by
      unfold clip
      rw [show ((0:ℝ) + ((-545665067954810625587273 : ℝ)/255600885714634407936000000000000)) = ((-545665067954810625587273 : ℝ)/255600885714634407936000000000000) by norm_num]
      rw [max_eq_left (by norm_num), min_eq_right (by norm_num)]]
    push_neg
    norm_num)]
  rw [show (32:ℕ) = 31 + 1 from rfl]
  rw [sbis]
  rw [show ((((-545665067954810625587273 : ℝ)/255600885714634407936000000000000) : ℝ) + ((320083267403321955152093 : ℝ)/42600147619105734656000000000000))/2 = ((274966907293024221065057 : ℝ)/102240354285853763174400000000000) by norm_num]
  rw [if_neg (by
    rw [show clip ((47812500169 : ℝ)/952187499831000000000000) ((589999 : ℝ)/1000000) ((0:ℝ) + ((274966907293024221065057 : ℝ)/102240354285853763174400000000000)) = ((274966907293024221065057 : ℝ)/102240354285853763174400000000000) by
      unfold clip
      rw [show ((0:ℝ) + ((274966907293024221065057 : ℝ)/102240354285853763174400000000000)) = ((274966907293024221065057 : ℝ)/102240354285853763174400000000000) by norm_num]
      rw [max_eq_right (by norm_num), min_eq_right (by norm_num)]]
    rw [abs_of_nonneg (by norm_num)]
    norm_num)]
  rw [if_pos (by
    rw [show clip ((47812500169 : ℝ)/952187499831000000000000) ((589999 : ℝ)/1000000) ((0:ℝ) + ((274966907293024221065057 : ℝ)/102240354285853763174400000000000)) = ((274966907293024221065057 : ℝ)/102240354285853763174400000000000) by
      unfold clip
      rw [show ((0:ℝ) + ((274966907293024221065057 : ℝ)/102240354285853763174400000000000)) = ((274966907293024221065057 : ℝ)/102240354285853763174400000000000) by norm_num]
      rw [max_eq_right (by norm_num), min_eq_right (by norm_num)]]
    norm_num)]
  rw [show (31:ℕ) = 30 + 1 from rfl]
  rw [sbis]
  rw [show ((((-545665067954810625587273 : ℝ)/255600885714634407936000000000000) : ℝ) + ((274966907293024221065057 : ℝ)/102240354285853763174400000000000))/2 = ((94501466851833284716913 : ℝ)/340801180952845877248000000000000) by norm_num]
  rw [if_neg (by
    rw [show clip ((47812500169 : ℝ)/952187499831000000000000) ((589999 : ℝ)/1000000) ((0:ℝ) + ((94501466851833284716913 : ℝ)/340801180952845877248000000000000)) = ((94501466851833284716913 : ℝ)/340801180952845877248000000000000) by
      unfold clip
      rw [show ((0:ℝ) + ((94501466851833284716913 : ℝ)/340801180952845877248000000000000)) = ((94501466851833284716913 : ℝ)/340801180952845877248000000000000) by norm_num]
      rw [max_eq_right (by norm_num), min_eq_right (by norm_num)]]
    rw [abs_of_nonneg (by norm_num)]
    norm_num)]
  rw [if_pos (by
    rw [show clip ((47812500169 : ℝ)/952187499831000000000000) ((589999 : ℝ)/1000000) ((0:ℝ) + ((94501466851833284716913 : ℝ)/340801180952845877248000000000000)) = ((94501466851833284716913 : ℝ)/340801180952845877248000000000000) by
      unfold clip
      rw [show ((0:ℝ) + ((94501466851833284716913 : ℝ)/340801180952845877248000000000000)) = ((94501466851833284716913 : ℝ)/340801180952845877248000000000000) by norm_num]
      rw [max_eq_right (by norm_num), min_eq_right (by norm_num)]]
    norm_num)]
  rw [show (30:ℕ) = 29 + 1 from rfl]
  rw [sbis]
  rw [show ((((-545665067954810625587273 : ℝ)/255600885714634407936000000000000) : ℝ) + ((94501466851833284716913 : ℝ)/340801180952845877248000000000000))/2 = ((-1899155871263742648198353 : ℝ)/2044807085717075263488000000000000) by norm_num]
  rw [if_neg (by
    rw [show clip ((47812500169 : ℝ)/952187499831000000000000) ((589999 : ℝ)/1000000) ((0:ℝ) + ((-1899155871263742648198353 : ℝ)/2044807085717075263488000000000000)) = ((47812500169 : ℝ)/952187499831000000000000) by
      unfold clip
      rw [show ((0:ℝ) + ((-1899155871263742648198353 : ℝ)/2044807085717075263488000000000000)) = ((-1899155871263742648198353 : ℝ)/2044807085717075263488000000000000) by norm_num]
      rw [max_eq_left (by norm_num), min_eq_right (by norm_num)]]
    rw [abs_of_nonpos (by norm_num)]
    norm_num)]
  rw [if_neg (by
    rw [show clip ((47812500169 : ℝ)/952187499831000000000000) ((589999 : ℝ)/1000000) ((0:ℝ) + ((-1899155871263742648198353 : ℝ)/2044807085717075263488000000000000)) = ((47812500169 : ℝ)/952187499831000000000000) by
      unfold clip
      rw [show ((0:ℝ) + ((-1899155871263742648198353 : ℝ)/2044807085717075263488000000000000)) = ((-1899155871263742648198353 : ℝ)/2044807085717075263488000000000000) by norm_num]
      rw [max_eq_left (by norm_num), min_eq_right (by norm_num)]]
    push_neg
    norm_num)]
  rw [show (29:ℕ) = 28 + 1 from rfl]
  rw [sbis]
  rw [show ((((-1899155871263742648198353 : ℝ)/2044807085717075263488000000000000) : ℝ) + ((94501466851833284716913 : ℝ)/340801180952845877248000000000000))/2 = ((-426287062448877740767 : ℝ)/1308676534858928168632320000000) by norm_num]
  rw [if_neg (by
    rw [show clip ((47812500169 : ℝ)/952187499831000000000000) ((589999 : ℝ)/1000000) ((0:ℝ) + ((-426287062448877740767 : ℝ)/1308676534858928168632320000000)) = ((47812500169 : ℝ)/952187499831000000000000) by
      unfold clip
      rw [show ((0:ℝ) + ((-426287062448877740767 : ℝ)/1308676534858928168632320000000)) = ((-426287062448877740767 : ℝ)/1308676534858928168632320000000) by norm_num]
      rw [max_eq_left (by norm_num), min_eq_right (by norm_num)]]
    rw [abs_of_nonpos (by norm_num)]
    norm_num)]
  rw [if_neg (by
    rw [show clip ((47812500169 : ℝ)/952187499831000000000000) ((589999 : ℝ)/1000000) ((0:ℝ) + ((-426287062448877740767 : ℝ)/1308676534858928168632320000000)) = ((47812500169 : ℝ)/952187499831000000000000) by
      unfold clip
      rw [show ((0:ℝ) + ((-426287062448877740767 : ℝ)/1308676534858928168632320000000)) = ((-426287062448877740767 : ℝ)/1308676534858928168632320000000) by norm_num]
      rw [max_eq_left (by norm_num), min_eq_right (by norm_num)]]
    push_neg
    norm_num)]
  rw [show (28:ℕ) = 27 + 1 from rfl]
  rw [sbis]
  rw [show ((((-426287062448877740767 : ℝ)/1308676534858928168632320000000) : ℝ) + ((94501466851833284716913 : ℝ)/340801180952845877248000000000000))/2 = ((-198129467930743523293919 : ℝ)/8179228342868301053952000000000000) by norm_num]
  rw [if_neg (by
    rw [show clip ((47812500169 : ℝ)/952187499831000000000000) ((589999 : ℝ)/1000000) ((0:ℝ) + ((-198129467930743523293919 : ℝ)/8179228342868301053952000000000000)) = ((47812500169 : ℝ)/952187499831000000000000) by
      unfold clip
      rw [show ((0:ℝ) + ((-198129467930743523293919 : ℝ)/8179228342868301053952000000000000)) = ((-198129467930743523293919 : ℝ)/8179228342868301053952000000000000) by norm_num]
      rw [max_eq_left (by norm_num), min_eq_right (by norm_num)]]
    rw [abs_of_nonpos (by norm_num)]
    norm_num)]
  rw [if_neg (by
    rw [show clip ((47812500169 : ℝ)/952187499831000000000000) ((589999 : ℝ)/1000000) ((0:ℝ) + ((-198129467930743523293919 : ℝ)/8179228342868301053952000000000000)) = ((47812500169 : ℝ)/952187499831000000000000) by
      unfold clip
      rw [show ((0:ℝ) + ((-198129467930743523293919 : ℝ)/8179228342868301053952000000000000)) = ((-198129467930743523293919 : ℝ)/8179228342868301053952000000000000) by norm_num]
      rw [max_eq_left (by norm_num), min_eq_right (by norm_num)]]
    push_neg
    norm_num)]
  rw [show (27:ℕ) = 26 + 1 from rfl]
  rw [sbis]
  rw [show ((((-198129467930743523293919 : ℝ)/8179228342868301053952000000000000) : ℝ) + ((94501466851833284716913 : ℝ)/340801180952845877248000000000000))/2 = ((2069905736513255309911993 : ℝ)/16358456685736602107904000000000000) by norm_num]
  rw [if_neg (by
    rw [show clip ((47812500169 : ℝ)/952187499831000000000000) ((589999 : ℝ)/1000000) ((0:ℝ) + ((2069905736513255309911993 : ℝ)/16358456685736602107904000000000000)) = ((2069905736513255309911993 : ℝ)/16358456685736602107904000000000000) by
      unfold clip
      rw [show ((0:ℝ) + ((2069905736513255309911993 : ℝ)/16358456685736602107904000000000000)) = ((2069905736513255309911993 : ℝ)/16358456685736602107904000000000000) by norm_num]
      rw [max_eq_right (by norm_num), min_eq_right (by norm_num)]]
    rw [abs_of_nonneg (by norm_num)]
    norm_num)]
  rw [if_pos (by
    rw [show clip ((47812500169 : ℝ)/952187499831000000000000) ((589999 : ℝ)/1000000) ((0:ℝ) + ((2069905736513255309911993 : ℝ)/16358456685736602107904000000000000)) = ((2069905736513255309911993 : ℝ)/16358456685736602107904000000000000) by
      unfold clip
      rw [show ((0:ℝ) + ((2069905736513255309911993 : ℝ)/16358456685736602107904000000000000)) = ((2069905736513255309911993 : ℝ)/16358456685736602107904000000000000) by norm_num]
      rw [max_eq_right (by norm_num), min_eq_right (by norm_num)]]
    norm_num)]
  rw [show (26:ℕ) = 25 + 1 from rfl]
  rw [sbis]
  rw [show ((((-198129467930743523293919 : ℝ)/8179228342868301053952000000000000) : ℝ) + ((2069905736513255309911993 : ℝ)/16358456685736602107904000000000000))/2 = ((111576453376784550888277 : ℝ)/2181127558098213614387200000000000) by norm_num]
  rw [if_neg (by
    rw [show clip ((47812500169 : ℝ)/952187499831000000000000) ((589999 : ℝ)/1000000) ((0:ℝ) + ((111576453376784550888277 : ℝ)/2181127558098213614387200000000000)) = ((111576453376784550888277 : ℝ)/2181127558098213614387200000000000) by
      unfold clip
      rw [show ((0:ℝ) + ((111576453376784550888277 : ℝ)/2181127558098213614387200000000000)) = ((111576453376784550888277 : ℝ)/2181127558098213614387200000000000) by norm_num]
      rw [max_eq_right (by norm_num), min_eq_right (by norm_num)]]
    rw [abs_of_nonneg (by norm_num)]
    norm_num)]
  rw [if_pos (by
    rw [show clip ((47812500169 : ℝ)/952187499831000000000000) ((589999 : ℝ)/1000000) ((0:ℝ) + ((111576453376784550888277 : ℝ)/2181127558098213614387200000000000)) = ((111576453376784550888277 : ℝ)/2181127558098213614387200000000000) by
      unfold clip
      rw [show ((0:ℝ) + ((111576453376784550888277 : ℝ)/2181127558098213614387200000000000)) = ((111576453376784550888277 : ℝ)/2181127558098213614387200000000000) by norm_num]
      rw [max_eq_right (by norm_num), min_eq_right (by norm_num)]]
    norm_num)]
  rw [show (25:ℕ) = 24 + 1 from rfl]
  rw [sbis]
  rw [show ((((-198129467930743523293919 : ℝ)/8179228342868301053952000000000000) : ℝ) + ((111576453376784550888277 : ℝ)/2181127558098213614387200000000000))/2 = ((881128928928794170148479 : ℝ)/65433826742946408431616000000000000) by norm_num]
  rw [if_neg (by
    rw [show clip ((47812500169 : ℝ)/952187499831000000000000) ((589999 : ℝ)/1000000) ((0:ℝ) + ((881128928928794170148479 : ℝ)/65433826742946408431616000000000000)) = ((881128928928794170148479 : ℝ)/65433826742946408431616000000000000) by
      unfold clip
      rw [show ((0:ℝ) + ((881128928928794170148479 : ℝ)/65433826742946408431616000000000000)) = ((881128928928794170148479 : ℝ)/65433826742946408431616000000000000) by norm_num]
      rw [max_eq_right (by norm_num), min_eq_right (by norm_num)]]
    rw [abs_of_nonneg (by norm_num)]
    norm_num)]
  rw [if_pos (by
    rw [show clip ((47812500169 : ℝ)/952187499831000000000000) ((589999 : ℝ)/1000000) ((0:ℝ) + ((881128928928794170148479 : ℝ)/65433826742946408431616000000000000)) = ((881128928928794170148479 : ℝ)/65433826742946408431616000000000000) by
      unfold clip
      rw [show ((0:ℝ) + ((881128928928794170148479 : ℝ)/65433826742946408431616000000000000)) = ((881128928928794170148479 : ℝ)/65433826742946408431616000000000000) by norm_num]
      rw [max_eq_right (by norm_num), min_eq_right (by norm_num)]]
    norm_num)]
  rw [show (24:ℕ) = 23 + 1 from rfl]
  rw [sbis]
  rw [show ((((-198129467930743523293919 : ℝ)/8179228342868301053952000000000000) : ℝ) + ((881128928928794170148479 : ℝ)/65433826742946408431616000000000000))/2 = ((-234635604839051338734291 : ℝ)/43622551161964272287744000000000000) by norm_num]
  rw [if_neg (by
    rw [show clip ((47812500169 : ℝ)/952187499831000000000000) ((589999 : ℝ)/1000000) ((0:ℝ) + ((-234635604839051338734291 : ℝ)/43622551161964272287744000000000000)) = ((47812500169 : ℝ)/952187499831000000000000) by
      unfold clip
      rw [show ((0:ℝ) + ((-234635604839051338734291 : ℝ)/43622551161964272287744000000000000)) = ((-234635604839051338734291 : ℝ)/43622551161964272287744000000000000) by norm_num]
      rw [max_eq_left (by norm_num), min_eq_right (by norm_num)]]
    rw [abs_of_nonpos (by norm_num)]
    norm_num)]
  rw [if_neg (by
    rw [show clip ((47812500169 : ℝ)/952187499831000000000000) ((589999 : ℝ)/1000000) ((0:ℝ) + ((-234635604839051338734291 : ℝ)/43622551161964272287744000000000000)) = ((47812500169 : ℝ)/952187499831000000000000) by
      unfold clip
      rw [show ((0:ℝ) + ((-234635604839051338734291 : ℝ)/43622551161964272287744000000000000)) = ((-234635604839051338734291 : ℝ)/43622551161964272287744000000000000) by norm_num]
      rw [max_eq_left (by norm_num), min_eq_right (by norm_num)]]
    push_neg
    norm_num)]
  rw [show (23:ℕ) = 22 + 1 from rfl]
  rw [sbis]
  rw [show ((((-234635604839051338734291 : ℝ)/43622551161964272287744000000000000) : ℝ) + ((881128928928794170148479 : ℝ)/65433826742946408431616000000000000))/2 = ((6828071247357640800607 : ℝ)/1688614883688939572428800000000000) by norm_num]
  rw [if_neg (by
    rw [show clip ((47812500169 : ℝ)/952187499831000000000000) ((589999 : ℝ)/1000000) ((0:ℝ) + ((6828071247357640800607 : ℝ)/1688614883688939572428800000000000)) = ((6828071247357640800607 : ℝ)/1688614883688939572428800000000000) by
      unfold clip
      rw [show ((0:ℝ) + ((6828071247357640800607 : ℝ)/1688614883688939572428800000000000)) = ((6828071247357640800607 : ℝ)/1688614883688939572428800000000000) by norm_num]
      rw [max_eq_right (by norm_num), min_eq_right (by norm_num)]]
    rw [abs_of_nonneg (by norm_num)]
    norm_num)]
  rw [if_pos (by
    rw [show clip ((47812500169 : ℝ)/952187499831000000000000) ((589999 : ℝ)/1000000) ((0:ℝ) + ((6828071247357640800607 : ℝ)/1688614883688939572428800000000000)) = ((6828071247357640800607 : ℝ)/1688614883688939572428800000000000) by
      unfold clip
      rw [show ((0:ℝ) + ((6828071247357640800607 : ℝ)/1688614883688939572428800000000000)) = ((6828071247357640800607 : ℝ)/1688614883688939572428800000000000) by norm_num]
      rw [max_eq_right (by norm_num), min_eq_right (by norm_num)]]
    norm_num)]
  rw [show (22:ℕ) = 21 + 1 from rfl]
  rw [sbis]
  rw [show ((((-234635604839051338734291 : ℝ)/43622551161964272287744000000000000) : ℝ) + ((6828071247357640800607 : ℝ)/1688614883688939572428800000000000))/2 = ((-349462585693873708311661 : ℝ)/523470613943571267452928000000000000) by norm_num]
  rw [if_neg (by
    rw [show clip ((47812500169 : ℝ)/952187499831000000000000) ((589999 : ℝ)/1000000) ((0:ℝ) + ((-349462585693873708311661 : ℝ)/523470613943571267452928000000000000)) = ((47812500169 : ℝ)/952187499831000000000000) by
      unfold clip
      rw [show ((0:ℝ) + ((-349462585693873708311661 : ℝ)/523470613943571267452928000000000000)) = ((-349462585693873708311661 : ℝ)/523470613943571267452928000000000000) by norm_num]
      rw [max_eq_left (by norm_num), min_eq_right (by norm_num)]]
    rw [abs_of_nonpos (by norm_num)]
    norm_num)]
  rw [if_neg (by
    rw [show clip ((47812500169 : ℝ)/952187499831000000000000) ((589999 : ℝ)/1000000) ((0:ℝ) + ((-349462585693873708311661 : ℝ)/523470613943571267452928000000000000)) = ((47812500169 : ℝ)/952187499831000000000000) by
      unfold clip
      rw [show ((0:ℝ) + ((-349462585693873708311661 : ℝ)/523470613943571267452928000000000000)) = ((-349462585693873708311661 : ℝ)/523470613943571267452928000000000000) by norm_num]
      rw [max_eq_left (by norm_num), min_eq_right (by norm_num)]]
    push_neg
    norm_num)]
  rw [show (21:ℕ) = 20 + 1 from rfl]
  rw [sbis]
  rw [show ((((-349462585693873708311661 : ℝ)/523470613943571267452928000000000000) : ℝ) + ((6828071247357640800607 : ℝ)/1688614883688939572428800000000000))/2 = ((589079833662331646625503 : ℝ)/348980409295714178301952000000000000) by norm_num]
  rw [if_neg (by
    rw [show clip ((47812500169 : ℝ)/952187499831000000000000) ((589999 : ℝ)/1000000) ((0:ℝ) + ((589079833662331646625503 : ℝ)/348980409295714178301952000000000000)) = ((589079833662331646625503 : ℝ)/348980409295714178301952000000000000) by
      unfold clip
      rw [show ((0:ℝ) + ((589079833662331646625503 : ℝ)/348980409295714178301952000000000000)) = ((589079833662331646625503 : ℝ)/348980409295714178301952000000000000) by norm_num]
      rw [max_eq_right (by norm_num), min_eq_right (by norm_num)]]
    rw [abs_of_nonneg (by norm_num)]
    norm_num)]
  rw [if_pos (by
    rw [show clip ((47812500169 : ℝ)/952187499831000000000000) ((589999 : ℝ)/1000000) ((0:ℝ) + ((589079833662331646625503 : ℝ)/348980409295714178301952000000000000)) = ((589079833662331646625503 : ℝ)/348980409295714178301952000000000000) by
      unfold clip
      rw [show ((0:ℝ) + ((589079833662331646625503 : ℝ)/348980409295714178301952000000000000)) = ((589079833662331646625503 : ℝ)/348980409295714178301952000000000000) by norm_num]
      rw [max_eq_right (by norm_num), min_eq_right (by norm_num)]]
    norm_num)]
  rw [show (20:ℕ) = 19 + 1 from rfl]
  rw [sbis]
  rw [show ((((-349462585693873708311661 : ℝ)/523470613943571267452928000000000000) : ℝ) + ((589079833662331646625503 : ℝ)/348980409295714178301952000000000000))/2 = ((1068314329599247523253187 : ℝ)/2093882455774285069811712000000000000) by norm_num]
  rw [if_neg (by
    rw [show clip ((47812500169 : ℝ)/952187499831000000000000) ((589999 : ℝ)/1000000) ((0:ℝ) + ((1068314329599247523253187 : ℝ)/2093882455774285069811712000000000000)) = ((1068314329599247523253187 : ℝ)/2093882455774285069811712000000000000) by
      unfold clip
      rw [show ((0:ℝ) + ((1068314329599247523253187 : ℝ)/2093882455774285069811712000000000000)) = ((1068314329599247523253187 : ℝ)/2093882455774285069811712000000000000) by norm_num]
      rw [max_eq_right (by norm_num), min_eq_right (by norm_num)]]
    rw [abs_of_nonpos (by norm_num)]
    norm_num)]
  rw [if_neg (by
    rw [show clip ((47812500169 : ℝ)/952187499831000000000000) ((589999 : ℝ)/1000000) ((0:ℝ) + ((1068314329599247523253187 : ℝ)/2093882455774285069811712000000000000)) = ((1068314329599247523253187 : ℝ)/2093882455774285069811712000000000000) by
      unfold clip
      rw [show ((0:ℝ) + ((1068314329599247523253187 : ℝ)/2093882455774285069811712000000000000)) = ((1068314329599247523253187 : ℝ)/2093882455774285069811712000000000000) by norm_num]
      rw [max_eq_right (by norm_num), min_eq_right (by norm_num)]]
    push_neg
    norm_num)]
  rw [show (19:ℕ) = 18 + 1 from rfl]
  rw [sbis]
  rw [show ((((1068314329599247523253187 : ℝ)/2093882455774285069811712000000000000) : ℝ) + ((589079833662331646625503 : ℝ)/348980409295714178301952000000000000))/2 = ((920558666314647480601241 : ℝ)/837552982309714027924684800000000000) by norm_num]
  rw [if_neg (by
    rw [show clip ((47812500169 : ℝ)/952187499831000000000000) ((589999 : ℝ)/1000000) ((0:ℝ) + ((920558666314647480601241 : ℝ)/837552982309714027924684800000000000)) = ((920558666314647480601241 : ℝ)/837552982309714027924684800000000000) by
      unfold clip
      rw [show ((0:ℝ) + ((920558666314647480601241 : ℝ)/837552982309714027924684800000000000)) = ((920558666314647480601241 : ℝ)/837552982309714027924684800000000000) by norm_num]
      rw [max_eq_right (by norm_num), min_eq_right (by norm_num)]]
    rw [abs_of_nonneg (by norm_num)]
    norm_num)]
  rw [if_pos (by
    rw [show clip ((47812500169 : ℝ)/952187499831000000000000) ((589999 : ℝ)/1000000) ((0:ℝ) + ((920558666314647480601241 : ℝ)/837552982309714027924684800000000000)) = ((920558666314647480601241 : ℝ)/837552982309714027924684800000000000) by
      unfold clip
      rw [show ((0:ℝ) + ((920558666314647480601241 : ℝ)/837552982309714027924684800000000000)) = ((920558666314647480601241 : ℝ)/837552982309714027924684800000000000) by norm_num]
      rw [max_eq_right (by norm_num), min_eq_right (by norm_num)]]
    norm_num)]
  rw [show (18:ℕ) = 17 + 1 from rfl]
  rw [sbis]
  rw [show ((((1068314329599247523253187 : ℝ)/2093882455774285069811712000000000000) : ℝ) + ((920558666314647480601241 : ℝ)/837552982309714027924684800000000000))/2 = ((2246473996923910816504193 : ℝ)/2791843274365713426415616000000000000) by norm_num]
  rw [if_neg (by
    rw [show clip ((47812500169 : ℝ)/952187499831000000000000) ((589999 : ℝ)/1000000) ((0:ℝ) + ((2246473996923910816504193 : ℝ)/2791843274365713426415616000000000000)) = ((2246473996923910816504193 : ℝ)/2791843274365713426415616000000000000) by
      unfold clip
      rw [show ((0:ℝ) + ((2246473996923910816504193 : ℝ)/2791843274365713426415616000000000000)) = ((2246473996923910816504193 : ℝ)/2791843274365713426415616000000000000) by norm_num]
      rw [max_eq_right (by norm_num), min_eq_right (by norm_num)]]
    rw [abs_of_nonpos (by norm_num)]
    norm_num)]
  rw [if_neg (by
    rw [show clip ((47812500169 : ℝ)/952187499831000000000000) ((589999 : ℝ)/1000000) ((0:ℝ) + ((2246473996923910816504193 : ℝ)/2791843274365713426415616000000000000)) = ((2246473996923910816504193 : ℝ)/2791843274365713426415616000000000000) by
      unfold clip
      rw [show ((0:ℝ) + ((2246473996923910816504193 : ℝ)/2791843274365713426415616000000000000)) = ((2246473996923910816504193 : ℝ)/2791843274365713426415616000000000000) by norm_num]
      rw [max_eq_right (by norm_num), min_eq_right (by norm_num)]]
    push_neg
    norm_num)]
  rw [show (17:ℕ) = 16 + 1 from rfl]
  rw [sbis]
  rw [show ((((2246473996923910816504193 : ℝ)/2791843274365713426415616000000000000) : ℝ) + ((920558666314647480601241 : ℝ)/837552982309714027924684800000000000))/2 = ((15945008653918207255524989 : ℝ)/16751059646194280558493696000000000000) by norm_num]
  rw [if_neg (by
    rw [show clip ((47812500169 : ℝ)/952187499831000000000000) ((589999 : ℝ)/1000000) ((0:ℝ) + ((15945008653918207255524989 : ℝ)/16751059646194280558493696000000000000)) = ((15945008653918207255524989 : ℝ)/16751059646194280558493696000000000000) by
      unfold clip
      rw [show ((0:ℝ) + ((15945008653918207255524989 : ℝ)/16751059646194280558493696000000000000)) = ((15945008653918207255524989 : ℝ)/16751059646194280558493696000000000000) by norm_num]
      rw [max_eq_right (by norm_num), min_eq_right (by norm_num)]]
    rw [abs_of_nonpos (by norm_num)]
    norm_num)]
  rw [if_neg (by
    rw [show clip ((47812500169 : ℝ)/952187499831000000000000) ((589999 : ℝ)/1000000) ((0:ℝ) + ((15945008653918207255524989 : ℝ)/16751059646194280558493696000000000000)) = ((15945008653918207255524989 : ℝ)/16751059646194280558493696000000000000) by
      unfold clip
      rw [show ((0:ℝ) + ((15945008653918207255524989 : ℝ)/16751059646194280558493696000000000000)) = ((15945008653918207255524989 : ℝ)/16751059646194280558493696000000000000) by norm_num]
      rw [max_eq_right (by norm_num), min_eq_right (by norm_num)]]
    push_neg
    norm_num)]
  rw [show (16:ℕ) = 15 + 1 from rfl]
  rw [sbis]
  rw [show ((((15945008653918207255524989 : ℝ)/16751059646194280558493696000000000000) : ℝ) + ((920558666314647480601241 : ℝ)/837552982309714027924684800000000000))/2 = ((11452060660070385622516603 : ℝ)/11167373097462853705662464000000000000) by norm_num]
  rw [if_neg (by
    rw [show clip ((47812500169 : ℝ)/952187499831000000000000) ((589999 : ℝ)/1000000) ((0:ℝ) + ((11452060660070385622516603 : ℝ)/11167373097462853705662464000000000000)) = ((11452060660070385622516603 : ℝ)/11167373097462853705662464000000000000) by
      unfold clip
      rw [show ((0:ℝ) + ((11452060660070385622516603 : ℝ)/11167373097462853705662464000000000000)) = ((11452060660070385622516603 : ℝ)/11167373097462853705662464000000000000) by norm_num]
      rw [max_eq_right (by norm_num), min_eq_right (by norm_num)]]
    rw [abs_of_nonpos (by norm_num)]
    norm_num)]
  rw [if_neg (by
    rw [show clip ((47812500169 : ℝ)/952187499831000000000000) ((589999 : ℝ)/1000000) ((0:ℝ) + ((11452060660070385622516603 : ℝ)/11167373097462853705662464000000000000)) = ((11452060660070385622516603 : ℝ)/11167373097462853705662464000000000000) by
      unfold clip
      rw [show ((0:ℝ) + ((11452060660070385622516603 : ℝ)/11167373097462853705662464000000000000)) = ((11452060660070385622516603 : ℝ)/11167373097462853705662464000000000000) by norm_num]
      rw [max_eq_right (by norm_num), min_eq_right (by norm_num)]]
    push_neg
    norm_num)]
  rw [show (15:ℕ) = 14 + 1 from rfl]
  rw [sbis]
  rw [show ((((11452060660070385622516603 : ℝ)/11167373097462853705662464000000000000) : ℝ) + ((920558666314647480601241 : ℝ)/837552982309714027924684800000000000))/2 = ((71178528632797056091599449 : ℝ)/67004238584777122233974784000000000000) by norm_num]
  rw [if_neg (by
    rw [show clip ((47812500169 : ℝ)/952187499831000000000000) ((589999 : ℝ)/1000000) ((0:ℝ) + ((71178528632797056091599449 : ℝ)/67004238584777122233974784000000000000)) = ((71178528632797056091599449 : ℝ)/67004238584777122233974784000000000000) by
      unfold clip
      rw [show ((0:ℝ) + ((71178528632797056091599449 : ℝ)/67004238584777122233974784000000000000)) = ((71178528632797056091599449 : ℝ)/67004238584777122233974784000000000000) by norm_num]
      rw [max_eq_right (by norm_num), min_eq_right (by norm_num)]]
    rw [abs_of_nonneg (by norm_num)]
    norm_num)]
  rw [if_pos (by
    rw [show clip ((47812500169 : ℝ)/952187499831000000000000) ((589999 : ℝ)/1000000) ((0:ℝ) + ((71178528632797056091599449 : ℝ)/67004238584777122233974784000000000000)) = ((71178528632797056091599449 : ℝ)/67004238584777122233974784000000000000) by
      unfold clip
      rw [show ((0:ℝ) + ((71178528632797056091599449 : ℝ)/67004238584777122233974784000000000000)) = ((71178528632797056091599449 : ℝ)/67004238584777122233974784000000000000) by norm_num]
      rw [max_eq_right (by norm_num), min_eq_right (by norm_num)]]
    norm_num)]
  rw [show (14:ℕ) = 13 + 1 from rfl]
  rw [sbis]
  rw [show ((((11452060660070385622516603 : ℝ)/11167373097462853705662464000000000000) : ℝ) + ((71178528632797056091599449 : ℝ)/67004238584777122233974784000000000000))/2 = ((139890892593219369826699067 : ℝ)/134008477169554244467949568000000000000) by norm_num]
  rw [if_neg (by
    rw [show clip ((47812500169 : ℝ)/952187499831000000000000) ((589999 : ℝ)/1000000) ((0:ℝ) + ((139890892593219369826699067 : ℝ)/134008477169554244467949568000000000000)) = ((139890892593219369826699067 : ℝ)/134008477169554244467949568000000000000) by
      unfold clip
      rw [show ((0:ℝ) + ((139890892593219369826699067 : ℝ)/134008477169554244467949568000000000000)) = ((139890892593219369826699067 : ℝ)/134008477169554244467949568000000000000) by norm_num]
      rw [max_eq_right (by norm_num), min_eq_right (by norm_num)]]
    rw [abs_of_nonpos (by norm_num)]
    norm_num)]
  rw [if_neg (by
    rw [show clip ((47812500169 : ℝ)/952187499831000000000000) ((589999 : ℝ)/1000000) ((0:ℝ) + ((139890892593219369826699067 : ℝ)/134008477169554244467949568000000000000)) = ((139890892593219369826699067 : ℝ)/134008477169554244467949568000000000000) by
      unfold clip
      rw [show ((0:ℝ) + ((139890892593219369826699067 : ℝ)/134008477169554244467949568000000000000)) = ((139890892593219369826699067 : ℝ)/134008477169554244467949568000000000000) by norm_num]
      rw [max_eq_right (by norm_num), min_eq_right (by norm_num)]]
    push_neg
    norm_num)]
  rw [show (13:ℕ) = 12 + 1 from rfl]
  rw [sbis]
  rw [show ((((139890892593219369826699067 : ℝ)/134008477169554244467949568000000000000) : ℝ) + ((71178528632797056091599449 : ℝ)/67004238584777122233974784000000000000))/2 = ((18816529990587565467326531 : ℝ)/17867796955940565929059942400000000000) by norm_num]
  rw [if_neg (by
    rw [show clip ((47812500169 : ℝ)/952187499831000000000000) ((589999 : ℝ)/1000000) ((0:ℝ) + ((18816529990587565467326531 : ℝ)/17867796955940565929059942400000000000)) = ((18816529990587565467326531 : ℝ)/17867796955940565929059942400000000000) by
      unfold clip
      rw [show ((0:ℝ) + ((18816529990587565467326531 : ℝ)/17867796955940565929059942400000000000)) = ((18816529990587565467326531 : ℝ)/17867796955940565929059942400000000000) by norm_num]
      rw [max_eq_right (by norm_num), min_eq_right (by norm_num)]]
    rw [abs_of_nonneg (by norm_num)]
    norm_num)]
  rw [if_pos (by
    rw [show clip ((47812500169 : ℝ)/952187499831000000000000) ((589999 : ℝ)/1000000) ((0:ℝ) + ((18816529990587565467326531 : ℝ)/17867796955940565929059942400000000000)) = ((18816529990587565467326531 : ℝ)/17867796955940565929059942400000000000) by
      unfold clip
      rw [show ((0:ℝ) + ((18816529990587565467326531 : ℝ)/17867796955940565929059942400000000000)) = ((18816529990587565467326531 : ℝ)/17867796955940565929059942400000000000) by norm_num]
      rw [max_eq_right (by norm_num), min_eq_right (by norm_num)]]
    norm_num)]
  rw [show (12:ℕ) = 11 + 1 from rfl]
  rw [sbis]
  rw [show ((((139890892593219369826699067 : ℝ)/134008477169554244467949568000000000000) : ℝ) + ((18816529990587565467326531 : ℝ)/17867796955940565929059942400000000000))/2 = ((18129991453072652311719229 : ℝ)/17291416408974741221670912000000000000) by norm_num]
  rw [if_neg (by
    rw [show clip ((47812500169 : ℝ)/952187499831000000000000) ((589999 : ℝ)/1000000) ((0:ℝ) + ((18129991453072652311719229 : ℝ)/17291416408974741221670912000000000000)) = ((18129991453072652311719229 : ℝ)/17291416408974741221670912000000000000) by
      unfold clip
      rw [show ((0:ℝ) + ((18129991453072652311719229 : ℝ)/17291416408974741221670912000000000000)) = ((18129991453072652311719229 : ℝ)/17291416408974741221670912000000000000) by norm_num]
      rw [max_eq_right (by norm_num), min_eq_right (by norm_num)]]
    rw [abs_of_nonpos (by norm_num)]
    norm_num)]
  rw [if_neg (by
    rw [show clip ((47812500169 : ℝ)/952187499831000000000000) ((589999 : ℝ)/1000000) ((0:ℝ) + ((18129991453072652311719229 : ℝ)/17291416408974741221670912000000000000)) = ((18129991453072652311719229 : ℝ)/17291416408974741221670912000000000000) by
      unfold clip
      rw [show ((0:ℝ) + ((18129991453072652311719229 : ℝ)/17291416408974741221670912000000000000)) = ((18129991453072652311719229 : ℝ)/17291416408974741221670912000000000000) by norm_num]
      rw [max_eq_right (by norm_num), min_eq_right (by norm_num)]]
    push_neg
    norm_num)]
  rw [show (11:ℕ) = 10 + 1 from rfl]
  rw [sbis]
  rw [show ((((18129991453072652311719229 : ℝ)/17291416408974741221670912000000000000) : ℝ) + ((18816529990587565467326531 : ℝ)/17867796955940565929059942400000000000))/2 = ((1126525634762879185683092029 : ℝ)/1072067817356433955743596544000000000000) by norm_num]
  rw [if_neg (by
    rw [show clip ((47812500169 : ℝ)/952187499831000000000000) ((589999 : ℝ)/1000000) ((0:ℝ) + ((1126525634762879185683092029 : ℝ)/1072067817356433955743596544000000000000)) = ((1126525634762879185683092029 : ℝ)/1072067817356433955743596544000000000000) by
      unfold clip
      rw [show ((0:ℝ) + ((1126525634762879185683092029 : ℝ)/1072067817356433955743596544000000000000)) = ((1126525634762879185683092029 : ℝ)/1072067817356433955743596544000000000000) by norm_num]
      rw [max_eq_right (by norm_num), min_eq_right (by norm_num)]]
    rw [abs_of_nonneg (by norm_num)]
    norm_num)]
  rw [if_pos (by
    rw [show clip ((47812500169 : ℝ)/952187499831000000000000) ((589999 : ℝ)/1000000) ((0:ℝ) + ((1126525634762879185683092029 : ℝ)/1072067817356433955743596544000000000000)) = ((1126525634762879185683092029 : ℝ)/1072067817356433955743596544000000000000) by
      unfold clip
      rw [show ((0:ℝ) + ((1126525634762879185683092029 : ℝ)/1072067817356433955743596544000000000000)) = ((1126525634762879185683092029 : ℝ)/1072067817356433955743596544000000000000) by norm_num]
      rw [max_eq_right (by norm_num), min_eq_right (by norm_num)]]
    norm_num)]
  rw [show (10:ℕ) = 9 + 1 from rfl]
  rw [sbis]
  rw [show ((((18129991453072652311719229 : ℝ)/17291416408974741221670912000000000000) : ℝ) + ((1126525634762879185683092029 : ℝ)/1072067817356433955743596544000000000000))/2 = ((750195034951127876336561409 : ℝ)/714711878237622637162397696000000000000) by norm_num]
  rw [if_neg (by
    rw [show clip ((47812500169 : ℝ)/952187499831000000000000) ((589999 : ℝ)/1000000) ((0:ℝ) + ((750195034951127876336561409 : ℝ)/714711878237622637162397696000000000000)) = ((750195034951127876336561409 : ℝ)/714711878237622637162397696000000000000) by
      unfold clip
      rw [show ((0:ℝ) + ((750195034951127876336561409 : ℝ)/714711878237622637162397696000000000000)) = ((750195034951127876336561409 : ℝ)/714711878237622637162397696000000000000) by norm_num]
      rw [max_eq_right (by norm_num), min_eq_right (by norm_num)]]
    rw [abs_of_nonpos (by norm_num)]
    norm_num)]
  rw [if_neg (by
    rw [show clip ((47812500169 : ℝ)/952187499831000000000000) ((589999 : ℝ)/1000000) ((0:ℝ) + ((750195034951127876336561409 : ℝ)/714711878237622637162397696000000000000)) = ((750195034951127876336561409 : ℝ)/714711878237622637162397696000000000000) by
      unfold clip
      rw [show ((0:ℝ) + ((750195034951127876336561409 : ℝ)/714711878237622637162397696000000000000)) = ((750195034951127876336561409 : ℝ)/714711878237622637162397696000000000000) by norm_num]
      rw [max_eq_right (by norm_num), min_eq_right (by norm_num)]]
    push_neg
    norm_num)]
  rw [show (9:ℕ) = 8 + 1 from rfl]
  rw [sbis]
  rw [show ((((750195034951127876336561409 : ℝ)/714711878237622637162397696000000000000) : ℝ) + ((1126525634762879185683092029 : ℝ)/1072067817356433955743596544000000000000))/2 = ((900727274875828400075173657 : ℝ)/857654253885147164594877235200000000000) by norm_num]
  rw [if_neg (by
    rw [show clip ((47812500169 : ℝ)/952187499831000000000000) ((589999 : ℝ)/1000000) ((0:ℝ) + ((900727274875828400075173657 : ℝ)/857654253885147164594877235200000000000)) = ((900727274875828400075173657 : ℝ)/857654253885147164594877235200000000000) by
      unfold clip
      rw [show ((0:ℝ) + ((900727274875828400075173657 : ℝ)/857654253885147164594877235200000000000)) = ((900727274875828400075173657 : ℝ)/857654253885147164594877235200000000000) by norm_num]
      rw [max_eq_right (by norm_num), min_eq_right (by norm_num)]]
    rw [abs_of_nonneg (by norm_num)]
    norm_num)]
  rw [if_pos (by
    rw [show clip ((47812500169 : ℝ)/952187499831000000000000) ((589999 : ℝ)/1000000) ((0:ℝ) + ((900727274875828400075173657 : ℝ)/857654253885147164594877235200000000000)) = ((900727274875828400075173657 : ℝ)/857654253885147164594877235200000000000) by
      unfold clip
      rw [show ((0:ℝ) + ((900727274875828400075173657 : ℝ)/857654253885147164594877235200000000000)) = ((900727274875828400075173657 : ℝ)/857654253885147164594877235200000000000) by norm_num]
      rw [max_eq_right (by norm_num), min_eq_right (by norm_num)]]
    norm_num)]
  rw [show (8:ℕ) = 7 + 1 from rfl]
  rw [sbis]
  rw [show ((((750195034951127876336561409 : ℝ)/714711878237622637162397696000000000000) : ℝ) + ((900727274875828400075173657 : ℝ)/857654253885147164594877235200000000000))/2 = ((9004806584085909258395236739 : ℝ)/8576542538851471645948772352000000000000) by norm_num]
  rw [if_neg (by
    rw [show clip ((47812500169 : ℝ)/952187499831000000000000) ((589999 : ℝ)/1000000) ((0:ℝ) + ((9004806584085909258395236739 : ℝ)/8576542538851471645948772352000000000000)) = ((9004806584085909258395236739 : ℝ)/8576542538851471645948772352000000000000) by
      unfold clip
      rw [show ((0:ℝ) + ((9004806584085909258395236739 : ℝ)/8576542538851471645948772352000000000000)) = ((9004806584085909258395236739 : ℝ)/8576542538851471645948772352000000000000) by norm_num]
      rw [max_eq_right (by norm_num), min_eq_right (by norm_num)]]
    rw [abs_of_nonpos (by norm_num)]
    norm_num)]
  rw [if_neg (by
    rw [show clip ((47812500169 : ℝ)/952187499831000000000000) ((589999 : ℝ)/1000000) ((0:ℝ) + ((9004806584085909258395236739 : ℝ)/8576542538851471645948772352000000000000)) = ((9004806584085909258395236739 : ℝ)/8576542538851471645948772352000000000000) by
      unfold clip
      rw [show ((0:ℝ) + ((9004806584085909258395236739 : ℝ)/8576542538851471645948772352000000000000)) = ((9004806584085909258395236739 : ℝ)/8576542538851471645948772352000000000000) by norm_num]
      rw [max_eq_right (by norm_num), min_eq_right (by norm_num)]]
    push_neg
    norm_num)]
  rw [show (7:ℕ) = 6 + 1 from rfl]
  rw [sbis]
  rw [show ((((9004806584085909258395236739 : ℝ)/8576542538851471645948772352000000000000) : ℝ) + ((900727274875828400075173657 : ℝ)/857654253885147164594877235200000000000))/2 = ((6004026444281397753048991103 : ℝ)/5717695025900981097299181568000000000000) by norm_num]
  rw [if_neg (by
    rw [show clip ((47812500169 : ℝ)/952187499831000000000000) ((589999 : ℝ)/1000000) ((0:ℝ) + ((6004026444281397753048991103 : ℝ)/5717695025900981097299181568000000000000)) = ((6004026444281397753048991103 : ℝ)/5717695025900981097299181568000000000000) by
      unfold clip
      rw [show ((0:ℝ) + ((6004026444281397753048991103 : ℝ)/5717695025900981097299181568000000000000)) = ((6004026444281397753048991103 : ℝ)/5717695025900981097299181568000000000000) by norm_num]
      rw [max_eq_right (by norm_num), min_eq_right (by norm_num)]]
    rw [abs_of_nonpos (by norm_num)]
    norm_num)]
  rw [if_neg (by
    rw [show clip ((47812500169 : ℝ)/952187499831000000000000) ((589999 : ℝ)/1000000) ((0:ℝ) + ((6004026444281397753048991103 : ℝ)/5717695025900981097299181568000000000000)) = ((6004026444281397753048991103 : ℝ)/5717695025900981097299181568000000000000) by
      unfold clip
      rw [show ((0:ℝ) + ((6004026444281397753048991103 : ℝ)/5717695025900981097299181568000000000000)) = ((6004026444281397753048991103 : ℝ)/5717695025900981097299181568000000000000) by norm_num]
      rw [max_eq_right (by norm_num), min_eq_right (by norm_num)]]
    push_neg
    norm_num)]
  rw [show (6:ℕ) = 5 + 1 from rfl]
  rw [sbis]
  rw [show ((((6004026444281397753048991103 : ℝ)/5717695025900981097299181568000000000000) : ℝ) + ((900727274875828400075173657 : ℝ)/857654253885147164594877235200000000000))/2 = ((36026624830360761260650446449 : ℝ)/34306170155405886583795089408000000000000) by norm_num]
  rw [if_neg (by
    rw [show clip ((47812500169 : ℝ)/952187499831000000000000) ((589999 : ℝ)/1000000) ((0:ℝ) + ((36026624830360761260650446449 : ℝ)/34306170155405886583795089408000000000000)) = ((36026624830360761260650446449 : ℝ)/34306170155405886583795089408000000000000) by
      unfold clip
      rw [show ((0:ℝ) + ((36026624830360761260650446449 : ℝ)/34306170155405886583795089408000000000000)) = ((36026624830360761260650446449 : ℝ)/34306170155405886583795089408000000000000) by norm_num]
      rw [max_eq_right (by norm_num), min_eq_right (by norm_num)]]
    rw [abs_of_nonpos (by norm_num)]
    norm_num)]
  rw [if_neg (by
    rw [show clip ((47812500169 : ℝ)/952187499831000000000000) ((589999 : ℝ)/1000000) ((0:ℝ) + ((36026624830360761260650446449 : ℝ)/34306170155405886583795089408000000000000)) = ((36026624830360761260650446449 : ℝ)/34306170155405886583795089408000000000000) by
      unfold clip
      rw [show ((0:ℝ) + ((36026624830360761260650446449 : ℝ)/34306170155405886583795089408000000000000)) = ((36026624830360761260650446449 : ℝ)/34306170155405886583795089408000000000000) by norm_num]
      rw [max_eq_right (by norm_num), min_eq_right (by norm_num)]]
    push_neg
    norm_num)]
  rw [show (5:ℕ) = 4 + 1 from rfl]
  rw [sbis]
  rw [show ((((36026624830360761260650446449 : ℝ)/34306170155405886583795089408000000000000) : ℝ) + ((900727274875828400075173657 : ℝ)/857654253885147164594877235200000000000))/2 = ((24018571941797965754552464243 : ℝ)/22870780103603924389196726272000000000000) by norm_num]
  rw [if_neg (by
    rw [show clip ((47812500169 : ℝ)/952187499831000000000000) ((589999 : ℝ)/1000000) ((0:ℝ) + ((24018571941797965754552464243 : ℝ)/22870780103603924389196726272000000000000)) = ((24018571941797965754552464243 : ℝ)/22870780103603924389196726272000000000000) by
      unfold clip
      rw [show ((0:ℝ) + ((24018571941797965754552464243 : ℝ)/22870780103603924389196726272000000000000)) = ((24018571941797965754552464243 : ℝ)/22870780103603924389196726272000000000000) by norm_num]
      rw [max_eq_right (by norm_num), min_eq_right (by norm_num)]]
    rw [abs_of_nonpos (by norm_num)]
    norm_num)]
  rw [if_neg (by
    rw [show clip ((47812500169 : ℝ)/952187499831000000000000) ((589999 : ℝ)/1000000) ((0:ℝ) + ((24018571941797965754552464243 : ℝ)/22870780103603924389196726272000000000000)) = ((24018571941797965754552464243 : ℝ)/22870780103603924389196726272000000000000) by
      unfold clip
      rw [show ((0:ℝ) + ((24018571941797965754552464243 : ℝ)/22870780103603924389196726272000000000000)) = ((24018571941797965754552464243 : ℝ)/22870780103603924389196726272000000000000) by norm_num]
      rw [max_eq_right (by norm_num), min_eq_right (by norm_num)]]
    push_neg
    norm_num)]
  rw [show (4:ℕ) = 3 + 1 from rfl]
  rw [sbis]
  rw [show ((((24018571941797965754552464243 : ℝ)/22870780103603924389196726272000000000000) : ℝ) + ((900727274875828400075173657 : ℝ)/857654253885147164594877235200000000000))/2 = ((144113897815460169269671285289 : ℝ)/137224680621623546335180357632000000000000) by norm_num]
  rw [if_neg (by
    rw [show clip ((47812500169 : ℝ)/952187499831000000000000) ((589999 : ℝ)/1000000) ((0:ℝ) + ((144113897815460169269671285289 : ℝ)/137224680621623546335180357632000000000000)) = ((144113897815460169269671285289 : ℝ)/137224680621623546335180357632000000000000) by
      unfold clip
      rw [show ((0:ℝ) + ((144113897815460169269671285289 : ℝ)/137224680621623546335180357632000000000000)) = ((144113897815460169269671285289 : ℝ)/137224680621623546335180357632000000000000) by norm_num]
      rw [max_eq_right (by norm_num), min_eq_right (by norm_num)]]
    rw [abs_of_nonpos (by norm_num)]
    norm_num)]
  rw [if_neg (by
    rw [show clip ((47812500169 : ℝ)/952187499831000000000000) ((589999 : ℝ)/1000000) ((0:ℝ) + ((144113897815460169269671285289 : ℝ)/137224680621623546335180357632000000000000)) = ((144113897815460169269671285289 : ℝ)/137224680621623546335180357632000000000000) by
      unfold clip
      rw [show ((0:ℝ) + ((144113897815460169269671285289 : ℝ)/137224680621623546335180357632000000000000)) = ((144113897815460169269671285289 : ℝ)/137224680621623546335180357632000000000000) by norm_num]
      rw [max_eq_right (by norm_num), min_eq_right (by norm_num)]]
    push_neg
    norm_num)]
  rw [show (3:ℕ) = 2 + 1 from rfl]
  rw [sbis]
  rw [show ((((144113897815460169269671285289 : ℝ)/137224680621623546335180357632000000000000) : ℝ) + ((900727274875828400075173657 : ℝ)/857654253885147164594877235200000000000))/2 = ((96076753931864237760566356803 : ℝ)/91483120414415697556786905088000000000000) by norm_num]
  rw [if_neg (by
    rw [show clip ((47812500169 : ℝ)/952187499831000000000000) ((589999 : ℝ)/1000000) ((0:ℝ) + ((96076753931864237760566356803 : ℝ)/91483120414415697556786905088000000000000)) = ((96076753931864237760566356803 : ℝ)/91483120414415697556786905088000000000000) by
      unfold clip
      rw [show ((0:ℝ) + ((96076753931864237760566356803 : ℝ)/91483120414415697556786905088000000000000)) = ((96076753931864237760566356803 : ℝ)/91483120414415697556786905088000000000000) by norm_num]
      rw [max_eq_right (by norm_num), min_eq_right (by norm_num)]]
    rw [abs_of_nonpos (by norm_num)]
    norm_num)]
  rw [if_neg (by
    rw [show clip ((47812500169 : ℝ)/952187499831000000000000) ((589999 : ℝ)/1000000) ((0:ℝ) + ((96076753931864237760566356803 : ℝ)/91483120414415697556786905088000000000000)) = ((96076753931864237760566356803 : ℝ)/91483120414415697556786905088000000000000) by
      unfold clip
      rw [show ((0:ℝ) + ((96076753931864237760566356803 : ℝ)/91483120414415697556786905088000000000000)) = ((96076753931864237760566356803 : ℝ)/91483120414415697556786905088000000000000) by norm_num]
      rw [max_eq_right (by norm_num), min_eq_right (by norm_num)]]
    push_neg
    norm_num)]
  rw [show (2:ℕ) = 1 + 1 from rfl]
  rw [sbis]
  rw [show ((((96076753931864237760566356803 : ℝ)/91483120414415697556786905088000000000000) : ℝ) + ((900727274875828400075173657 : ℝ)/857654253885147164594877235200000000000))/2 = ((576462989755857801305754640649 : ℝ)/548898722486494185340721430528000000000000) by norm_num]
  rw [if_neg (by
    rw [show clip ((47812500169 : ℝ)/952187499831000000000000) ((589999 : ℝ)/1000000) ((0:ℝ) + ((576462989755857801305754640649 : ℝ)/548898722486494185340721430528000000000000)) = ((576462989755857801305754640649 : ℝ)/548898722486494185340721430528000000000000) by
      unfold clip
      rw [show ((0:ℝ) + ((576462989755857801305754640649 : ℝ)/548898722486494185340721430528000000000000)) = ((576462989755857801305754640649 : ℝ)/548898722486494185340721430528000000000000) by norm_num]
      rw [max_eq_right (by norm_num), min_eq_right (by norm_num)]]
    rw [abs_of_nonneg (by norm_num)]
    norm_num)]
  rw [if_pos (by
    rw [show clip ((47812500169 : ℝ)/952187499831000000000000) ((589999 : ℝ)/1000000) ((0:ℝ) + ((576462989755857801305754640649 : ℝ)/548898722486494185340721430528000000000000)) = ((576462989755857801305754640649 : ℝ)/548898722486494185340721430528000000000000) by
      unfold clip
      rw [show ((0:ℝ) + ((576462989755857801305754640649 : ℝ)/548898722486494185340721430528000000000000)) = ((576462989755857801305754640649 : ℝ)/548898722486494185340721430528000000000000) by norm_num]
      rw [max_eq_right (by norm_num), min_eq_right (by norm_num)]]
    norm_num)]
  rw [show (1:ℕ) = 0 + 1 from rfl]
  rw [sbis]
  rw [show ((((96076753931864237760566356803 : ℝ)/91483120414415697556786905088000000000000) : ℝ) + ((576462989755857801305754640649 : ℝ)/548898722486494185340721430528000000000000))/2 = ((1152923513347043227869152781467 : ℝ)/1097797444972988370681442861056000000000000) by norm_num]
  rw [if_neg (by
    rw [show clip ((47812500169 : ℝ)/952187499831000000000000) ((589999 : ℝ)/1000000) ((0:ℝ) + ((1152923513347043227869152781467 : ℝ)/1097797444972988370681442861056000000000000)) = ((1152923513347043227869152781467 : ℝ)/1097797444972988370681442861056000000000000) by
      unfold clip
      rw [show ((0:ℝ) + ((1152923513347043227869152781467 : ℝ)/1097797444972988370681442861056000000000000)) = ((1152923513347043227869152781467 : ℝ)/1097797444972988370681442861056000000000000) by norm_num]
      rw [max_eq_right (by norm_num), min_eq_right (by norm_num)]]
    rw [abs_of_nonneg (by norm_num)]
    norm_num)]
  rw [if_pos (by
    rw [show clip ((47812500169 : ℝ)/952187499831000000000000) ((589999 : ℝ)/1000000) ((0:ℝ) + ((1152923513347043227869152781467 : ℝ)/1097797444972988370681442861056000000000000)) = ((1152923513347043227869152781467 : ℝ)/1097797444972988370681442861056000000000000) by
      unfold clip
      rw [show ((0:ℝ) + ((1152923513347043227869152781467 : ℝ)/1097797444972988370681442861056000000000000)) = ((1152923513347043227869152781467 : ℝ)/1097797444972988370681442861056000000000000) by norm_num]
      rw [max_eq_right (by norm_num), min_eq_right (by norm_num)]]
    norm_num)]
  rw [sbis]
  rw [show ((((96076753931864237760566356803 : ℝ)/91483120414415697556786905088000000000000) : ℝ) + ((1152923513347043227869152781467 : ℝ)/1097797444972988370681442861056000000000000))/2 = ((2305844560529414080995949063103 : ℝ)/2195594889945976741362885722112000000000000) by norm_num]

theorem c12_effL_value :
    effL (1 : ℝ) 952187499831 (1/20000) = ((47812500169 : ℝ)/952187499831000000000000) := by
  unfold effL
  rw [if_pos (by norm_num), max_eq_left (by norm_num)]
  norm_num

theorem c12_project_value :
    project (List.replicate 952187499831 (0:ℝ)) 1 ((47812500169 : ℝ)/952187499831000000000000) ((589999 : ℝ)/1000000) (1/10^12) 60 =
      List.replicate 952187499831 ((2305844560529414080995949063103 : ℝ)/2195594889945976741362885722112000000000000) := by
  unfold project
  rw [show (List.replicate 952187499831 (0:ℝ)).isEmpty = false from rfl]
  simp only [Bool.false_eq_true, if_false]
  rw [List.length_replicate]
  rw [listMax_replicate _ _ (by norm_num), listMin_replicate _ _ (by norm_num)]
  rw [show ((952187499831:ℕ):ℝ) = 952187499831 by norm_num]
  rw [show clip ((952187499831:ℝ) * ((47812500169 : ℝ)/952187499831000000000000)) ((952187499831:ℝ) * ((589999 : ℝ)/1000000)) 1 = 1 from
    clip_of_mem (by norm_num) (by norm_num)]
  rw [show (((47812500169 : ℝ)/952187499831000000000000) - (0:ℝ) - 1) = ((47812500169 : ℝ)/952187499831000000000000) - 1 by norm_num]
  rw [show (((589999 : ℝ)/1000000) - (0:ℝ) + 1) = ((589999 : ℝ)/1000000) + 1 by norm_num]
  rw [show ((1:ℝ)/10^12) = (1:ℝ)/1000000000000 by norm_num]
  rw [bisect_replicate, c12_sbis_value]
  rw [show clip ((47812500169 : ℝ)/952187499831000000000000) ((589999 : ℝ)/1000000) ((0:ℝ) + ((2305844560529414080995949063103 : ℝ)/2195594889945976741362885722112000000000000)) = ((2305844560529414080995949063103 : ℝ)/2195594889945976741362885722112000000000000) by
    rw [zero_add]
    exact clip_of_mem (by norm_num) (by norm_num)]

theorem c12_diffs_eq :
    diffs (reconstruct (0:ℝ) 1 (List.replicate 952187499831 ((2305844560529414080995949063103 : ℝ)/2195594889945976741362885722112000000000000))) =
      List.replicate 952187499830 ((2305844560529414080995949063103 : ℝ)/2195594889945976741362885722112000000000000) ++ [((-147714113115359544413264207647177249 : ℝ)/219559488994597674136288572211200000000000)] := by
  rw [show (952187499831:ℕ) = 952187499830 + 1 from rfl, List.replicate_succ']
  rw [diffs_reconstruct]
  congr 1
  rw [List.sum_replicate, nsmul_eq_mul]
  rw [show ((952187499830:ℕ):ℝ) = 952187499830 by norm_num]
  rw [min_eq_right (by norm_num)]
  norm_num

theorem c12_cv_ge :
    (1:ℝ)/10 ≤ cv (diffs (reconstruct (0:ℝ) 1 (List.replicate 952187499831 ((2305844560529414080995949063103 : ℝ)/2195594889945976741362885722112000000000000)))) := by
  rw [c12_diffs_eq, cv_ge_iff _ (by norm_num)]
  have hlen : (List.replicate 952187499830 ((2305844560529414080995949063103 : ℝ)/2195594889945976741362885722112000000000000) ++ [((-147714113115359544413264207647177249 : ℝ)/219559488994597674136288572211200000000000)]).length = 952187499831 := by
    rw [List.length_append, List.length_replicate]
    rfl
  have hsum : (List.replicate 952187499830 ((2305844560529414080995949063103 : ℝ)/2195594889945976741362885722112000000000000) ++ [((-147714113115359544413264207647177249 : ℝ)/219559488994597674136288572211200000000000)]).sum = 1 := by
    rw [List.sum_append, List.sum_replicate, nsmul_eq_mul]
    rw [show ((952187499830:ℕ):ℝ) = 952187499830 by norm_num]
    norm_num
  have hmean : mean (List.replicate 952187499830 ((2305844560529414080995949063103 : ℝ)/2195594889945976741362885722112000000000000) ++ [((-147714113115359544413264207647177249 : ℝ)/219559488994597674136288572211200000000000)]) =
      1/952187499831 := by
    unfold mean
    rw [hsum, hlen]
    rw [show ((952187499831:ℕ):ℝ) = 952187499831 by norm_num]
  rw [hmean]
  unfold variance
  rw [hmean, hlen]
  rw [List.map_append, List.map_replicate, List.sum_append, List.sum_replicate,
    nsmul_eq_mul]
  rw [show ((952187499830:ℕ):ℝ) = 952187499830 by norm_num]
  rw [show ((952187499831:ℕ):ℝ) = 952187499831 by norm_num]
  rw [List.map_cons, List.map_nil, List.sum_cons, List.sum_nil]
  rw [abs_of_nonneg (by norm_num)]
  norm_num

theorem c12_enforce_value :
    enforce (List.replicate 952187499832 (0:ℝ)) false false (1/20000) (589999/1000000) =
      reconstruct 0 1 (List.replicate 952187499831 ((2305844560529414080995949063103 : ℝ)/2195594889945976741362885722112000000000000)) := by
  rw [enforce_eq _ _ _ _ _ (by rw [List.length_replicate]; norm_num)]
  rw [show (lowerLimit false : ℝ) = 0 from rfl, show (upperLimit false : ℝ) = 1 from rfl]
  rw [show ((1:ℝ) - 0) = 1 by norm_num]
  rw [List.length_replicate]
  rw [show (952187499832 - 1 : ℕ) = 952187499831 from rfl]
  rw [show ((589999:ℝ)/1000000) = ((589999 : ℝ)/1000000) from rfl]
  rw [c12_effL_value]
  rw [show (List.replicate 952187499832 (0:ℝ)).map (clip 0 1) =
      List.replicate 952187499832 (0:ℝ) by
    rw [List.map_replicate, clip_of_mem le_rfl zero_le_one]]
  rw [runningMax_id (chain'_replicate_le _ _)]
  rw [show (952187499832:ℕ) = 952187499831 + 1 from rfl, diffs_replicate]
  rw [show (List.replicate 952187499831 (0:ℝ)).map (fun x => max x 0) =
      List.replicate 952187499831 (0:ℝ) by
    rw [List.map_replicate, max_self]]
  rw [c12_project_value]
  exact antiFlatten_noop _ _ _ _ _ _ _ (Or.inr (Or.inr c12_cv_ge))

/-- C1 (code evaluation at the failing input): applied to the all-zeros raw
CDF of length 952187499832 with both bounds closed, enforce_cdf_constraints
returns a sequence that decreases at its final adjacent pair, because the
projection sum error after 60 bisection iterations exceeds the feasibility
slack and the anti-flatten pass leaves the violation in place; the returned
sequence is not non-decreasing. -/
theorem C1_monotonicity_fails_at_input :
    ¬ List.Chain' (· ≤ ·)
      (enforce (List.replicate 952187499832 (0:ℝ)) false false (1/20000)
        (589999/1000000)) := by
  rw [c12_enforce_value, chain'_le_iff_diffs_nonneg]
  intro hall
  have hmem : ((-147714113115359544413264207647177249 : ℝ)/219559488994597674136288572211200000000000) ∈
      diffs (reconstruct (0:ℝ) 1 (List.replicate 952187499831 ((2305844560529414080995949063103 : ℝ)/2195594889945976741362885722112000000000000))) := by
    rw [c12_diffs_eq]
    exact List.mem_append_right _ (by simp)
  have := hall _ hmem
  norm_num at this

/-- C2 (code evaluation at the failing input): at the all-zeros raw CDF of
length 952187499832 with both bounds closed, the output of
enforce_cdf_constraints contains an adjacent increment (its last one, after
the final element is clamped) that is strictly below the effective lower
step bound L_eff for that call, so the step-bound claim fails as stated. -/
theorem C2_step_bound_fails_at_input :
    ∃ x ∈ diffs (enforce (List.replicate 952187499832 (0:ℝ)) false false (1/20000)
        (589999/1000000)), x < effL 1 952187499831 (1/20000) := by
  rw [c12_enforce_value, c12_diffs_eq]
  refine ⟨((-147714113115359544413264207647177249 : ℝ)/219559488994597674136288572211200000000000), List.mem_append_right _ (by simp), ?_⟩
  rw [c12_effL_value]
  norm_num

set_option maxHeartbeats 1000000 in
/-- C6 (amended): applying enforce_cdf_constraints to an already-compliant CDF
whose last element equals upper_limit exactly and whose increment variance
exceeds the branch threshold value (0.1 * (|mean| + 1e-12))^2 by at least
twenty times the projection error bound E = projErr(...) returns the same CDF
element-wise within E; E is at most max(1e-12, n*(hi0-lo0)/2^60). -/
theorem C6_amended_idempotence (cdf : List ℝ) (oL oU : Bool)
    (hlen : 2 ≤ cdf.length)
    (hmono : List.Chain' (· ≤ ·) cdf)
    (hhead : cdf.head? = some (lowerLimit oL))
    (hlast : cdf.getLast? = some (upperLimit oU))
    (hsteps : ∀ x ∈ diffs cdf,
      effL (upperLimit oU - lowerLimit oL) (cdf.length - 1) minStepD ≤ x ∧
        x ≤ maxStepD)
    (hcv : (1 / 10 * (|mean (diffs cdf)| + 1 / 10 ^ 12)) ^ 2 +
        20 * projErr (diffs cdf)
          (effL (upperLimit oU - lowerLimit oL) (cdf.length - 1) minStepD)
          maxStepD (1 / 10 ^ 12) 60 ≤ variance (diffs cdf)) :
    List.Forall₂ (fun a b => |a - b| ≤
        projErr (diffs cdf)
          (effL (upperLimit oU - lowerLimit oL) (cdf.length - 1) minStepD)
          maxStepD (1 / 10 ^ 12) 60)
      cdf (enforce cdf oL oU minStepD maxStepD) := by
  have hms : minStepD = (1 / 20000 : ℝ) := rfl
  have hMs : maxStepD = (589999 / 1000000 : ℝ) := rfl
  set lower := (lowerLimit oL : ℝ) with hlowdef
  set upper := (upperLimit oU : ℝ) with hupdef
  set m := cdf.length - 1 with hmdef
  set d := diffs cdf with hddef
  set L := effL (upper - lower) m minStepD with hLdef
  set E := projErr d L maxStepD (1 / 10 ^ 12) 60 with hEdef
  have hlow := lowerLimit_mem (K := ℝ) oL
  have hup := upperLimit_mem (K := ℝ) oU
  have htotpos : (499 / 500 : ℝ) ≤ upper - lower := by
    have := hlow.2
    have := hup.1
    rw [hlowdef, hupdef]
    linarith
  have htotle : upper - lower ≤ 1 := by
    have := hlow.1
    have := hup.2
    rw [hlowdef, hupdef]
    linarith
  have hm1 : 1 ≤ m := by omega
  have hmpos : 0 < m := hm1
  have hmR : (1 : ℝ) ≤ (m : ℝ) := by exact_mod_cast hm1
  have hd_len : d.length = m := by rw [hddef, diffs_length, hmdef]
  have hd_ne : d ≠ [] := by
    refine ne_nil_of_length_pos ?_
    rw [hd_len]
    exact hmpos
  have hLnn : 0 ≤ L := effL_nonneg _ _ (by rw [hms]; norm_num)
  have hLU : L ≤ maxStepD := by
    refine (effL_le_max _ hmpos _).trans ?_
    rw [hms, hMs]
    norm_num
  have hmemd : ∀ x ∈ d, L ≤ x ∧ x ≤ maxStepD := hsteps
  have hd01 : ∀ x ∈ d, 0 ≤ x ∧ x ≤ 1 := by
    intro x hx
    have := hmemd x hx
    rw [hMs] at this
    constructor
    · linarith [this.1]
    · linarith [this.2]
  have hcdfmem : ∀ x ∈ cdf, lower ≤ x ∧ x ≤ upper := fun x hx =>
    ⟨head_le_mem hmono hhead x hx, mem_le_getLast hmono hlast x hx⟩
  have hcdf01 : ∀ x ∈ cdf, 0 ≤ x ∧ x ≤ 1 := by
    intro x hx
    have h1 := (hcdfmem x hx).1
    have h2 := (hcdfmem x hx).2
    constructor
    · linarith [hlow.1]
    · linarith [hup.2]
  have hsumd : d.sum = upper - lower := by
    rw [hddef]
    exact sum_diffs_eq hhead hlast
  have hEtol : (1 / 10 ^ 12 : ℝ) ≤ E := tol_le_projErr _ _ _ _ _
  have hE0 : (0 : ℝ) < E := lt_of_lt_of_le (by norm_num) hEtol
  have hE20 : 20 * E ≤ variance d := by
    have := sq_nonneg (1 / 10 * (|mean d| + 1 / 10 ^ 12))
    linarith [hcv]
  have hvar1 : variance d ≤ 1 := variance_le_one hd01
  have hEsmall : E ≤ 1 / 20 := by linarith
  have hmeand : mean d = (upper - lower) / (m : ℝ) := by
    unfold mean
    rw [hsumd, hd_len]
  have hmeandpos : 0 < mean d := by
    rw [hmeand]
    positivity
  have hvarmean : variance d ≤ mean d := variance_le_mean hd01
  have h2Emean : 2 * E ≤ mean d / 10 := by linarith
  -- unfold enforce and clean the input
  rw [enforce_eq cdf oL oU minStepD maxStepD (not_lt.mpr hlen)]
  have hclean : (diffs (runningMax (cdf.map (clip 0 1)))).map (fun x => max x 0) = d := by
    rw [map_clip01_id hcdf01, runningMax_id hmono, ← hddef,
      map_max_zero_id fun x hx => (hd01 x hx).1]
  rw [hclean]
  -- the projection
  obtain ⟨lam, hmap, hsum⟩ :=
    project_spec d (upper - lower) L maxStepD (1 / 10 ^ 12) hLU (by norm_num) 60
  have hclampt : clampTotal d L maxStepD (upper - lower) = upper - lower := by
    unfold clampTotal
    rw [hd_len]
    refine clip_of_mem ?_ ?_
    · exact effL_mul_le _ _ _ (by linarith) hmpos
    · rw [← hsumd]
      exact sum_le_length_mul (fun x hx => (hmemd x hx).2) |>.trans (by
        rw [hd_len])
  rw [hclampt] at hsum
  set dProj := project d (upper - lower) L maxStepD (1 / 10 ^ 12) 60 with hdProjdef
  have hsum' : |dProj.sum - (upper - lower)| ≤ E := hsum
  have hdevsumE : |dProj.sum - d.sum| ≤ E := by
    rw [hsumd]
    exact hsum'
  have hmapsum : |(d.map (fun x => clip L maxStepD (x + lam))).sum - d.sum| ≤ E := by
    rw [← hmap]
    exact hdevsumE
  -- element-wise deviation between d and dProj
  have hdevS := clip_dev_forall2 d L maxStepD lam hmemd
  have hdev : List.Forall₂ (fun a b => |a - b| ≤ E) d dProj := by
    rw [hmap]
    refine List.Forall₂.imp ?_ hdevS
    intro a b hab
    rw [abs_sub_comm]
    exact hab.trans hmapsum
  have hdProj_len : dProj.length = m := by rw [hmap, List.length_map, hd_len]
  have hdProj_ne : dProj ≠ [] := by
    refine ne_nil_of_length_pos ?_
    rw [hdProj_len]
    exact hmpos
  have hdProjmem : ∀ x ∈ dProj, L ≤ x ∧ x ≤ maxStepD := by
    intro x hx
    rw [hmap] at hx
    obtain ⟨y, _, rfl⟩ := List.mem_map.mp hx
    exact ⟨lo_le_clip hLU _, clip_le_hi _ _ _⟩
  -- closeness of the reconstructed CDF to the input
  obtain ⟨ctail, hctail⟩ : ∃ tl, cdf = lower :: tl := by
    cases cdf with
    | nil => simp at hhead
    | cons c t =>
      have hc : c = lower := by
        rw [List.head?_cons] at hhead
        exact Option.some_inj.mp hhead
      exact ⟨t, by rw [hc]⟩
  have hcdf_rec : reconstruct lower upper d = cdf := by
    refine @reconstruct_diffs_self ℝ _ lower upper cdf ctail hctail ?_
    intro v hv
    rw [hlast] at hv
    exact le_of_eq (Option.some_inj.mp hv).symm
  have hclose : List.Forall₂ (fun a b => |a - b| ≤ E) cdf
      (reconstruct lower upper dProj) := by
    rw [← hcdf_rec]
    refine reconstruct_close upper E d dProj lower lower ?_ ?_
    · rw [hmap, List.length_map]
    · intro k
      have hpre := prefix_dev_bound d L maxStepD lam hmemd k
      rw [← hmap] at hpre
      have heq : lower + (d.take k).sum - (lower + (dProj.take k).sum) =
          (d.take k).sum - (dProj.take k).sum := by ring
      rw [heq, abs_sub_comm]
      exact hpre.trans hdevsumE
  -- the anti-flatten pass is a no-op on the reconstructed CDF
  have hdrop := List.dropLast_append_getLast hdProj_ne
  have hstep2 : diffs (reconstruct lower upper dProj) =
      dProj.dropLast ++
        [min (dProj.getLast hdProj_ne) (upper - lower - dProj.dropLast.sum)] := by
    conv_lhs => rw [← hdrop]
    rw [diffs_reconstruct]
  have hsumsplit : dProj.dropLast.sum + dProj.getLast hdProj_ne = dProj.sum := by
    conv_rhs => rw [← hdrop]
    rw [List.sum_append, List.sum_cons, List.sum_nil, add_zero]
  have hminrel : |min (dProj.getLast hdProj_ne) (upper - lower - dProj.dropLast.sum) -
      dProj.getLast hdProj_ne| ≤ E := by
    have hkey : upper - lower - dProj.dropLast.sum =
        dProj.getLast hdProj_ne + ((upper - lower) - dProj.sum) := by
      rw [← hsumsplit]
      ring
    rw [hkey]
    rcases le_total ((upper - lower) - dProj.sum) 0 with hc | hc
    · rw [min_eq_right (by linarith)]
      have heq2 : dProj.getLast hdProj_ne + (upper - lower - dProj.sum) -
          dProj.getLast hdProj_ne = upper - lower - dProj.sum := by ring
      rw [heq2, abs_sub_comm]
      exact hsum'
    · rw [min_eq_left (by linarith)]
      simp only [sub_self, abs_zero]
      exact hE0.le
  have hgetLast_d : d.getLast? = some (d.getLast hd_ne) := List.getLast?_eq_getLast d hd_ne
  have hgetLast_p : dProj.getLast? = some (dProj.getLast hdProj_ne) :=
    List.getLast?_eq_getLast dProj hdProj_ne
  have hlastdev : |d.getLast hd_ne - dProj.getLast hdProj_ne| ≤ E :=
    forall2_getLast hdev hgetLast_d hgetLast_p
  have h2E : List.Forall₂ (fun a b => |a - b| ≤ 2 * E) d
      (diffs (reconstruct lower upper dProj)) := by
    rw [hstep2]
    have hfront : List.Forall₂ (fun a b => |a - b| ≤ 2 * E) d.dropLast
        dProj.dropLast := by
      refine List.Forall₂.imp ?_ (forall2_dropLast hdev)
      intro a b hab
      linarith [hE0.le]
    have hback : List.Forall₂ (fun a b => |a - b| ≤ 2 * E)
        [d.getLast hd_ne]
        [min (dProj.getLast hdProj_ne) (upper - lower - dProj.dropLast.sum)] := by
      refine List.Forall₂.cons ?_ List.Forall₂.nil
      calc |d.getLast hd_ne -
          min (dProj.getLast hdProj_ne) (upper - lower - dProj.dropLast.sum)| ≤
          |d.getLast hd_ne - dProj.getLast hdProj_ne| +
            |dProj.getLast hdProj_ne -
              min (dProj.getLast hdProj_ne) (upper - lower - dProj.dropLast.sum)| := by
            have := abs_add (d.getLast hd_ne - dProj.getLast hdProj_ne)
              (dProj.getLast hdProj_ne -
                min (dProj.getLast hdProj_ne) (upper - lower - dProj.dropLast.sum))
            calc |d.getLast hd_ne -
                min (dProj.getLast hdProj_ne) (upper - lower - dProj.dropLast.sum)| =
                |(d.getLast hd_ne - dProj.getLast hdProj_ne) +
                  (dProj.getLast hdProj_ne -
                    min (dProj.getLast hdProj_ne)
                      (upper - lower - dProj.dropLast.sum))| := by
                  congr 1
                  ring
              _ ≤ _ := this
        _ ≤ E + E := by
            refine add_le_add hlastdev ?_
            rw [abs_sub_comm]
            exact hminrel
        _ = 2 * E := by ring
    have happ : List.Forall₂ (fun a b => |a - b| ≤ 2 * E)
        (d.dropLast ++ [d.getLast hd_ne])
        (dProj.dropLast ++
          [min (dProj.getLast hdProj_ne) (upper - lower - dProj.dropLast.sum)]) :=
      List.rel_append hfront hback
    rw [List.dropLast_append_getLast hd_ne] at happ
    exact happ
  -- variance and mean of the post-reconstruction increments
  have hd1abs : ∀ x ∈ d, |x| ≤ 1 := by
    intro x hx
    rw [abs_le]
    have := hd01 x hx
    constructor <;> linarith [this.1, this.2]
  have hd2abs : ∀ x ∈ diffs (reconstruct lower upper dProj), |x| ≤ 1 := by
    intro x hx
    rw [hstep2] at hx
    rcases List.mem_append.mp hx with hx | hx
    · have hmem := hdProjmem x (List.mem_of_mem_dropLast hx)
      rw [abs_le, hMs] at *
      constructor
      · linarith [hmem.1, hLnn]
      · linarith [hmem.2]
    · rw [List.mem_singleton.mp hx]
      have hg := hdProjmem _ (List.getLast_mem hdProj_ne)
      have hle : min (dProj.getLast hdProj_ne) (upper - lower - dProj.dropLast.sum) ≤
          dProj.getLast hdProj_ne := min_le_left _ _
      have hge : dProj.getLast hdProj_ne - E ≤
          min (dProj.getLast hdProj_ne) (upper - lower - dProj.dropLast.sum) := by
        have := abs_le.mp hminrel
        linarith [this.1]
      rw [abs_le, hMs] at *
      constructor
      · linarith [hg.1, hLnn, hEsmall]
      · linarith [hg.2, hle]
  have hvardev : |variance (diffs (reconstruct lower upper dProj)) - variance d| ≤
      8 * 1 * (2 * E) :=
    variance_dev_bound (by linarith) zero_le_one h2E hd1abs hd2abs hd_ne
  have hmeandev : |mean d - mean (diffs (reconstruct lower upper dProj))| ≤ 2 * E :=
    forall2_mean_bound h2E hd_ne
  have hmean2pos : 0 < mean (diffs (reconstruct lower upper dProj)) := by
    have := abs_le.mp hmeandev
    linarith [this.2, h2Emean, hmeandpos]
  have habs_meand : |mean d| ≤ 1 := abs_mean_le zero_le_one hd1abs
  have hcv2 : (1 : ℝ) / 10 ≤ cv (diffs (reconstruct lower upper dProj)) := by
    rw [cv_ge_iff _ (by norm_num)]
    have habs2 : |mean (diffs (reconstruct lower upper dProj))| ≤ |mean d| + 2 * E := by
      have h1 : mean (diffs (reconstruct lower upper dProj)) =
          mean d + (mean (diffs (reconstruct lower upper dProj)) - mean d) := by ring
      rw [h1]
      refine (abs_add _ _).trans ?_
      rw [abs_sub_comm]
      linarith [hmeandev]
    have hv2 : variance d - 16 * E ≤ variance (diffs (reconstruct lower upper dProj)) := by
      have := abs_le.mp hvardev
      linarith [this.1]
    have hsq : (1 / 10 * (|mean (diffs (reconstruct lower upper dProj))| + 1 / 10 ^ 12)) ^ 2 ≤
        (1 / 10 * (|mean d| + 1 / 10 ^ 12)) ^ 2 + 4 * E := by
      have ha := abs_nonneg (mean (diffs (reconstruct lower upper dProj)))
      have hb := abs_nonneg (mean d)
      nlinarith [habs2, habs_meand, hEsmall, hE0.le]
    linarith [hcv, hv2, hsq]
  have hnoop : antiFlatten (reconstruct lower upper dProj) oL oU L maxStepD
      (1 / 10) (1 / 5) = reconstruct lower upper dProj :=
    antiFlatten_noop _ _ _ _ _ _ _ (Or.inr (Or.inr hcv2))
  rw [hnoop]
  exact hclose

theorem c6_dRaw_eq :
    (diffs (runningMax (([(0:ℝ), 1/5, 3/5]).map (clip 0 1)))).map (fun x => max x 0) =
      [1/5, 2/5] := by
  rw [show ([(0:ℝ), 1/5, 3/5]).map (clip 0 1) = [(0:ℝ), 1/5, 3/5] from by
    simp only [List.map_cons, List.map_nil]
    rw [clip_of_mem (le_refl (0:ℝ)) (by norm_num),
        clip_of_mem (by norm_num) (by norm_num),
        clip_of_mem (by norm_num) (by norm_num)]]
  rw [show runningMax [(0:ℝ), 1/5, 3/5] = [(0:ℝ), 1/5, 3/5] from
    runningMax_id (by norm_num [List.chain'_cons, List.chain'_singleton])]
  rw [show diffs [(0:ℝ), 1/5, 3/5] = [1/5 - 0, 3/5 - 1/5] from rfl]
  simp only [List.map_cons, List.map_nil]
  rw [show (1/5 - 0 : ℝ) = 1/5 by norm_num, show (3/5 - 1/5 : ℝ) = 2/5 by norm_num]
  rw [max_eq_left (by norm_num : (0:ℝ) ≤ 1/5), max_eq_left (by norm_num : (0:ℝ) ≤ 2/5)]

theorem c6_projErr_eq :
    projErr [(1/5 : ℝ), 2/5] (1/20000) (589999/1000000) (1/10^12) 60 = 1/10^12 := by
  unfold projErr
  rw [show listMin [(1/5 : ℝ), 2/5] = 1/5 from by
    show min (1/5 : ℝ) (2/5) = 1/5
    norm_num]
  rw [show listMax [(1/5 : ℝ), 2/5] = 2/5 from by
    show max (1/5 : ℝ) (2/5) = 2/5
    norm_num]
  rw [show (([(1/5 : ℝ), 2/5]).length : ℝ) = 2 from by norm_num]
  rw [max_eq_left (by norm_num)]

/-- C6: the idempotence claim is false as stated.  The CDF [0, 1/5, 3/5] with
both bounds closed satisfies every output invariant — it is non-decreasing,
its first element equals lower_limit, its last element is at most upper_limit,
every increment lies in [L_eff, max_step] — and the coefficient of variation
of its increments is at least 0.10, yet enforce_cdf_constraints moves its
middle element by more than 1/10 (the projection pulls the total mass up to
upper_limit - lower_limit = 1 even though the compliant input only reaches
3/5), so the output is not the same CDF within floating tolerance. -/
theorem C6_counterexample :
    List.Chain' (· ≤ ·) [(0:ℝ), 1/5, 3/5] ∧
    ([(0:ℝ), 1/5, 3/5]).head? = some (lowerLimit false) ∧
    (∀ v, ([(0:ℝ), 1/5, 3/5]).getLast? = some v → v ≤ upperLimit false) ∧
    (∀ x ∈ diffs [(0:ℝ), 1/5, 3/5],
      effL (upperLimit false - lowerLimit false) (([(0:ℝ), 1/5, 3/5]).length - 1)
          minStepD ≤ x ∧ x ≤ maxStepD) ∧
    (1/10 : ℝ) ≤ cv (diffs [(0:ℝ), 1/5, 3/5]) ∧
    ¬ List.Forall₂ (fun x y => |x - y| ≤ 1/10) [(0:ℝ), 1/5, 3/5]
      (enforce [(0:ℝ), 1/5, 3/5] false false minStepD maxStepD) := by
  refine ⟨by norm_num [List.chain'_cons, List.chain'_singleton], rfl, ?_, ?_, ?_, ?_⟩
  · intro v hv
    rw [show ([(0:ℝ), 1/5, 3/5]).getLast? = some (3/5) from rfl] at hv
    rw [← Option.some_inj.mp hv, show (upperLimit false : ℝ) = 1 from rfl]
    norm_num
  · intro x hx
    rw [show diffs [(0:ℝ), 1/5, 3/5] = [1/5 - 0, 3/5 - 1/5] from rfl] at hx
    rw [show (upperLimit false : ℝ) = 1 from rfl, show (lowerLimit false : ℝ) = 0 from rfl]
    rw [show ((1:ℝ) - 0) = 1 by norm_num]
    rw [show (([(0:ℝ), 1/5, 3/5]).length - 1) = 2 from rfl]
    rw [show minStepD = (1/20000 : ℝ) from rfl, show maxStepD = (589999/1000000 : ℝ) from rfl]
    rw [show effL (1:ℝ) 2 (1/20000) = 1/20000 from by
      unfold effL
      rw [if_neg (by push_cast; norm_num)]]
    rcases List.mem_cons.mp hx with h | hx2
    · subst h; exact ⟨by norm_num, by norm_num⟩
    rcases List.mem_cons.mp hx2 with h | hx3
    · subst h; exact ⟨by norm_num, by norm_num⟩
    exact absurd hx3 (List.not_mem_nil x)
  · rw [show diffs [(0:ℝ), 1/5, 3/5] = [1/5, 2/5] from by
      rw [show diffs [(0:ℝ), 1/5, 3/5] = [1/5 - 0, 3/5 - 1/5] from rfl]
      norm_num]
    rw [cv_ge_iff _ (by norm_num)]
    have hm : mean [(1/5 : ℝ), 2/5] = 3/10 := by
      unfold mean
      rw [show ([(1/5 : ℝ), 2/5]).sum = 3/5 from by
        simp only [List.sum_cons, List.sum_nil]
        norm_num]
      rw [show (([(1/5 : ℝ), 2/5]).length : ℝ) = 2 from by norm_num]
      norm_num
    rw [hm]
    unfold variance
    rw [hm]
    rw [show ([(1/5 : ℝ), 2/5]).map (fun x => (x - 3/10)^2) =
      [((1/5 : ℝ) - 3/10)^2, ((2/5 : ℝ) - 3/10)^2] from rfl]
    rw [show ([((1/5 : ℝ) - 3/10)^2, ((2/5 : ℝ) - 3/10)^2]).sum =
      ((1/5 : ℝ) - 3/10)^2 + ((2/5 : ℝ) - 3/10)^2 from by
        simp only [List.sum_cons, List.sum_nil]
        norm_num]
    rw [show (([(1/5 : ℝ), 2/5]).length : ℝ) = 2 from by norm_num]
    rw [abs_of_nonneg (by norm_num : (0:ℝ) ≤ 3/10)]
    norm_num
  · intro hcontra
    rw [enforce_eq _ _ _ _ _ (by norm_num)] at hcontra
    rw [show (lowerLimit false : ℝ) = 0 from rfl,
      show (upperLimit false : ℝ) = 1 from rfl] at hcontra
    rw [show ((1:ℝ) - 0) = 1 by norm_num] at hcontra
    rw [show (([(0:ℝ), 1/5, 3/5]).length - 1) = 2 from rfl] at hcontra
    rw [show minStepD = (1/20000 : ℝ) from rfl,
      show maxStepD = (589999/1000000 : ℝ) from rfl] at hcontra
    rw [c6_dRaw_eq] at hcontra
    rw [show effL (1:ℝ) 2 (1/20000) = 1/20000 from by
      unfold effL
      rw [if_neg (by push_cast; norm_num)]] at hcontra
    obtain ⟨lam, hmap, hsum⟩ := project_spec [(1/5 : ℝ), 2/5] 1 (1/20000)
      (589999/1000000) (1/10^12) (by norm_num) (by norm_num) 60
    have hmap2 : project [(1/5 : ℝ), 2/5] 1 (1/20000) (589999/1000000) (1/10^12) 60 =
        [clip (1/20000) (589999/1000000) (1/5 + lam),
          clip (1/20000) (589999/1000000) (2/5 + lam)] := by
      rw [hmap]
      rfl
    have hct : clampTotal [(1/5 : ℝ), 2/5] (1/20000) (589999/1000000) 1 = 1 := by
      unfold clampTotal
      rw [show (([(1/5 : ℝ), 2/5]).length : ℝ) = 2 from by norm_num]
      exact clip_of_mem (by norm_num) (by norm_num)
    rw [hmap2] at hcontra hsum
    rw [hct, c6_projErr_eq] at hsum
    simp only [List.sum_cons, List.sum_nil, add_zero] at hsum
    set a := clip (1/20000 : ℝ) (589999/1000000) (1/5 + lam) with ha_def
    set b := clip (1/20000 : ℝ) (589999/1000000) (2/5 + lam) with hb_def
    have hs := abs_le.mp hsum
    have hLU : (1/20000 : ℝ) ≤ 589999/1000000 := by norm_num
    have haL : (1/20000 : ℝ) ≤ a := lo_le_clip hLU _
    have haU : a ≤ 589999/1000000 := clip_le_hi _ _ _
    have hbU : b ≤ 589999/1000000 := clip_le_hi _ _ _
    have hab : a ≤ b := clip_mono _ _ (by linarith)
    have hkey : b = 589999/1000000 ∨ 1/5 + a ≤ b := by
      by_cases hU2 : (589999/1000000 : ℝ) ≤ 2/5 + lam
      · exact Or.inl (clip_of_ge hLU hU2)
      · push_neg at hU2
        have hbeq : b = max (1/20000 : ℝ) (2/5 + lam) := by
          rw [hb_def]
          unfold clip
          exact min_eq_right (max_le (by norm_num) hU2.le)
        rcases le_total (2/5 + lam) (1/20000 : ℝ) with hL2 | hL2
        · exfalso
          have hbL2 : b = 1/20000 := by rw [hbeq]; exact max_eq_left hL2
          have h1 := hs.1
          rw [hbL2] at h1 hab
          linarith
        · right
          have hbval : b = 2/5 + lam := by rw [hbeq]; exact max_eq_right hL2
          have hamax : a ≤ max (1/20000 : ℝ) (1/5 + lam) := clip_le_max _ _ _
          rcases le_total (1/5 + lam) (1/20000 : ℝ) with h5 | h5
          · have ha2 : a ≤ 1/20000 := by rw [max_eq_left h5] at hamax; exact hamax
            have h1 := hs.1
            linarith
          · have ha2 : a ≤ 1/5 + lam := by rw [max_eq_right h5] at hamax; exact hamax
            linarith
    have hgap : a + 17/100 ≤ min b (1 - a) := by
      rcases hkey with hbU2 | hba5
      · have h2 := hs.2
        rw [hbU2] at h2
        refine le_min ?_ ?_
        · rw [hbU2]; linarith
        · linarith
      · have h2 := hs.2
        exact le_min (by linarith) (by linarith)
    have hdiffs : diffs (reconstruct (0:ℝ) 1 [a, b]) = [a, min b (1 - a)] := by
      rw [show ([a, b] : List ℝ) = [a] ++ [b] from rfl, diffs_reconstruct]
      rw [show ([a] : List ℝ).sum = a from by simp]
      rw [show (1 : ℝ) - 0 - a = 1 - a from by ring]
      rfl
    have hquick : (0:ℝ) ≤ a + min b (1 - a) := by linarith
    have hub1 : a + min b (1 - a) ≤ 1 := by
      have := min_le_right b (1 - a)
      linarith
    have hmean_eq : mean [a, min b (1 - a)] = (a + min b (1 - a)) / 2 := by
      unfold mean
      rw [show ([a, min b (1 - a)] : List ℝ).sum = a + min b (1 - a) from by simp]
      rw [show (([a, min b (1 - a)] : List ℝ).length : ℝ) = 2 from by norm_num]
    have hvar_eq : variance [a, min b (1 - a)] = (min b (1 - a) - a)^2 / 4 := by
      unfold variance
      rw [hmean_eq]
      rw [show ([a, min b (1 - a)] : List ℝ).map
          (fun x => (x - (a + min b (1 - a)) / 2) ^ 2) =
          [(a - (a + min b (1 - a)) / 2) ^ 2,
            (min b (1 - a) - (a + min b (1 - a)) / 2) ^ 2] from rfl]
      rw [show ([(a - (a + min b (1 - a)) / 2) ^ 2,
          (min b (1 - a) - (a + min b (1 - a)) / 2) ^ 2] : List ℝ).sum =
          (a - (a + min b (1 - a)) / 2) ^ 2 +
            (min b (1 - a) - (a + min b (1 - a)) / 2) ^ 2 from by simp]
      rw [show (([a, min b (1 - a)] : List ℝ).length : ℝ) = 2 from by norm_num]
      ring
    have hcv2 : (1/10 : ℝ) ≤ cv [a, min b (1 - a)] := by
      rw [cv_ge_iff _ (by norm_num)]
      rw [hmean_eq, hvar_eq]
      rw [abs_of_nonneg (by linarith : (0:ℝ) ≤ (a + min b (1 - a)) / 2)]
      have h1 : 1/10 * ((a + min b (1 - a)) / 2 + 1/10^12) ≤ 51/1000 := by linarith
      have h0 : (0:ℝ) ≤ 1/10 * ((a + min b (1 - a)) / 2 + 1/10^12) := by linarith
      have hx2 : (1/10 * ((a + min b (1 - a)) / 2 + 1/10^12))^2 ≤ (51/1000 : ℝ)^2 :=
        pow_le_pow_left h0 h1 2
      have hg2 : (17/100 : ℝ)^2 ≤ (min b (1 - a) - a)^2 :=
        pow_le_pow_left (by norm_num) (by linarith) 2
      norm_num at hx2 hg2 ⊢
      linarith
    have hnoop : antiFlatten (reconstruct (0:ℝ) 1 [a, b]) false false (1/20000)
        (589999/1000000) (1/10) (1/5) = reconstruct (0:ℝ) 1 [a, b] :=
      antiFlatten_noop _ _ _ _ _ _ _ (Or.inr (Or.inr (by rw [hdiffs]; exact hcv2)))
    rw [hnoop] at hcontra
    rw [reconstruct_cons, reconstruct_cons, reconstruct_nil] at hcontra
    rw [List.forall₂_cons, List.forall₂_cons] at hcontra
    obtain ⟨-, h2, -⟩ := hcontra
    have h3 := (abs_le.mp h2).1
    linarith [hs.1, hbU]

theorem C6_witness :
    List.Forall₂ (fun a b => |a - b| ≤
        projErr (diffs [(0:ℝ), 21/50, 1])
          (effL (upperLimit false - lowerLimit false) (([(0:ℝ), 21/50, 1]).length - 1)
            minStepD)
          maxStepD (1 / 10 ^ 12) 60)
      [(0:ℝ), 21/50, 1] (enforce [(0:ℝ), 21/50, 1] false false minStepD maxStepD) :=
  C6_amended_idempotence [(0:ℝ), 21/50, 1] false false
    (by norm_num)
    (by norm_num [List.chain'_cons, List.chain'_singleton])
    rfl
    rfl
    (by
      intro x hx
      rw [show diffs [(0:ℝ), 21/50, 1] = [21/50 - 0, 1 - 21/50] from rfl] at hx
      rw [show (upperLimit false : ℝ) = 1 from rfl,
        show (lowerLimit false : ℝ) = 0 from rfl]
      rw [show ((1:ℝ) - 0) = 1 by norm_num]
      rw [show (([(0:ℝ), 21/50, 1]).length - 1) = 2 from rfl]
      rw [show minStepD = (1/20000 : ℝ) from rfl,
        show maxStepD = (589999/1000000 : ℝ) from rfl]
      rw [show effL (1:ℝ) 2 (1/20000) = 1/20000 from by
        unfold effL
        rw [if_neg (by push_cast; norm_num)]]
      rcases List.mem_cons.mp hx with h | hx2
      · subst h; exact ⟨by norm_num, by norm_num⟩
      rcases List.mem_cons.mp hx2 with h | hx3
      · subst h; exact ⟨by norm_num, by norm_num⟩
      exact absurd hx3 (List.not_mem_nil x))
    (by
      rw [show diffs [(0:ℝ), 21/50, 1] = [21/50, 29/50] from by
        rw [show diffs [(0:ℝ), 21/50, 1] = [21/50 - 0, 1 - 21/50] from rfl]
        norm_num]
      rw [show (upperLimit false : ℝ) = 1 from rfl,
        show (lowerLimit false : ℝ) = 0 from rfl]
      rw [show ((1:ℝ) - 0) = 1 by norm_num]
      rw [show (([(0:ℝ), 21/50, 1]).length - 1) = 2 from rfl]
      rw [show minStepD = (1/20000 : ℝ) from rfl,
        show maxStepD = (589999/1000000 : ℝ) from rfl]
      rw [show effL (1:ℝ) 2 (1/20000) = 1/20000 from by
        unfold effL
        rw [if_neg (by push_cast; norm_num)]]
      rw [show projErr [(21/50 : ℝ), 29/50] (1/20000) (589999/1000000) (1/10^12) 60 =
          1/10^12 from by
        unfold projErr
        rw [show listMin [(21/50 : ℝ), 29/50] = 21/50 from by
          show min (21/50 : ℝ) (29/50) = 21/50
          norm_num]
        rw [show listMax [(21/50 : ℝ), 29/50] = 29/50 from by
          show max (21/50 : ℝ) (29/50) = 29/50
          norm_num]
        rw [show (([(21/50 : ℝ), 29/50]).length : ℝ) = 2 from by norm_num]
        rw [max_eq_left (by norm_num)]]
      have hm : mean [(21/50 : ℝ), 29/50] = 1/2 := by
        unfold mean
        rw [show ([(21/50 : ℝ), 29/50]).sum = 1 from by
          simp only [List.sum_cons, List.sum_nil]
          norm_num]
        rw [show (([(21/50 : ℝ), 29/50]).length : ℝ) = 2 from by norm_num]
      rw [hm]
      unfold variance
      rw [hm]
      rw [show ([(21/50 : ℝ), 29/50]).map (fun x => (x - 1/2)^2) =
        [((21/50 : ℝ) - 1/2)^2, ((29/50 : ℝ) - 1/2)^2] from rfl]
      rw [show ([((21/50 : ℝ) - 1/2)^2, ((29/50 : ℝ) - 1/2)^2]).sum =
        ((21/50 : ℝ) - 1/2)^2 + ((29/50 : ℝ) - 1/2)^2 from by
          simp only [List.sum_cons, List.sum_nil]
          norm_num]
      rw [show (([(21/50 : ℝ), 29/50]).length : ℝ) = 2 from by norm_num]
      rw [abs_of_nonneg (by norm_num : (0:ℝ) ≤ 1/2)]
      norm_num)

theorem foldl_max_le_of_le {K : Type*} [LinearOrderedField K] {c : K} :
    ∀ (l : List K) (b : K), b ≤ c → (∀ x ∈ l, x ≤ c) → l.foldl max b ≤ c := by
  intro l
  induction l with
  | nil => intro b hb _; exact hb
  | cons y t ih =>
    intro b hb h
    exact ih (max b y) (max_le hb (h y (by simp))) (fun x hx => h x (by simp [hx]))

theorem listMax_le_of_forall {K : Type*} [LinearOrderedField K] {l : List K} {c : K}
    (hne : l ≠ []) (h : ∀ x ∈ l, x ≤ c) : listMax l ≤ c := by
  cases l with
  | nil => exact absurd rfl hne
  | cons y t => exact foldl_max_le_of_le t y (h y (by simp)) (fun x hx => h x (by simp [hx]))

theorem le_foldl_min_of_le {K : Type*} [LinearOrderedField K] {c : K} :
    ∀ (l : List K) (b : K), c ≤ b → (∀ x ∈ l, c ≤ x) → c ≤ l.foldl min b := by
  intro l
  induction l with
  | nil => intro b hb _; exact hb
  | cons y t ih =>
    intro b hb h
    exact ih (min b y) (le_min hb (h y (by simp))) (fun x hx => h x (by simp [hx]))

theorem forall_le_listMin {K : Type*} [LinearOrderedField K] {l : List K} {c : K}
    (hne : l ≠ []) (h : ∀ x ∈ l, c ≤ x) : c ≤ listMin l := by
  cases l with
  | nil => exact absurd rfl hne
  | cons y t => exact le_foldl_min_of_le t y (h y (by simp)) (fun x hx => h x (by simp [hx]))

theorem clip_eq_of_strict {K : Type*} [LinearOrderedField K] {lo hi x : K}
    (h1 : lo < clip lo hi x) (h2 : clip lo hi x < hi) : clip lo hi x = x := by
  have hlh : lo ≤ hi := le_trans h1.le (clip_le_hi _ _ _)
  rcases le_total x lo with h | h
  · rw [clip_of_le hlh h] at h1
    exact absurd h1 (lt_irrefl _)
  · rcases le_total hi x with h3 | h3
    · rw [clip_of_ge hlh h3] at h2
      exact absurd h2 (lt_irrefl _)
    · exact clip_of_mem h h3

set_option maxHeartbeats 1600000 in
theorem c8_reconstruct_spec (a v0 v1 v2 v3 v4 : ℝ)
    (h10 : |10 * a - 1| ≤ 1/10^12)
    (hv0a : 0 ≤ v0) (hv0b : v0 ≤ 1/2)
    (hv1a : 0 ≤ v1) (hv1b : v1 ≤ 1/2)
    (hv2a : 0 ≤ v2) (hv2b : v2 ≤ 1/2)
    (hv3a : 0 ≤ v3) (hv3b : v3 ≤ 1/2)
    (hv4a : 0 ≤ v4) (hv4b : v4 ≤ 1/2)
    (hv04 : v0 < v4) :
    0 < cv (diffs (reconstruct (0:ℝ) 1 (project [(1 - 1/5) * a + 1/5 * (v0 * (9 * a + min a (1 - 9 * a))), (1 - 1/5) * a + 1/5 * (v1 * (9 * a + min a (1 - 9 * a))), (1 - 1/5) * a + 1/5 * (v2 * (9 * a + min a (1 - 9 * a))), (1 - 1/5) * a + 1/5 * (v3 * (9 * a + min a (1 - 9 * a))), (1 - 1/5) * a + 1/5 * (v4 * (9 * a + min a (1 - 9 * a))), (1 - 1/5) * a + 1/5 * (v4 * (9 * a + min a (1 - 9 * a))), (1 - 1/5) * a + 1/5 * (v3 * (9 * a + min a (1 - 9 * a))), (1 - 1/5) * a + 1/5 * (v2 * (9 * a + min a (1 - 9 * a))), (1 - 1/5) * a + 1/5 * (v1 * (9 * a + min a (1 - 9 * a))), (1 - 1/5) * (min a (1 - 9 * a)) + 1/5 * (v0 * (9 * a + min a (1 - 9 * a)))] 1 (1/20000)
        (589999/1000000) (1/10^12) 60))) ∧
    List.Chain' (· ≤ ·) (reconstruct (0:ℝ) 1 (project [(1 - 1/5) * a + 1/5 * (v0 * (9 * a + min a (1 - 9 * a))), (1 - 1/5) * a + 1/5 * (v1 * (9 * a + min a (1 - 9 * a))), (1 - 1/5) * a + 1/5 * (v2 * (9 * a + min a (1 - 9 * a))), (1 - 1/5) * a + 1/5 * (v3 * (9 * a + min a (1 - 9 * a))), (1 - 1/5) * a + 1/5 * (v4 * (9 * a + min a (1 - 9 * a))), (1 - 1/5) * a + 1/5 * (v4 * (9 * a + min a (1 - 9 * a))), (1 - 1/5) * a + 1/5 * (v3 * (9 * a + min a (1 - 9 * a))), (1 - 1/5) * a + 1/5 * (v2 * (9 * a + min a (1 - 9 * a))), (1 - 1/5) * a + 1/5 * (v1 * (9 * a + min a (1 - 9 * a))), (1 - 1/5) * (min a (1 - 9 * a)) + 1/5 * (v0 * (9 * a + min a (1 - 9 * a)))] 1 (1/20000)
        (589999/1000000) (1/10^12) 60)) ∧
    (reconstruct (0:ℝ) 1 (project [(1 - 1/5) * a + 1/5 * (v0 * (9 * a + min a (1 - 9 * a))), (1 - 1/5) * a + 1/5 * (v1 * (9 * a + min a (1 - 9 * a))), (1 - 1/5) * a + 1/5 * (v2 * (9 * a + min a (1 - 9 * a))), (1 - 1/5) * a + 1/5 * (v3 * (9 * a + min a (1 - 9 * a))), (1 - 1/5) * a + 1/5 * (v4 * (9 * a + min a (1 - 9 * a))), (1 - 1/5) * a + 1/5 * (v4 * (9 * a + min a (1 - 9 * a))), (1 - 1/5) * a + 1/5 * (v3 * (9 * a + min a (1 - 9 * a))), (1 - 1/5) * a + 1/5 * (v2 * (9 * a + min a (1 - 9 * a))), (1 - 1/5) * a + 1/5 * (v1 * (9 * a + min a (1 - 9 * a))), (1 - 1/5) * (min a (1 - 9 * a)) + 1/5 * (v0 * (9 * a + min a (1 - 9 * a)))] 1 (1/20000)
        (589999/1000000) (1/10^12) 60)).head? = some 0 ∧
    (∀ v, (reconstruct (0:ℝ) 1 (project [(1 - 1/5) * a + 1/5 * (v0 * (9 * a + min a (1 - 9 * a))), (1 - 1/5) * a + 1/5 * (v1 * (9 * a + min a (1 - 9 * a))), (1 - 1/5) * a + 1/5 * (v2 * (9 * a + min a (1 - 9 * a))), (1 - 1/5) * a + 1/5 * (v3 * (9 * a + min a (1 - 9 * a))), (1 - 1/5) * a + 1/5 * (v4 * (9 * a + min a (1 - 9 * a))), (1 - 1/5) * a + 1/5 * (v4 * (9 * a + min a (1 - 9 * a))), (1 - 1/5) * a + 1/5 * (v3 * (9 * a + min a (1 - 9 * a))), (1 - 1/5) * a + 1/5 * (v2 * (9 * a + min a (1 - 9 * a))), (1 - 1/5) * a + 1/5 * (v1 * (9 * a + min a (1 - 9 * a))), (1 - 1/5) * (min a (1 - 9 * a)) + 1/5 * (v0 * (9 * a + min a (1 - 9 * a)))] 1 (1/20000)
        (589999/1000000) (1/10^12) 60)).getLast? = some v → v ≤ 1) ∧
    (∀ x ∈ diffs (reconstruct (0:ℝ) 1 (project [(1 - 1/5) * a + 1/5 * (v0 * (9 * a + min a (1 - 9 * a))), (1 - 1/5) * a + 1/5 * (v1 * (9 * a + min a (1 - 9 * a))), (1 - 1/5) * a + 1/5 * (v2 * (9 * a + min a (1 - 9 * a))), (1 - 1/5) * a + 1/5 * (v3 * (9 * a + min a (1 - 9 * a))), (1 - 1/5) * a + 1/5 * (v4 * (9 * a + min a (1 - 9 * a))), (1 - 1/5) * a + 1/5 * (v4 * (9 * a + min a (1 - 9 * a))), (1 - 1/5) * a + 1/5 * (v3 * (9 * a + min a (1 - 9 * a))), (1 - 1/5) * a + 1/5 * (v2 * (9 * a + min a (1 - 9 * a))), (1 - 1/5) * a + 1/5 * (v1 * (9 * a + min a (1 - 9 * a))), (1 - 1/5) * (min a (1 - 9 * a)) + 1/5 * (v0 * (9 * a + min a (1 - 9 * a)))] 1 (1/20000)
        (589999/1000000) (1/10^12) 60)),
      1/20000 ≤ x ∧ x ≤ 589999/1000000) := by
  have hLU : (1/20000 : ℝ) ≤ 589999/1000000 := by norm_num
  have h10m := abs_le.mp h10
  have haLo : (99/1000 : ℝ) ≤ a := by linarith only [h10m.1]
  have haHi : a ≤ 1/10 + 1/10^13 := by linarith only [h10m.2]
  have haHi101 : a ≤ 101/1000 := by linarith only [haHi]
  have hmLo : (99/1000 : ℝ) ≤ min a (1 - 9 * a) :=
    le_min (by linarith only [haLo]) (by linarith only [haHi])
  have hmHi : min a (1 - 9 * a) ≤ a := min_le_left _ _
  have hTlb : (99/100 : ℝ) ≤ 9 * a + min a (1 - 9 * a) := by linarith only [haLo, hmLo]
  have hTub : 9 * a + min a (1 - 9 * a) ≤ 1 + 1/10^12 := by linarith only [hmHi, h10m.2]
  have hTpos : (0 : ℝ) < 9 * a + min a (1 - 9 * a) := by linarith only [hTlb]
  -- generic bound for a blended increment entry
  have hent : ∀ d w : ℝ, 99/1000 ≤ d → d ≤ 101/1000 → 0 ≤ w → w ≤ 1/2 →
      79/1000 ≤ (1 - 1/5) * d + 1/5 * (w * (9 * a + min a (1 - 9 * a))) ∧
      (1 - 1/5) * d + 1/5 * (w * (9 * a + min a (1 - 9 * a))) ≤ 181/1000 := by
    intro d w hd1a hd2a hw1 hw2
    constructor
    · have hx : 0 ≤ w * (9 * a + min a (1 - 9 * a)) := mul_nonneg hw1 hTpos.le
      linarith only [hx, hd1a]
    · have hx : w * (9 * a + min a (1 - 9 * a)) ≤ (1/2) * (1 + 1/10^12) :=
        mul_le_mul hw2 hTub hTpos.le (by norm_num)
      linarith only [hx, hd2a]
  have htbq0 := hent a v0 haLo haHi101 hv0a hv0b
  have htbq1 := hent a v1 haLo haHi101 hv1a hv1b
  have htbq2 := hent a v2 haLo haHi101 hv2a hv2b
  have htbq3 := hent a v3 haLo haHi101 hv3a hv3b
  have htbq4 := hent a v4 haLo haHi101 hv4a hv4b
  have htbq9 := hent (min a (1 - 9 * a)) v0 hmLo (le_trans hmHi haHi101) hv0a hv0b
  -- the projection of the tilted vector
  obtain ⟨lam2, hmap2, hsum2⟩ := project_spec [(1 - 1/5) * a + 1/5 * (v0 * (9 * a + min a (1 - 9 * a))), (1 - 1/5) * a + 1/5 * (v1 * (9 * a + min a (1 - 9 * a))), (1 - 1/5) * a + 1/5 * (v2 * (9 * a + min a (1 - 9 * a))), (1 - 1/5) * a + 1/5 * (v3 * (9 * a + min a (1 - 9 * a))), (1 - 1/5) * a + 1/5 * (v4 * (9 * a + min a (1 - 9 * a))), (1 - 1/5) * a + 1/5 * (v4 * (9 * a + min a (1 - 9 * a))), (1 - 1/5) * a + 1/5 * (v3 * (9 * a + min a (1 - 9 * a))), (1 - 1/5) * a + 1/5 * (v2 * (9 * a + min a (1 - 9 * a))), (1 - 1/5) * a + 1/5 * (v1 * (9 * a + min a (1 - 9 * a))), (1 - 1/5) * (min a (1 - 9 * a)) + 1/5 * (v0 * (9 * a + min a (1 - 9 * a)))] 1 (1/20000)
    (589999/1000000) (1/10^12) (by norm_num) (by norm_num) 60
  have hct2 : clampTotal [(1 - 1/5) * a + 1/5 * (v0 * (9 * a + min a (1 - 9 * a))), (1 - 1/5) * a + 1/5 * (v1 * (9 * a + min a (1 - 9 * a))), (1 - 1/5) * a + 1/5 * (v2 * (9 * a + min a (1 - 9 * a))), (1 - 1/5) * a + 1/5 * (v3 * (9 * a + min a (1 - 9 * a))), (1 - 1/5) * a + 1/5 * (v4 * (9 * a + min a (1 - 9 * a))), (1 - 1/5) * a + 1/5 * (v4 * (9 * a + min a (1 - 9 * a))), (1 - 1/5) * a + 1/5 * (v3 * (9 * a + min a (1 - 9 * a))), (1 - 1/5) * a + 1/5 * (v2 * (9 * a + min a (1 - 9 * a))), (1 - 1/5) * a + 1/5 * (v1 * (9 * a + min a (1 - 9 * a))), (1 - 1/5) * (min a (1 - 9 * a)) + 1/5 * (v0 * (9 * a + min a (1 - 9 * a)))] (1/20000) (589999/1000000) 1 = 1 := by
    unfold clampTotal
    rw [show (([(1 - 1/5) * a + 1/5 * (v0 * (9 * a + min a (1 - 9 * a))), (1 - 1/5) * a + 1/5 * (v1 * (9 * a + min a (1 - 9 * a))), (1 - 1/5) * a + 1/5 * (v2 * (9 * a + min a (1 - 9 * a))), (1 - 1/5) * a + 1/5 * (v3 * (9 * a + min a (1 - 9 * a))), (1 - 1/5) * a + 1/5 * (v4 * (9 * a + min a (1 - 9 * a))), (1 - 1/5) * a + 1/5 * (v4 * (9 * a + min a (1 - 9 * a))), (1 - 1/5) * a + 1/5 * (v3 * (9 * a + min a (1 - 9 * a))), (1 - 1/5) * a + 1/5 * (v2 * (9 * a + min a (1 - 9 * a))), (1 - 1/5) * a + 1/5 * (v1 * (9 * a + min a (1 - 9 * a))), (1 - 1/5) * (min a (1 - 9 * a)) + 1/5 * (v0 * (9 * a + min a (1 - 9 * a)))] : List ℝ).length : ℝ) = 10 from by
      rw [show ([(1 - 1/5) * a + 1/5 * (v0 * (9 * a + min a (1 - 9 * a))), (1 - 1/5) * a + 1/5 * (v1 * (9 * a + min a (1 - 9 * a))), (1 - 1/5) * a + 1/5 * (v2 * (9 * a + min a (1 - 9 * a))), (1 - 1/5) * a + 1/5 * (v3 * (9 * a + min a (1 - 9 * a))), (1 - 1/5) * a + 1/5 * (v4 * (9 * a + min a (1 - 9 * a))), (1 - 1/5) * a + 1/5 * (v4 * (9 * a + min a (1 - 9 * a))), (1 - 1/5) * a + 1/5 * (v3 * (9 * a + min a (1 - 9 * a))), (1 - 1/5) * a + 1/5 * (v2 * (9 * a + min a (1 - 9 * a))), (1 - 1/5) * a + 1/5 * (v1 * (9 * a + min a (1 - 9 * a))), (1 - 1/5) * (min a (1 - 9 * a)) + 1/5 * (v0 * (9 * a + min a (1 - 9 * a)))] : List ℝ).length = 10 from rfl]
      norm_num]
    exact clip_of_mem (by norm_num) (by norm_num)
  have hpe2 : projErr [(1 - 1/5) * a + 1/5 * (v0 * (9 * a + min a (1 - 9 * a))), (1 - 1/5) * a + 1/5 * (v1 * (9 * a + min a (1 - 9 * a))), (1 - 1/5) * a + 1/5 * (v2 * (9 * a + min a (1 - 9 * a))), (1 - 1/5) * a + 1/5 * (v3 * (9 * a + min a (1 - 9 * a))), (1 - 1/5) * a + 1/5 * (v4 * (9 * a + min a (1 - 9 * a))), (1 - 1/5) * a + 1/5 * (v4 * (9 * a + min a (1 - 9 * a))), (1 - 1/5) * a + 1/5 * (v3 * (9 * a + min a (1 - 9 * a))), (1 - 1/5) * a + 1/5 * (v2 * (9 * a + min a (1 - 9 * a))), (1 - 1/5) * a + 1/5 * (v1 * (9 * a + min a (1 - 9 * a))), (1 - 1/5) * (min a (1 - 9 * a)) + 1/5 * (v0 * (9 * a + min a (1 - 9 * a)))] (1/20000) (589999/1000000) (1/10^12) 60 = 1/10^12 := by
    have hmaxb : listMax ([(1 - 1/5) * a + 1/5 * (v0 * (9 * a + min a (1 - 9 * a))), (1 - 1/5) * a + 1/5 * (v1 * (9 * a + min a (1 - 9 * a))), (1 - 1/5) * a + 1/5 * (v2 * (9 * a + min a (1 - 9 * a))), (1 - 1/5) * a + 1/5 * (v3 * (9 * a + min a (1 - 9 * a))), (1 - 1/5) * a + 1/5 * (v4 * (9 * a + min a (1 - 9 * a))), (1 - 1/5) * a + 1/5 * (v4 * (9 * a + min a (1 - 9 * a))), (1 - 1/5) * a + 1/5 * (v3 * (9 * a + min a (1 - 9 * a))), (1 - 1/5) * a + 1/5 * (v2 * (9 * a + min a (1 - 9 * a))), (1 - 1/5) * a + 1/5 * (v1 * (9 * a + min a (1 - 9 * a))), (1 - 1/5) * (min a (1 - 9 * a)) + 1/5 * (v0 * (9 * a + min a (1 - 9 * a)))] : List ℝ) ≤ 1 := by
      refine listMax_le_of_forall (by simp) ?_
      intro x hx
      rcases List.mem_cons.mp hx with h | hx
      · subst h
        exact le_trans htbq0.2 (by norm_num)
      rcases List.mem_cons.mp hx with h | hx
      · subst h
        exact le_trans htbq1.2 (by norm_num)
      rcases List.mem_cons.mp hx with h | hx
      · subst h
        exact le_trans htbq2.2 (by norm_num)
      rcases List.mem_cons.mp hx with h | hx
      · subst h
        exact le_trans htbq3.2 (by norm_num)
      rcases List.mem_cons.mp hx with h | hx
      · subst h
        exact le_trans htbq4.2 (by norm_num)
      rcases List.mem_cons.mp hx with h | hx
      · subst h
        exact le_trans htbq4.2 (by norm_num)
      rcases List.mem_cons.mp hx with h | hx
      · subst h
        exact le_trans htbq3.2 (by norm_num)
      rcases List.mem_cons.mp hx with h | hx
      · subst h
        exact le_trans htbq2.2 (by norm_num)
      rcases List.mem_cons.mp hx with h | hx
      · subst h
        exact le_trans htbq1.2 (by norm_num)
      rcases List.mem_cons.mp hx with h | hx
      · subst h
        exact le_trans htbq9.2 (by norm_num)
      exact absurd hx (List.not_mem_nil x)
    have hminb : (0:ℝ) ≤ listMin ([(1 - 1/5) * a + 1/5 * (v0 * (9 * a + min a (1 - 9 * a))), (1 - 1/5) * a + 1/5 * (v1 * (9 * a + min a (1 - 9 * a))), (1 - 1/5) * a + 1/5 * (v2 * (9 * a + min a (1 - 9 * a))), (1 - 1/5) * a + 1/5 * (v3 * (9 * a + min a (1 - 9 * a))), (1 - 1/5) * a + 1/5 * (v4 * (9 * a + min a (1 - 9 * a))), (1 - 1/5) * a + 1/5 * (v4 * (9 * a + min a (1 - 9 * a))), (1 - 1/5) * a + 1/5 * (v3 * (9 * a + min a (1 - 9 * a))), (1 - 1/5) * a + 1/5 * (v2 * (9 * a + min a (1 - 9 * a))), (1 - 1/5) * a + 1/5 * (v1 * (9 * a + min a (1 - 9 * a))), (1 - 1/5) * (min a (1 - 9 * a)) + 1/5 * (v0 * (9 * a + min a (1 - 9 * a)))] : List ℝ) := by
      refine forall_le_listMin (by simp) ?_
      intro x hx
      rcases List.mem_cons.mp hx with h | hx
      · subst h
        exact le_trans (by norm_num) htbq0.1
      rcases List.mem_cons.mp hx with h | hx
      · subst h
        exact le_trans (by norm_num) htbq1.1
      rcases List.mem_cons.mp hx with h | hx
      · subst h
        exact le_trans (by norm_num) htbq2.1
      rcases List.mem_cons.mp hx with h | hx
      · subst h
        exact le_trans (by norm_num) htbq3.1
      rcases List.mem_cons.mp hx with h | hx
      · subst h
        exact le_trans (by norm_num) htbq4.1
      rcases List.mem_cons.mp hx with h | hx
      · subst h
        exact le_trans (by norm_num) htbq4.1
      rcases List.mem_cons.mp hx with h | hx
      · subst h
        exact le_trans (by norm_num) htbq3.1
      rcases List.mem_cons.mp hx with h | hx
      · subst h
        exact le_trans (by norm_num) htbq2.1
      rcases List.mem_cons.mp hx with h | hx
      · subst h
        exact le_trans (by norm_num) htbq1.1
      rcases List.mem_cons.mp hx with h | hx
      · subst h
        exact le_trans (by norm_num) htbq9.1
      exact absurd hx (List.not_mem_nil x)
    unfold projErr
    rw [show (([(1 - 1/5) * a + 1/5 * (v0 * (9 * a + min a (1 - 9 * a))), (1 - 1/5) * a + 1/5 * (v1 * (9 * a + min a (1 - 9 * a))), (1 - 1/5) * a + 1/5 * (v2 * (9 * a + min a (1 - 9 * a))), (1 - 1/5) * a + 1/5 * (v3 * (9 * a + min a (1 - 9 * a))), (1 - 1/5) * a + 1/5 * (v4 * (9 * a + min a (1 - 9 * a))), (1 - 1/5) * a + 1/5 * (v4 * (9 * a + min a (1 - 9 * a))), (1 - 1/5) * a + 1/5 * (v3 * (9 * a + min a (1 - 9 * a))), (1 - 1/5) * a + 1/5 * (v2 * (9 * a + min a (1 - 9 * a))), (1 - 1/5) * a + 1/5 * (v1 * (9 * a + min a (1 - 9 * a))), (1 - 1/5) * (min a (1 - 9 * a)) + 1/5 * (v0 * (9 * a + min a (1 - 9 * a)))] : List ℝ).length : ℝ) = 10 from by
      rw [show ([(1 - 1/5) * a + 1/5 * (v0 * (9 * a + min a (1 - 9 * a))), (1 - 1/5) * a + 1/5 * (v1 * (9 * a + min a (1 - 9 * a))), (1 - 1/5) * a + 1/5 * (v2 * (9 * a + min a (1 - 9 * a))), (1 - 1/5) * a + 1/5 * (v3 * (9 * a + min a (1 - 9 * a))), (1 - 1/5) * a + 1/5 * (v4 * (9 * a + min a (1 - 9 * a))), (1 - 1/5) * a + 1/5 * (v4 * (9 * a + min a (1 - 9 * a))), (1 - 1/5) * a + 1/5 * (v3 * (9 * a + min a (1 - 9 * a))), (1 - 1/5) * a + 1/5 * (v2 * (9 * a + min a (1 - 9 * a))), (1 - 1/5) * a + 1/5 * (v1 * (9 * a + min a (1 - 9 * a))), (1 - 1/5) * (min a (1 - 9 * a)) + 1/5 * (v0 * (9 * a + min a (1 - 9 * a)))] : List ℝ).length = 10 from rfl]
      norm_num]
    have h60 : (2:ℝ)^60 = 1152921504606846976 := by norm_num
    rw [max_eq_left (by
      rw [h60]
      linarith only [hmaxb, hminb])]
  set q0 := clip (1/20000 : ℝ) (589999/1000000) ((1 - 1/5) * a + 1/5 * (v0 * (9 * a + min a (1 - 9 * a))) + lam2) with hq0def
  set q1 := clip (1/20000 : ℝ) (589999/1000000) ((1 - 1/5) * a + 1/5 * (v1 * (9 * a + min a (1 - 9 * a))) + lam2) with hq1def
  set q2 := clip (1/20000 : ℝ) (589999/1000000) ((1 - 1/5) * a + 1/5 * (v2 * (9 * a + min a (1 - 9 * a))) + lam2) with hq2def
  set q3 := clip (1/20000 : ℝ) (589999/1000000) ((1 - 1/5) * a + 1/5 * (v3 * (9 * a + min a (1 - 9 * a))) + lam2) with hq3def
  set q4 := clip (1/20000 : ℝ) (589999/1000000) ((1 - 1/5) * a + 1/5 * (v4 * (9 * a + min a (1 - 9 * a))) + lam2) with hq4def
  set q9 := clip (1/20000 : ℝ) (589999/1000000) ((1 - 1/5) * (min a (1 - 9 * a)) + 1/5 * (v0 * (9 * a + min a (1 - 9 * a))) + lam2) with hq9def
  have hmap2b : project [(1 - 1/5) * a + 1/5 * (v0 * (9 * a + min a (1 - 9 * a))), (1 - 1/5) * a + 1/5 * (v1 * (9 * a + min a (1 - 9 * a))), (1 - 1/5) * a + 1/5 * (v2 * (9 * a + min a (1 - 9 * a))), (1 - 1/5) * a + 1/5 * (v3 * (9 * a + min a (1 - 9 * a))), (1 - 1/5) * a + 1/5 * (v4 * (9 * a + min a (1 - 9 * a))), (1 - 1/5) * a + 1/5 * (v4 * (9 * a + min a (1 - 9 * a))), (1 - 1/5) * a + 1/5 * (v3 * (9 * a + min a (1 - 9 * a))), (1 - 1/5) * a + 1/5 * (v2 * (9 * a + min a (1 - 9 * a))), (1 - 1/5) * a + 1/5 * (v1 * (9 * a + min a (1 - 9 * a))), (1 - 1/5) * (min a (1 - 9 * a)) + 1/5 * (v0 * (9 * a + min a (1 - 9 * a)))] 1 (1/20000) (589999/1000000) (1/10^12) 60 =
      [q0, q1, q2, q3, q4, q4, q3, q2, q1, q9] := by
    rw [hmap2]
    rfl
  rw [hmap2b, hct2, hpe2] at hsum2
  simp only [List.sum_cons, List.sum_nil] at hsum2
  rw [show q0 + (q1 + (q2 + (q3 + (q4 + (q4 + (q3 + (q2 + (q1 + (q9 + 0))))))))) - 1 =
    q0 + q1 + q2 + q3 + q4 + q4 + q3 + q2 + q1 + q9 - 1 from by ring] at hsum2
  have hs2 := abs_le.mp hsum2
  have hq0L : (1/20000 : ℝ) ≤ q0 := lo_le_clip hLU _
  have hq0U : q0 ≤ 589999/1000000 := clip_le_hi _ _ _
  have hq1L : (1/20000 : ℝ) ≤ q1 := lo_le_clip hLU _
  have hq1U : q1 ≤ 589999/1000000 := clip_le_hi _ _ _
  have hq2L : (1/20000 : ℝ) ≤ q2 := lo_le_clip hLU _
  have hq2U : q2 ≤ 589999/1000000 := clip_le_hi _ _ _
  have hq3L : (1/20000 : ℝ) ≤ q3 := lo_le_clip hLU _
  have hq3U : q3 ≤ 589999/1000000 := clip_le_hi _ _ _
  have hq4L : (1/20000 : ℝ) ≤ q4 := lo_le_clip hLU _
  have hq4U : q4 ≤ 589999/1000000 := clip_le_hi _ _ _
  have hq9L : (1/20000 : ℝ) ≤ q9 := lo_le_clip hLU _
  have hq9U : q9 ≤ 589999/1000000 := clip_le_hi _ _ _
  -- every coordinate lies between the clipped images of the entry bounds
  set cLo := clip (1/20000 : ℝ) (589999/1000000) (79/1000 + lam2) with hcLodef
  set cHi := clip (1/20000 : ℝ) (589999/1000000) (181/1000 + lam2) with hcHidef
  have hinq0 : cLo ≤ q0 ∧ q0 ≤ cHi :=
    ⟨clip_mono _ _ (by linarith only [htbq0.1]),
      clip_mono _ _ (by linarith only [htbq0.2])⟩
  have hinq1 : cLo ≤ q1 ∧ q1 ≤ cHi :=
    ⟨clip_mono _ _ (by linarith only [htbq1.1]),
      clip_mono _ _ (by linarith only [htbq1.2])⟩
  have hinq2 : cLo ≤ q2 ∧ q2 ≤ cHi :=
    ⟨clip_mono _ _ (by linarith only [htbq2.1]),
      clip_mono _ _ (by linarith only [htbq2.2])⟩
  have hinq3 : cLo ≤ q3 ∧ q3 ≤ cHi :=
    ⟨clip_mono _ _ (by linarith only [htbq3.1]),
      clip_mono _ _ (by linarith only [htbq3.2])⟩
  have hinq4 : cLo ≤ q4 ∧ q4 ≤ cHi :=
    ⟨clip_mono _ _ (by linarith only [htbq4.1]),
      clip_mono _ _ (by linarith only [htbq4.2])⟩
  have hinq9 : cLo ≤ q9 ∧ q9 ≤ cHi :=
    ⟨clip_mono _ _ (by linarith only [htbq9.1]),
      clip_mono _ _ (by linarith only [htbq9.2])⟩
  have hwidth : cHi - cLo ≤ 102/1000 := by
    have h := clip_lipschitz (1/20000 : ℝ) (589999/1000000)
      (181/1000 + lam2) (79/1000 + lam2)
    rw [show (181/1000 : ℝ) + lam2 - (79/1000 + lam2) = 102/1000 from by ring] at h
    have h2 := (abs_le.mp (h.trans (le_of_eq (abs_of_nonneg (by norm_num))))).2
    exact h2
  have hq0lb : (8/1000 : ℝ) ≤ q0 := by
    linarith only [hs2.1, hwidth, hinq0.1, hinq0.2, hinq1.1, hinq1.2, hinq2.1, hinq2.2, hinq3.1, hinq3.2, hinq4.1, hinq4.2, hinq9.1, hinq9.2]
  have hq0ub : q0 ≤ 192/1000 := by
    linarith only [hs2.2, hwidth, hinq0.1, hinq0.2, hinq1.1, hinq1.2, hinq2.1, hinq2.2, hinq3.1, hinq3.2, hinq4.1, hinq4.2, hinq9.1, hinq9.2]
  have hq4lb : (8/1000 : ℝ) ≤ q4 := by
    linarith only [hs2.1, hwidth, hinq0.1, hinq0.2, hinq1.1, hinq1.2, hinq2.1, hinq2.2, hinq3.1, hinq3.2, hinq4.1, hinq4.2, hinq9.1, hinq9.2]
  have hq4ub : q4 ≤ 192/1000 := by
    linarith only [hs2.2, hwidth, hinq0.1, hinq0.2, hinq1.1, hinq1.2, hinq2.1, hinq2.2, hinq3.1, hinq3.2, hinq4.1, hinq4.2, hinq9.1, hinq9.2]
  have hq9lb : (8/1000 : ℝ) ≤ q9 := by
    linarith only [hs2.1, hwidth, hinq0.1, hinq0.2, hinq1.1, hinq1.2, hinq2.1, hinq2.2, hinq3.1, hinq3.2, hinq4.1, hinq4.2, hinq9.1, hinq9.2]
  have hq9ub : q9 ≤ 192/1000 := by
    linarith only [hs2.2, hwidth, hinq0.1, hinq0.2, hinq1.1, hinq1.2, hinq2.1, hinq2.2, hinq3.1, hinq3.2, hinq4.1, hinq4.2, hinq9.1, hinq9.2]
  -- the edge and center coordinates are strictly inside the clip range
  have hq0eq : q0 = (1 - 1/5) * a + 1/5 * (v0 * (9 * a + min a (1 - 9 * a))) + lam2 := by
    show clip (1/20000 : ℝ) (589999/1000000) ((1 - 1/5) * a + 1/5 * (v0 * (9 * a + min a (1 - 9 * a))) + lam2) =
      (1 - 1/5) * a + 1/5 * (v0 * (9 * a + min a (1 - 9 * a))) + lam2
    exact clip_eq_of_strict (lt_of_lt_of_le (by norm_num) hq0lb)
      (lt_of_le_of_lt hq0ub (by norm_num))
  have hq4eq : q4 = (1 - 1/5) * a + 1/5 * (v4 * (9 * a + min a (1 - 9 * a))) + lam2 := by
    show clip (1/20000 : ℝ) (589999/1000000) ((1 - 1/5) * a + 1/5 * (v4 * (9 * a + min a (1 - 9 * a))) + lam2) =
      (1 - 1/5) * a + 1/5 * (v4 * (9 * a + min a (1 - 9 * a))) + lam2
    exact clip_eq_of_strict (lt_of_lt_of_le (by norm_num) hq4lb)
      (lt_of_le_of_lt hq4ub (by norm_num))
  have hq04 : q0 < q4 := by
    rw [hq0eq, hq4eq]
    have h := mul_lt_mul_of_pos_right hv04 hTpos
    linarith only [h]
  -- increments of the reconstructed output
  have hdout : diffs (reconstruct (0:ℝ) 1 [q0, q1, q2, q3, q4, q4, q3, q2, q1, q9]) = [q0, q1, q2, q3, q4, q4, q3, q2, q1, min q9 (1 - (q0 + q1 + q2 + q3 + q4 + q4 + q3 + q2 + q1))] := by
    rw [show ([q0, q1, q2, q3, q4, q4, q3, q2, q1, q9] : List ℝ) = [q0, q1, q2, q3, q4, q4, q3, q2, q1] ++ [q9] from rfl, diffs_reconstruct]
    rw [show ([q0, q1, q2, q3, q4, q4, q3, q2, q1] : List ℝ).sum = q0 + q1 + q2 + q3 + q4 + q4 + q3 + q2 + q1 from by
      simp only [List.sum_cons, List.sum_nil]
      ring]
    rw [show (1:ℝ) - 0 - (q0 + q1 + q2 + q3 + q4 + q4 + q3 + q2 + q1) = 1 - (q0 + q1 + q2 + q3 + q4 + q4 + q3 + q2 + q1) from by ring]
    rfl
  have hlastlb : (1/20000 : ℝ) ≤ min q9 (1 - (q0 + q1 + q2 + q3 + q4 + q4 + q3 + q2 + q1)) :=
    le_min hq9L (by linarith only [hs2.2, hq9lb])
  have hlastub : min q9 (1 - (q0 + q1 + q2 + q3 + q4 + q4 + q3 + q2 + q1)) ≤ 589999/1000000 := (min_le_left _ _).trans hq9U
  rw [hmap2b]
  refine ⟨?_, ?_, ?_, ?_, ?_⟩
  · rw [hdout]
    exact cv_pos_of_variance_pos (variance_pos_of_mem_ne (by simp) (by simp)
      (ne_of_lt hq04))
  · rw [chain'_le_iff_diffs_nonneg, hdout]
    intro x hx
    rcases List.mem_cons.mp hx with h | hx
    · subst h
      exact le_trans (by norm_num) hq0L
    rcases List.mem_cons.mp hx with h | hx
    · subst h
      exact le_trans (by norm_num) hq1L
    rcases List.mem_cons.mp hx with h | hx
    · subst h
      exact le_trans (by norm_num) hq2L
    rcases List.mem_cons.mp hx with h | hx
    · subst h
      exact le_trans (by norm_num) hq3L
    rcases List.mem_cons.mp hx with h | hx
    · subst h
      exact le_trans (by norm_num) hq4L
    rcases List.mem_cons.mp hx with h | hx
    · subst h
      exact le_trans (by norm_num) hq4L
    rcases List.mem_cons.mp hx with h | hx
    · subst h
      exact le_trans (by norm_num) hq3L
    rcases List.mem_cons.mp hx with h | hx
    · subst h
      exact le_trans (by norm_num) hq2L
    rcases List.mem_cons.mp hx with h | hx
    · subst h
      exact le_trans (by norm_num) hq1L
    rcases List.mem_cons.mp hx with h | hx
    · subst h
      exact le_trans (by norm_num) hlastlb
    exact absurd hx (List.not_mem_nil x)
  · exact reconstruct_head _ _ _ (by simp)
  · intro v hv
    rw [reconstruct_getLast] at hv
    rw [← Option.some_inj.mp hv]
    exact min_le_right _ _
  · rw [hdout]
    intro x hx
    rcases List.mem_cons.mp hx with h | hx
    · subst h
      exact ⟨hq0L, hq0U⟩
    rcases List.mem_cons.mp hx with h | hx
    · subst h
      exact ⟨hq1L, hq1U⟩
    rcases List.mem_cons.mp hx with h | hx
    · subst h
      exact ⟨hq2L, hq2U⟩
    rcases List.mem_cons.mp hx with h | hx
    · subst h
      exact ⟨hq3L, hq3U⟩
    rcases List.mem_cons.mp hx with h | hx
    · subst h
      exact ⟨hq4L, hq4U⟩
    rcases List.mem_cons.mp hx with h | hx
    · subst h
      exact ⟨hq4L, hq4U⟩
    rcases List.mem_cons.mp hx with h | hx
    · subst h
      exact ⟨hq3L, hq3U⟩
    rcases List.mem_cons.mp hx with h | hx
    · subst h
      exact ⟨hq2L, hq2U⟩
    rcases List.mem_cons.mp hx with h | hx
    · subst h
      exact ⟨hq1L, hq1U⟩
    rcases List.mem_cons.mp hx with h | hx
    · subst h
      exact ⟨hlastlb, hlastub⟩
    exact absurd hx (List.not_mem_nil x)

set_option maxHeartbeats 1600000 in
/-- C8: at the perfectly uniform linear ramp from 0 to 1 with 11 points and
both bounds closed, enforce_cdf_constraints strictly increases the
coefficient of variation of the increments (the input increments are
uniform, so their cv is 0, and the Gaussian tilt of the anti-flatten
correction makes the center increment of the output strictly larger than
the edge increment, so the output cv is positive), while the output is
still non-decreasing, starts exactly at lower_limit, ends at most at
upper_limit, and keeps every increment inside [L_eff, max_step]. -/
theorem C8_flat_input_correction :
    cv (diffs [(0:ℝ), 1/10, 2/10, 3/10, 4/10, 5/10, 6/10, 7/10, 8/10, 9/10, 1]) <
      cv (diffs (enforce [(0:ℝ), 1/10, 2/10, 3/10, 4/10, 5/10, 6/10, 7/10, 8/10, 9/10, 1] false false minStepD maxStepD)) ∧
    List.Chain' (· ≤ ·) (enforce [(0:ℝ), 1/10, 2/10, 3/10, 4/10, 5/10, 6/10, 7/10, 8/10, 9/10, 1] false false minStepD maxStepD) ∧
    (enforce [(0:ℝ), 1/10, 2/10, 3/10, 4/10, 5/10, 6/10, 7/10, 8/10, 9/10, 1] false false minStepD maxStepD).head? = some (lowerLimit false) ∧
    (∀ v, (enforce [(0:ℝ), 1/10, 2/10, 3/10, 4/10, 5/10, 6/10, 7/10, 8/10, 9/10, 1] false false minStepD maxStepD).getLast? = some v →
      v ≤ upperLimit false) ∧
    (∀ x ∈ diffs (enforce [(0:ℝ), 1/10, 2/10, 3/10, 4/10, 5/10, 6/10, 7/10, 8/10, 9/10, 1] false false minStepD maxStepD),
      effL (upperLimit false - lowerLimit false) (([(0:ℝ), 1/10, 2/10, 3/10, 4/10, 5/10, 6/10, 7/10, 8/10, 9/10, 1]).length - 1) minStepD ≤ x ∧
        x ≤ maxStepD) := by
  have hLU : (1/20000 : ℝ) ≤ 589999/1000000 := by norm_num
  have hdr : diffs [(0:ℝ), 1/10, 2/10, 3/10, 4/10, 5/10, 6/10, 7/10, 8/10, 9/10, 1] = [(1/10:ℝ), 1/10, 1/10, 1/10, 1/10, 1/10, 1/10, 1/10, 1/10, 1/10] := by
    rw [show diffs [(0:ℝ), 1/10, 2/10, 3/10, 4/10, 5/10, 6/10, 7/10, 8/10, 9/10, 1] = [1/10 - 0, 2/10 - 1/10, 3/10 - 2/10, 4/10 - 3/10, 5/10 - 4/10, 6/10 - 5/10, 7/10 - 6/10, 8/10 - 7/10, 9/10 - 8/10, 1 - 9/10] from rfl]
    norm_num
  have hdRaw : (diffs (runningMax (([(0:ℝ), 1/10, 2/10, 3/10, 4/10, 5/10, 6/10, 7/10, 8/10, 9/10, 1]).map (clip 0 1)))).map (fun x => max x 0) =
      [(1/10:ℝ), 1/10, 1/10, 1/10, 1/10, 1/10, 1/10, 1/10, 1/10, 1/10] := by
    rw [show ([(0:ℝ), 1/10, 2/10, 3/10, 4/10, 5/10, 6/10, 7/10, 8/10, 9/10, 1]).map (clip 0 1) = [(0:ℝ), 1/10, 2/10, 3/10, 4/10, 5/10, 6/10, 7/10, 8/10, 9/10, 1] from by
      simp only [List.map_cons, List.map_nil]
      rw [clip_of_mem (le_refl (0:ℝ)) (by norm_num),
        clip_of_mem (by norm_num : (0:ℝ) ≤ 1/10) (by norm_num),
        clip_of_mem (by norm_num : (0:ℝ) ≤ 2/10) (by norm_num),
        clip_of_mem (by norm_num : (0:ℝ) ≤ 3/10) (by norm_num),
        clip_of_mem (by norm_num : (0:ℝ) ≤ 4/10) (by norm_num),
        clip_of_mem (by norm_num : (0:ℝ) ≤ 5/10) (by norm_num),
        clip_of_mem (by norm_num : (0:ℝ) ≤ 6/10) (by norm_num),
        clip_of_mem (by norm_num : (0:ℝ) ≤ 7/10) (by norm_num),
        clip_of_mem (by norm_num : (0:ℝ) ≤ 8/10) (by norm_num),
        clip_of_mem (by norm_num : (0:ℝ) ≤ 9/10) (by norm_num),
        clip_of_mem (by norm_num : (0:ℝ) ≤ 1) (by norm_num)]]
    rw [show runningMax [(0:ℝ), 1/10, 2/10, 3/10, 4/10, 5/10, 6/10, 7/10, 8/10, 9/10, 1] = [(0:ℝ), 1/10, 2/10, 3/10, 4/10, 5/10, 6/10, 7/10, 8/10, 9/10, 1] from
      runningMax_id (by norm_num [List.chain'_cons, List.chain'_singleton])]
    rw [hdr]
    simp only [List.map_cons, List.map_nil]
    rw [max_eq_left (by norm_num : (0:ℝ) ≤ 1/10)]
  -- first projection: ten equal increments of 1/10
  obtain ⟨lam1, hmap1, hsum1⟩ := project_spec [(1/10:ℝ), 1/10, 1/10, 1/10, 1/10, 1/10, 1/10, 1/10, 1/10, 1/10] 1 (1/20000)
    (589999/1000000) (1/10^12) (by norm_num) (by norm_num) 60
  set a := clip (1/20000 : ℝ) (589999/1000000) (1/10 + lam1) with ha_def
  have hmap1b : project [(1/10:ℝ), 1/10, 1/10, 1/10, 1/10, 1/10, 1/10, 1/10, 1/10, 1/10] 1 (1/20000) (589999/1000000) (1/10^12) 60 =
      [a, a, a, a, a, a, a, a, a, a] := by
    rw [hmap1]
    rfl
  have hct1 : clampTotal [(1/10:ℝ), 1/10, 1/10, 1/10, 1/10, 1/10, 1/10, 1/10, 1/10, 1/10] (1/20000) (589999/1000000) 1 = 1 := by
    unfold clampTotal
    rw [show (([(1/10:ℝ), 1/10, 1/10, 1/10, 1/10, 1/10, 1/10, 1/10, 1/10, 1/10]).length : ℝ) = 10 from by norm_num]
    exact clip_of_mem (by norm_num) (by norm_num)
  have hpe1 : projErr [(1/10:ℝ), 1/10, 1/10, 1/10, 1/10, 1/10, 1/10, 1/10, 1/10, 1/10] (1/20000) (589999/1000000) (1/10^12) 60 = 1/10^12 := by
    unfold projErr
    rw [show listMin [(1/10:ℝ), 1/10, 1/10, 1/10, 1/10, 1/10, 1/10, 1/10, 1/10, 1/10] = 1/10 from by
      show List.foldl min (1/10:ℝ) [1/10, 1/10, 1/10, 1/10, 1/10, 1/10, 1/10, 1/10, 1/10] = 1/10
      simp only [List.foldl_cons, List.foldl_nil, min_self]]
    rw [show listMax [(1/10:ℝ), 1/10, 1/10, 1/10, 1/10, 1/10, 1/10, 1/10, 1/10, 1/10] = 1/10 from by
      show List.foldl max (1/10:ℝ) [1/10, 1/10, 1/10, 1/10, 1/10, 1/10, 1/10, 1/10, 1/10] = 1/10
      simp only [List.foldl_cons, List.foldl_nil, max_self]]
    rw [show (([(1/10:ℝ), 1/10, 1/10, 1/10, 1/10, 1/10, 1/10, 1/10, 1/10, 1/10]).length : ℝ) = 10 from by norm_num]
    rw [max_eq_left (by norm_num)]
  rw [hmap1b, hct1, hpe1] at hsum1
  simp only [List.sum_cons, List.sum_nil] at hsum1
  rw [show a + (a + (a + (a + (a + (a + (a + (a + (a + (a + 0))))))))) - 1 =
    10 * a - 1 from by ring] at hsum1
  have h10m := abs_le.mp hsum1
  have haLo : (99/1000 : ℝ) ≤ a := by linarith only [h10m.1]
  have haHi : a ≤ 1/10 + 1/10^13 := by linarith only [h10m.2]
  have hmLo : (99/1000 : ℝ) ≤ min a (1 - 9 * a) :=
    le_min (by linarith only [haLo]) (by linarith only [haHi])
  have hmHi : min a (1 - 9 * a) ≤ a := min_le_left _ _
  have ham0 : 0 ≤ a - min a (1 - 9 * a) := by linarith only [hmHi]
  have hamE : a - min a (1 - 9 * a) ≤ 1/10^12 := by
    have hx : a - 1/10^12 ≤ min a (1 - 9 * a) := le_min (by linarith only []) (by linarith only [h10m.2])
    linarith only [hx]
  have hTlb : (99/100 : ℝ) ≤ 9 * a + min a (1 - 9 * a) := by linarith only [haLo, hmLo]
  -- the reconstructed first-stage cdf and its increments
  have hd1 : diffs (reconstruct (0:ℝ) 1 [a, a, a, a, a, a, a, a, a, a]) = [a, a, a, a, a, a, a, a, a, min a (1 - 9 * a)] := by
    rw [show ([a, a, a, a, a, a, a, a, a, a] : List ℝ) = [a, a, a, a, a, a, a, a, a] ++ [a] from rfl, diffs_reconstruct]
    rw [show ([a, a, a, a, a, a, a, a, a] : List ℝ).sum = 9 * a from by
      simp only [List.sum_cons, List.sum_nil]
      ring]
    rw [show (1:ℝ) - 0 - 9 * a = 1 - 9 * a from by ring]
    rfl
  have hsum_d1 : ([a, a, a, a, a, a, a, a, a, min a (1 - 9 * a)] : List ℝ).sum = 9 * a + min a (1 - 9 * a) := by
    simp only [List.sum_cons, List.sum_nil]
    ring
  have hmean1 : mean [a, a, a, a, a, a, a, a, a, min a (1 - 9 * a)] = (9 * a + min a (1 - 9 * a)) / 10 := by
    unfold mean
    rw [hsum_d1, show (([a, a, a, a, a, a, a, a, a, min a (1 - 9 * a)] : List ℝ).length : ℝ) = 10 from by norm_num]
  have hvar1 : variance [a, a, a, a, a, a, a, a, a, min a (1 - 9 * a)] = 9 * (a - min a (1 - 9 * a))^2 / 100 := by
    unfold variance
    rw [hmean1]
    simp only [List.map_cons, List.map_nil, List.sum_cons, List.sum_nil]
    rw [show (([a, a, a, a, a, a, a, a, a, min a (1 - 9 * a)] : List ℝ).length : ℝ) = 10 from by norm_num]
    ring
  -- anti-flatten branch conditions: nonempty, positive mean, cv below 0.1
  have h1branch : diffs (reconstruct (0:ℝ) 1 [a, a, a, a, a, a, a, a, a, a]) ≠ [] := by
    rw [hd1]
    simp
  have h2branch : ¬ mean (diffs (reconstruct (0:ℝ) 1 [a, a, a, a, a, a, a, a, a, a])) ≤ 0 := by
    rw [hd1, hmean1]
    intro hc
    linarith only [hc, hTlb]
  have hvltB : variance [a, a, a, a, a, a, a, a, a, min a (1 - 9 * a)] <
      (1/10 * (|mean [a, a, a, a, a, a, a, a, a, min a (1 - 9 * a)]| + 1/10^12))^2 := by
    rw [hvar1, hmean1, abs_of_nonneg (by linarith only [hTlb] : (0:ℝ) ≤ (9 * a + min a (1 - 9 * a)) / 10)]
    have hx2 : (a - min a (1 - 9 * a))^2 ≤ ((1:ℝ)/10^12)^2 := pow_le_pow_left ham0 hamE 2
    have hthr : (99/10000 : ℝ) ≤ 1/10 * ((9 * a + min a (1 - 9 * a)) / 10 + 1/10^12) := by linarith only [hTlb]
    have hsq : ((99:ℝ)/10000)^2 ≤ (1/10 * ((9 * a + min a (1 - 9 * a)) / 10 + 1/10^12))^2 :=
      pow_le_pow_left (by norm_num) hthr 2
    norm_num at hx2 hsq
    linarith only [hx2, hsq]
  have h3branch : ¬ (1/10 : ℝ) ≤ cv (diffs (reconstruct (0:ℝ) 1 [a, a, a, a, a, a, a, a, a, a])) := by
    rw [hd1]
    exact not_le.mpr ((cv_lt_iff _ (by norm_num)).mpr hvltB)
  -- the Gaussian kernel over ten positions
  have hker : gaussKer 10 = [Real.exp (-(81:ℝ)/50), Real.exp (-(49:ℝ)/50), Real.exp (-(1:ℝ)/2), Real.exp (-(9:ℝ)/50), Real.exp (-(1:ℝ)/50), Real.exp (-(1:ℝ)/50), Real.exp (-(9:ℝ)/50), Real.exp (-(1:ℝ)/2), Real.exp (-(49:ℝ)/50), Real.exp (-(81:ℝ)/50)] := by
    unfold gaussKer
    rw [show List.range 10 = [0, 1, 2, 3, 4, 5, 6, 7, 8, 9] from rfl]
    simp only [List.map_cons, List.map_nil]
    rw [show max (((10:ℕ):ℝ)/4) 1 = 5/2 from by
      rw [max_eq_left (by norm_num)]
      norm_num]
    norm_num
  have hkersum : (gaussKer 10).sum = 2 * (Real.exp (-(1:ℝ)/50) + Real.exp (-(9:ℝ)/50) + Real.exp (-(1:ℝ)/2) + Real.exp (-(49:ℝ)/50) + Real.exp (-(81:ℝ)/50)) := by
    rw [hker]
    simp only [List.sum_cons, List.sum_nil]
    ring
  have hS5 : (0:ℝ) < 2 * (Real.exp (-(1:ℝ)/50) + Real.exp (-(9:ℝ)/50) + Real.exp (-(1:ℝ)/2) + Real.exp (-(49:ℝ)/50) + Real.exp (-(81:ℝ)/50)) := by positivity
  -- each normalized weight lies in (0, 1/2]
  have hwbE81 : (0:ℝ) ≤ Real.exp (-(81:ℝ)/50) / (2 * (Real.exp (-(1:ℝ)/50) + Real.exp (-(9:ℝ)/50) + Real.exp (-(1:ℝ)/2) + Real.exp (-(49:ℝ)/50) + Real.exp (-(81:ℝ)/50))) ∧ Real.exp (-(81:ℝ)/50) / (2 * (Real.exp (-(1:ℝ)/50) + Real.exp (-(9:ℝ)/50) + Real.exp (-(1:ℝ)/2) + Real.exp (-(49:ℝ)/50) + Real.exp (-(81:ℝ)/50))) ≤ 1/2 := by
    constructor
    · exact div_nonneg (Real.exp_pos _).le hS5.le
    · rw [div_le_iff hS5]
      linarith only [Real.exp_pos (-(1:ℝ)/50), Real.exp_pos (-(9:ℝ)/50), Real.exp_pos (-(1:ℝ)/2), Real.exp_pos (-(49:ℝ)/50), Real.exp_pos (-(81:ℝ)/50)]
  have hwbE49 : (0:ℝ) ≤ Real.exp (-(49:ℝ)/50) / (2 * (Real.exp (-(1:ℝ)/50) + Real.exp (-(9:ℝ)/50) + Real.exp (-(1:ℝ)/2) + Real.exp (-(49:ℝ)/50) + Real.exp (-(81:ℝ)/50))) ∧ Real.exp (-(49:ℝ)/50) / (2 * (Real.exp (-(1:ℝ)/50) + Real.exp (-(9:ℝ)/50) + Real.exp (-(1:ℝ)/2) + Real.exp (-(49:ℝ)/50) + Real.exp (-(81:ℝ)/50))) ≤ 1/2 := by
    constructor
    · exact div_nonneg (Real.exp_pos _).le hS5.le
    · rw [div_le_iff hS5]
      linarith only [Real.exp_pos (-(1:ℝ)/50), Real.exp_pos (-(9:ℝ)/50), Real.exp_pos (-(1:ℝ)/2), Real.exp_pos (-(49:ℝ)/50), Real.exp_pos (-(81:ℝ)/50)]
  have hwbE12 : (0:ℝ) ≤ Real.exp (-(1:ℝ)/2) / (2 * (Real.exp (-(1:ℝ)/50) + Real.exp (-(9:ℝ)/50) + Real.exp (-(1:ℝ)/2) + Real.exp (-(49:ℝ)/50) + Real.exp (-(81:ℝ)/50))) ∧ Real.exp (-(1:ℝ)/2) / (2 * (Real.exp (-(1:ℝ)/50) + Real.exp (-(9:ℝ)/50) + Real.exp (-(1:ℝ)/2) + Real.exp (-(49:ℝ)/50) + Real.exp (-(81:ℝ)/50))) ≤ 1/2 := by
    constructor
    · exact div_nonneg (Real.exp_pos _).le hS5.le
    · rw [div_le_iff hS5]
      linarith only [Real.exp_pos (-(1:ℝ)/50), Real.exp_pos (-(9:ℝ)/50), Real.exp_pos (-(1:ℝ)/2), Real.exp_pos (-(49:ℝ)/50), Real.exp_pos (-(81:ℝ)/50)]
  have hwbE9 : (0:ℝ) ≤ Real.exp (-(9:ℝ)/50) / (2 * (Real.exp (-(1:ℝ)/50) + Real.exp (-(9:ℝ)/50) + Real.exp (-(1:ℝ)/2) + Real.exp (-(49:ℝ)/50) + Real.exp (-(81:ℝ)/50))) ∧ Real.exp (-(9:ℝ)/50) / (2 * (Real.exp (-(1:ℝ)/50) + Real.exp (-(9:ℝ)/50) + Real.exp (-(1:ℝ)/2) + Real.exp (-(49:ℝ)/50) + Real.exp (-(81:ℝ)/50))) ≤ 1/2 := by
    constructor
    · exact div_nonneg (Real.exp_pos _).le hS5.le
    · rw [div_le_iff hS5]
      linarith only [Real.exp_pos (-(1:ℝ)/50), Real.exp_pos (-(9:ℝ)/50), Real.exp_pos (-(1:ℝ)/2), Real.exp_pos (-(49:ℝ)/50), Real.exp_pos (-(81:ℝ)/50)]
  have hwbE1 : (0:ℝ) ≤ Real.exp (-(1:ℝ)/50) / (2 * (Real.exp (-(1:ℝ)/50) + Real.exp (-(9:ℝ)/50) + Real.exp (-(1:ℝ)/2) + Real.exp (-(49:ℝ)/50) + Real.exp (-(81:ℝ)/50))) ∧ Real.exp (-(1:ℝ)/50) / (2 * (Real.exp (-(1:ℝ)/50) + Real.exp (-(9:ℝ)/50) + Real.exp (-(1:ℝ)/2) + Real.exp (-(49:ℝ)/50) + Real.exp (-(81:ℝ)/50))) ≤ 1/2 := by
    constructor
    · exact div_nonneg (Real.exp_pos _).le hS5.le
    · rw [div_le_iff hS5]
      linarith only [Real.exp_pos (-(1:ℝ)/50), Real.exp_pos (-(9:ℝ)/50), Real.exp_pos (-(1:ℝ)/2), Real.exp_pos (-(49:ℝ)/50), Real.exp_pos (-(81:ℝ)/50)]
  have hw04 : Real.exp (-(81:ℝ)/50) / (2 * (Real.exp (-(1:ℝ)/50) + Real.exp (-(9:ℝ)/50) + Real.exp (-(1:ℝ)/2) + Real.exp (-(49:ℝ)/50) + Real.exp (-(81:ℝ)/50))) < Real.exp (-(1:ℝ)/50) / (2 * (Real.exp (-(1:ℝ)/50) + Real.exp (-(9:ℝ)/50) + Real.exp (-(1:ℝ)/2) + Real.exp (-(49:ℝ)/50) + Real.exp (-(81:ℝ)/50))) :=
    (div_lt_div_right hS5).mpr (Real.exp_lt_exp.mpr (by norm_num))
  -- the tilted increment vector, written out
  have htilt : tiltVec [a, a, a, a, a, a, a, a, a, min a (1 - 9 * a)] (1/5) = [(1 - 1/5) * a + 1/5 * (Real.exp (-(81:ℝ)/50) / (2 * (Real.exp (-(1:ℝ)/50) + Real.exp (-(9:ℝ)/50) + Real.exp (-(1:ℝ)/2) + Real.exp (-(49:ℝ)/50) + Real.exp (-(81:ℝ)/50))) * (9 * a + min a (1 - 9 * a))), (1 - 1/5) * a + 1/5 * (Real.exp (-(49:ℝ)/50) / (2 * (Real.exp (-(1:ℝ)/50) + Real.exp (-(9:ℝ)/50) + Real.exp (-(1:ℝ)/2) + Real.exp (-(49:ℝ)/50) + Real.exp (-(81:ℝ)/50))) * (9 * a + min a (1 - 9 * a))), (1 - 1/5) * a + 1/5 * (Real.exp (-(1:ℝ)/2) / (2 * (Real.exp (-(1:ℝ)/50) + Real.exp (-(9:ℝ)/50) + Real.exp (-(1:ℝ)/2) + Real.exp (-(49:ℝ)/50) + Real.exp (-(81:ℝ)/50))) * (9 * a + min a (1 - 9 * a))), (1 - 1/5) * a + 1/5 * (Real.exp (-(9:ℝ)/50) / (2 * (Real.exp (-(1:ℝ)/50) + Real.exp (-(9:ℝ)/50) + Real.exp (-(1:ℝ)/2) + Real.exp (-(49:ℝ)/50) + Real.exp (-(81:ℝ)/50))) * (9 * a + min a (1 - 9 * a))), (1 - 1/5) * a + 1/5 * (Real.exp (-(1:ℝ)/50) / (2 * (Real.exp (-(1:ℝ)/50) + Real.exp (-(9:ℝ)/50) + Real.exp (-(1:ℝ)/2) + Real.exp (-(49:ℝ)/50) + Real.exp (-(81:ℝ)/50))) * (9 * a + min a (1 - 9 * a))), (1 - 1/5) * a + 1/5 * (Real.exp (-(1:ℝ)/50) / (2 * (Real.exp (-(1:ℝ)/50) + Real.exp (-(9:ℝ)/50) + Real.exp (-(1:ℝ)/2) + Real.exp (-(49:ℝ)/50) + Real.exp (-(81:ℝ)/50))) * (9 * a + min a (1 - 9 * a))), (1 - 1/5) * a + 1/5 * (Real.exp (-(9:ℝ)/50) / (2 * (Real.exp (-(1:ℝ)/50) + Real.exp (-(9:ℝ)/50) + Real.exp (-(1:ℝ)/2) + Real.exp (-(49:ℝ)/50) + Real.exp (-(81:ℝ)/50))) * (9 * a + min a (1 - 9 * a))), (1 - 1/5) * a + 1/5 * (Real.exp (-(1:ℝ)/2) / (2 * (Real.exp (-(1:ℝ)/50) + Real.exp (-(9:ℝ)/50) + Real.exp (-(1:ℝ)/2) + Real.exp (-(49:ℝ)/50) + Real.exp (-(81:ℝ)/50))) * (9 * a + min a (1 - 9 * a))), (1 - 1/5) * a + 1/5 * (Real.exp (-(49:ℝ)/50) / (2 * (Real.exp (-(1:ℝ)/50) + Real.exp (-(9:ℝ)/50) + Real.exp (-(1:ℝ)/2) + Real.exp (-(49:ℝ)/50) + Real.exp (-(81:ℝ)/50))) * (9 * a + min a (1 - 9 * a))), (1 - 1/5) * (min a (1 - 9 * a)) + 1/5 * (Real.exp (-(81:ℝ)/50) / (2 * (Real.exp (-(1:ℝ)/50) + Real.exp (-(9:ℝ)/50) + Real.exp (-(1:ℝ)/2) + Real.exp (-(49:ℝ)/50) + Real.exp (-(81:ℝ)/50))) * (9 * a + min a (1 - 9 * a)))] := by
    unfold tiltVec
    rw [show ([a, a, a, a, a, a, a, a, a, min a (1 - 9 * a)] : List ℝ).length = 10 from rfl]
    rw [hkersum, hker]
    simp only [List.map_cons, List.map_nil, List.zipWith_cons_cons,
      List.zipWith_nil_right, List.zipWith_nil_left]
    rw [hsum_d1]
  -- the abstract-weight lemma, instantiated at the normalized kernel weights
  obtain ⟨hRcv, hRchain, hRhead, hRlast, hRsteps⟩ := c8_reconstruct_spec a
    (Real.exp (-(81:ℝ)/50) / (2 * (Real.exp (-(1:ℝ)/50) + Real.exp (-(9:ℝ)/50) + Real.exp (-(1:ℝ)/2) + Real.exp (-(49:ℝ)/50) + Real.exp (-(81:ℝ)/50)))) (Real.exp (-(49:ℝ)/50) / (2 * (Real.exp (-(1:ℝ)/50) + Real.exp (-(9:ℝ)/50) + Real.exp (-(1:ℝ)/2) + Real.exp (-(49:ℝ)/50) + Real.exp (-(81:ℝ)/50)))) (Real.exp (-(1:ℝ)/2) / (2 * (Real.exp (-(1:ℝ)/50) + Real.exp (-(9:ℝ)/50) + Real.exp (-(1:ℝ)/2) + Real.exp (-(49:ℝ)/50) + Real.exp (-(81:ℝ)/50)))) (Real.exp (-(9:ℝ)/50) / (2 * (Real.exp (-(1:ℝ)/50) + Real.exp (-(9:ℝ)/50) + Real.exp (-(1:ℝ)/2) + Real.exp (-(49:ℝ)/50) + Real.exp (-(81:ℝ)/50)))) (Real.exp (-(1:ℝ)/50) / (2 * (Real.exp (-(1:ℝ)/50) + Real.exp (-(9:ℝ)/50) + Real.exp (-(1:ℝ)/2) + Real.exp (-(49:ℝ)/50) + Real.exp (-(81:ℝ)/50))))
    hsum1 hwbE81.1 hwbE81.2 hwbE49.1 hwbE49.2 hwbE12.1 hwbE12.2
    hwbE9.1 hwbE9.2 hwbE1.1 hwbE1.2 hw04
  -- the enforce call, evaluated
  have henf : enforce [(0:ℝ), 1/10, 2/10, 3/10, 4/10, 5/10, 6/10, 7/10, 8/10, 9/10, 1] false false minStepD maxStepD =
      reconstruct (0:ℝ) 1 (project [(1 - 1/5) * a + 1/5 * (Real.exp (-(81:ℝ)/50) / (2 * (Real.exp (-(1:ℝ)/50) + Real.exp (-(9:ℝ)/50) + Real.exp (-(1:ℝ)/2) + Real.exp (-(49:ℝ)/50) + Real.exp (-(81:ℝ)/50))) * (9 * a + min a (1 - 9 * a))), (1 - 1/5) * a + 1/5 * (Real.exp (-(49:ℝ)/50) / (2 * (Real.exp (-(1:ℝ)/50) + Real.exp (-(9:ℝ)/50) + Real.exp (-(1:ℝ)/2) + Real.exp (-(49:ℝ)/50) + Real.exp (-(81:ℝ)/50))) * (9 * a + min a (1 - 9 * a))), (1 - 1/5) * a + 1/5 * (Real.exp (-(1:ℝ)/2) / (2 * (Real.exp (-(1:ℝ)/50) + Real.exp (-(9:ℝ)/50) + Real.exp (-(1:ℝ)/2) + Real.exp (-(49:ℝ)/50) + Real.exp (-(81:ℝ)/50))) * (9 * a + min a (1 - 9 * a))), (1 - 1/5) * a + 1/5 * (Real.exp (-(9:ℝ)/50) / (2 * (Real.exp (-(1:ℝ)/50) + Real.exp (-(9:ℝ)/50) + Real.exp (-(1:ℝ)/2) + Real.exp (-(49:ℝ)/50) + Real.exp (-(81:ℝ)/50))) * (9 * a + min a (1 - 9 * a))), (1 - 1/5) * a + 1/5 * (Real.exp (-(1:ℝ)/50) / (2 * (Real.exp (-(1:ℝ)/50) + Real.exp (-(9:ℝ)/50) + Real.exp (-(1:ℝ)/2) + Real.exp (-(49:ℝ)/50) + Real.exp (-(81:ℝ)/50))) * (9 * a + min a (1 - 9 * a))), (1 - 1/5) * a + 1/5 * (Real.exp (-(1:ℝ)/50) / (2 * (Real.exp (-(1:ℝ)/50) + Real.exp (-(9:ℝ)/50) + Real.exp (-(1:ℝ)/2) + Real.exp (-(49:ℝ)/50) + Real.exp (-(81:ℝ)/50))) * (9 * a + min a (1 - 9 * a))), (1 - 1/5) * a + 1/5 * (Real.exp (-(9:ℝ)/50) / (2 * (Real.exp (-(1:ℝ)/50) + Real.exp (-(9:ℝ)/50) + Real.exp (-(1:ℝ)/2) + Real.exp (-(49:ℝ)/50) + Real.exp (-(81:ℝ)/50))) * (9 * a + min a (1 - 9 * a))), (1 - 1/5) * a + 1/5 * (Real.exp (-(1:ℝ)/2) / (2 * (Real.exp (-(1:ℝ)/50) + Real.exp (-(9:ℝ)/50) + Real.exp (-(1:ℝ)/2) + Real.exp (-(49:ℝ)/50) + Real.exp (-(81:ℝ)/50))) * (9 * a + min a (1 - 9 * a))), (1 - 1/5) * a + 1/5 * (Real.exp (-(49:ℝ)/50) / (2 * (Real.exp (-(1:ℝ)/50) + Real.exp (-(9:ℝ)/50) + Real.exp (-(1:ℝ)/2) + Real.exp (-(49:ℝ)/50) + Real.exp (-(81:ℝ)/50))) * (9 * a + min a (1 - 9 * a))), (1 - 1/5) * (min a (1 - 9 * a)) + 1/5 * (Real.exp (-(81:ℝ)/50) / (2 * (Real.exp (-(1:ℝ)/50) + Real.exp (-(9:ℝ)/50) + Real.exp (-(1:ℝ)/2) + Real.exp (-(49:ℝ)/50) + Real.exp (-(81:ℝ)/50))) * (9 * a + min a (1 - 9 * a)))] 1 (1/20000)
        (589999/1000000) (1/10^12) 60) := by
    rw [enforce_eq _ _ _ _ _ (by norm_num)]
    rw [show (lowerLimit false : ℝ) = 0 from rfl,
      show (upperLimit false : ℝ) = 1 from rfl]
    rw [show ((1:ℝ) - 0) = 1 by norm_num]
    rw [show (([(0:ℝ), 1/10, 2/10, 3/10, 4/10, 5/10, 6/10, 7/10, 8/10, 9/10, 1]).length - 1) = 10 from rfl]
    rw [show minStepD = (1/20000 : ℝ) from rfl,
      show maxStepD = (589999/1000000 : ℝ) from rfl]
    rw [hdRaw]
    rw [show effL (1:ℝ) 10 (1/20000) = 1/20000 from by
      unfold effL
      rw [if_neg (by push_cast; norm_num)]]
    rw [hmap1b]
    rw [antiFlatten_corr _ _ _ _ _ _ _ h1branch h2branch h3branch]
    rw [show (lowerLimit false : ℝ) = 0 from rfl,
      show (upperLimit false : ℝ) = 1 from rfl]
    rw [show ((1:ℝ) - 0) = 1 by norm_num]
    rw [hd1]
    rw [show ([a, a, a, a, a, a, a, a, a, min a (1 - 9 * a)] : List ℝ).length = 10 from rfl]
    rw [show effL (1:ℝ) 10 (1/20000) = 1/20000 from by
      unfold effL
      rw [if_neg (by push_cast; norm_num)]]
    rw [htilt]
  refine ⟨?_, ?_, ?_, ?_, ?_⟩
  · -- strict cv increase
    have hcvin : cv (diffs [(0:ℝ), 1/10, 2/10, 3/10, 4/10, 5/10, 6/10, 7/10, 8/10, 9/10, 1]) = 0 := by
      rw [hdr]
      apply cv_eq_zero_of_variance_eq_zero
      rw [show ([(1/10:ℝ), 1/10, 1/10, 1/10, 1/10, 1/10, 1/10, 1/10, 1/10, 1/10] : List ℝ) = List.replicate 10 (1/10 : ℝ) from rfl]
      exact variance_replicate (by norm_num) _
    rw [henf, hcvin]
    exact hRcv
  · rw [henf]
    exact hRchain
  · rw [henf, show (lowerLimit false : ℝ) = 0 from rfl]
    exact hRhead
  · rw [henf, show (upperLimit false : ℝ) = 1 from rfl]
    exact hRlast
  · rw [henf]
    rw [show (upperLimit false : ℝ) = 1 from rfl,
      show (lowerLimit false : ℝ) = 0 from rfl]
    rw [show ((1:ℝ) - 0) = 1 by norm_num]
    rw [show (([(0:ℝ), 1/10, 2/10, 3/10, 4/10, 5/10, 6/10, 7/10, 8/10, 9/10, 1]).length - 1) = 10 from rfl]
    rw [show minStepD = (1/20000 : ℝ) from rfl,
      show maxStepD = (589999/1000000 : ℝ) from rfl]
    rw [show effL (1:ℝ) 10 (1/20000) = 1/20000 from by
      unfold effL
      rw [if_neg (by push_cast; norm_num)]]
    exact hRsteps

end ClaimTheorems

end CdfProj
